import Mathlib

/-!
# qmlog: settings model, record formatter, sinks and fan-out

A shallow embedding of `src/src/log-declarations.h`, `src/src/LoggerSettings.cpp` and
`src/src/log.cpp`.

Conventions of the embedding:

* a C `int` is an `Int`; the bit operators `&`, `|` and `<<` are `Int.land`, `Int.lor` and
  `<<<` (two's complement on unbounded integers, which agrees with the 32-bit operators on
  every value an `int` can hold and every shift the code performs);
* the conversion of an `int` to `bool` (`return message_format & EMTimer;`) is `toBool`,
  the test against zero;
* a `const char *` that is never `NULL` is a `String`, one that may be `NULL` is an
  `Option String`; one `Char` stands for one byte;
* a failed `assert` is the result `none`.
-/

namespace Qmlog

/-! ## `log-declarations.h`: levels and output bits -/

def LOG_LEVEL_INTERNAL : Int := 0
def LOG_LEVEL_CRITICAL : Int := 1
def LOG_LEVEL_ERROR : Int := 2
def LOG_LEVEL_WARNING : Int := 3
def LOG_LEVEL_INFO : Int := 4
def LOG_LEVEL_DEBUG : Int := 5

def LOG_MAX_LEVEL : Int := 5

/-- The macro `LOG_BIT_MASK(bit)`, that is `(1 << bit)`. -/
def LOG_BIT_MASK (bit : Int) : Int := (1 : Int) <<< bit

def LOG_MAX_LOCATION : Int :=
  Int.lor (LOG_BIT_MASK LOG_LEVEL_DEBUG) (LOG_BIT_MASK LOG_LEVEL_INTERNAL)

def LOG_OUTPUT_WORD_WRAP : Int := 0
def LOG_OUTPUT_MESSAGE : Int := 1
def LOG_OUTPUT_FILE_LINE : Int := 2
def LOG_OUTPUT_FUNC : Int := 3
def LOG_OUTPUT_PID : Int := 4
def LOG_OUTPUT_NAME : Int := 5
def LOG_OUTPUT_TZ_SYM_LINK : Int := 6
def LOG_OUTPUT_TIME_LOW_BIT : Int := 7
def LOG_OUTPUT_TIME_HIGH_BIT : Int := 8
def LOG_OUTPUT_DATE : Int := 9
def LOG_OUTPUT_TZ_ABBR : Int := 10
def LOG_OUTPUT_MTIMER_LOW_BIT : Int := 11
def LOG_OUTPUT_MTIMER_HIGH_BIT : Int := 12

/-- The implicit conversion of a C `int` to `bool`. -/
def toBool (x : Int) : Bool := decide (x ≠ 0)

/-! ## `LoggerSettings` -/

/-- The three private fields of `class LoggerSettings`. -/
structure LoggerSettings where
  verbosity_level : Int
  location_mask : Int
  message_format : Int
deriving DecidableEq, Repr

namespace LoggerSettings

def EMTimerMs : Int := LOG_BIT_MASK LOG_OUTPUT_MTIMER_HIGH_BIT
def EMTimerNs : Int := LOG_BIT_MASK LOG_OUTPUT_MTIMER_LOW_BIT
def EMTimer : Int := Int.lor EMTimerMs EMTimerNs
def ETzAbbr : Int := LOG_BIT_MASK LOG_OUTPUT_TZ_ABBR
def EDate : Int := LOG_BIT_MASK LOG_OUTPUT_DATE
def ETimeMs : Int := LOG_BIT_MASK LOG_OUTPUT_TIME_HIGH_BIT
def ETimeNs : Int := LOG_BIT_MASK LOG_OUTPUT_TIME_LOW_BIT
/-- Modelled from the spec: the enumerator `ETimeMicS` that `isTimeMs` and `isTimeMicS` test is
not declared in the header under `src/`, which still calls the low bit of the time of day
`ETimeNs`. The spec gives the time of day two sub-bits, a millisecond one and a
higher-resolution one; `ETimeMicS` is that higher-resolution sub-bit, `LOG_OUTPUT_TIME_LOW_BIT`. -/
def ETimeMicS : Int := LOG_BIT_MASK LOG_OUTPUT_TIME_LOW_BIT
def ETime : Int := Int.lor ETimeMs ETimeNs
def ETzSymLink : Int := LOG_BIT_MASK LOG_OUTPUT_TZ_SYM_LINK
def EDateTimeInfo : Int :=
  Int.lor (Int.lor (Int.lor (Int.lor EMTimer ETzAbbr) EDate) ETime) ETzSymLink
def EName : Int := LOG_BIT_MASK LOG_OUTPUT_NAME
def EPid : Int := LOG_BIT_MASK LOG_OUTPUT_PID
def EProcessInfo : Int := Int.lor EName EPid
def EFunc : Int := LOG_BIT_MASK LOG_OUTPUT_FUNC
def EFileLine : Int := LOG_BIT_MASK LOG_OUTPUT_FILE_LINE
def EMessage : Int := LOG_BIT_MASK LOG_OUTPUT_MESSAGE
def EDebugInfo : Int := Int.lor (Int.lor EFunc EFileLine) EMessage
def EWordWrap : Int := LOG_BIT_MASK LOG_OUTPUT_WORD_WRAP

def setVerbosityLevel (s : LoggerSettings) (new_verbosity_level : Int) : LoggerSettings :=
  { s with verbosity_level := new_verbosity_level }

def setLocationMask (s : LoggerSettings) (new_location_mask : Int) : LoggerSettings :=
  { s with location_mask := new_location_mask }

def setMessageFormat (s : LoggerSettings) (new_message_format : Int) : LoggerSettings :=
  { s with message_format := new_message_format }

def isLogShown (s : LoggerSettings) (aLevel : Int) : Bool :=
  decide (aLevel ≤ s.verbosity_level)

def isLocationShown (s : LoggerSettings) (aLevel : Int) : Bool :=
  toBool (Int.land ((1 : Int) <<< aLevel) s.location_mask)

def isMTimerMs (s : LoggerSettings) : Bool :=
  toBool (Int.land s.message_format EMTimerMs) && !toBool (Int.land s.message_format EMTimerNs)

def isMTimerNs (s : LoggerSettings) : Bool :=
  !toBool (Int.land s.message_format EMTimerMs) && toBool (Int.land s.message_format EMTimerNs)

def isMTimer (s : LoggerSettings) : Bool :=
  toBool (Int.land s.message_format EMTimer)

def isTzAbbr (s : LoggerSettings) : Bool :=
  toBool (Int.land s.message_format ETzAbbr)

def isDate (s : LoggerSettings) : Bool :=
  toBool (Int.land s.message_format EDate)

def isTimeMs (s : LoggerSettings) : Bool :=
  toBool (Int.land s.message_format ETimeMs) && !toBool (Int.land s.message_format ETimeMicS)

def isTimeMicS (s : LoggerSettings) : Bool :=
  !toBool (Int.land s.message_format ETimeMs) && toBool (Int.land s.message_format ETimeMicS)

def isTime (s : LoggerSettings) : Bool :=
  toBool (Int.land s.message_format ETime)

def isTzSymLink (s : LoggerSettings) : Bool :=
  toBool (Int.land s.message_format ETzSymLink)

def isDateTimeInfo (s : LoggerSettings) : Bool :=
  toBool (Int.land s.message_format EDateTimeInfo)

def isName (s : LoggerSettings) : Bool :=
  toBool (Int.land s.message_format EName)

def isPid (s : LoggerSettings) : Bool :=
  toBool (Int.land s.message_format EPid)

def isProcessInfo (s : LoggerSettings) : Bool :=
  toBool (Int.land s.message_format EProcessInfo)

def isFunc (s : LoggerSettings) : Bool :=
  toBool (Int.land s.message_format EFunc)

def isFileLine (s : LoggerSettings) : Bool :=
  toBool (Int.land s.message_format EFileLine)

def isMessage (s : LoggerSettings) : Bool :=
  toBool (Int.land s.message_format EMessage)

def isDebugInfo (s : LoggerSettings) : Bool :=
  toBool (Int.land s.message_format EDebugInfo)

def isWordWrap (s : LoggerSettings) : Bool :=
  toBool (Int.land s.message_format EWordWrap)

end LoggerSettings

/-! ## The C library as the code uses it -/

/-- The test `(p && p[0] != 0)` on a string that is not `NULL`. -/
def hasText (p : String) : Bool := !p.data.isEmpty

/-- The conversions `%d` and `%ld`: the decimal digits, with a minus sign when negative. -/
def fmt_d (n : Int) : String := toString n

/-- Left padding of a digit string with zeros up to `width` characters. -/
def zeroPad (width : Nat) (digits : String) : String :=
  ⟨List.replicate (width - digits.data.length) '0' ++ digits.data⟩

/-- The conversions `%03ld`, `%06ld` and `%09ld`: at least `width` characters, zeros after the
sign. -/
def fmt_0d (width : Nat) (n : Int) : String :=
  if 0 ≤ n then zeroPad width (toString n.toNat)
  else "-" ++ zeroPad (width - 1) (toString n.natAbs)

/-- A variadic argument of a printf-style call. -/
inductive Arg where
  | int (n : Int)
  | str (text : String)
deriving DecidableEq, Repr

/-- The text `vsnprintf` produces, without any size limit, for the conversions `%d`, `%i`,
`%ld`, `%s` and `%%`. A conversion whose argument is missing or of the other kind, and any other
character after `%`, is copied as it stands. -/
def vformat : List Char → List Arg → List Char
  | [], _ => []
  | '%' :: '%' :: rest, args => '%' :: vformat rest args
  | '%' :: 'd' :: rest, Arg.int n :: args => (fmt_d n).data ++ vformat rest args
  | '%' :: 'i' :: rest, Arg.int n :: args => (fmt_d n).data ++ vformat rest args
  | '%' :: 'l' :: 'd' :: rest, Arg.int n :: args => (fmt_d n).data ++ vformat rest args
  | '%' :: 's' :: rest, Arg.str text :: args => text.data ++ vformat rest args
  | c :: rest, args => c :: vformat rest args

/-- The text of a printf-style call with format `fmt` and arguments `args`. -/
def sprintf (fmt : String) (args : List Arg) : String := ⟨vformat fmt.data args⟩

/-- The fields of `struct timespec`. -/
structure timespec where
  tv_sec : Int
  tv_nsec : Int
deriving DecidableEq, Repr

/-- The fields of `struct timeval`. -/
structure timeval where
  tv_sec : Int
  tv_usec : Int
deriving DecidableEq, Repr

/-- The fields of `struct tm` that `%F`, `%T` and `tm_zone` read. -/
structure tm where
  tm_sec : Int
  tm_min : Int
  tm_hour : Int
  tm_mday : Int
  tm_mon : Int
  tm_year : Int
  tm_zone : String
deriving DecidableEq, Repr

/-- The `strftime` conversion `%F`, the date as year-month-day. -/
def strftime_F (t : tm) : String :=
  fmt_d (t.tm_year + 1900) ++ "-" ++ fmt_0d 2 (t.tm_mon + 1) ++ "-" ++ fmt_0d 2 t.tm_mday

/-- The `strftime` conversion `%T`, the time as hour:minute:second. -/
def strftime_T (t : tm) : String :=
  fmt_0d 2 t.tm_hour ++ ":" ++ fmt_0d 2 t.tm_min ++ ":" ++ fmt_0d 2 t.tm_sec

/-- What the operating system answers to the calls the logger makes. -/
structure OS where
  /-- The answer of `clock_gettime(CLOCK_MONOTONIC, ...)`. -/
  clock_monotonic : timespec
  /-- The answer of `gettimeofday(...)`. -/
  timeofday : timeval
  /-- The answer of `localtime_r` for the seconds of `timeofday`. -/
  localtime : tm
  /-- The answer of `readlink("/etc/localtime", ...)`: the link text, or on failure the text
  of `strerror(errno)`. -/
  readlink_localtime : Except String String
  /-- The answer of `getpid()`. -/
  pid : Int

def LOG_DAEMON : Int := 24
def LOG_ALERT : Int := 1
def LOG_CRIT : Int := 2
def LOG_ERR : Int := 3
def LOG_WARNING : Int := 4
def LOG_INFO : Int := 6
def LOG_DEBUG : Int := 7

/-- One effect of a sink on the outside world. -/
inductive Output where
  /-- The bytes one `printLog` writes to the stream `fp` with `fprintf`, flushed at the end. -/
  | fwrite (fp : Nat) (text : String)
  /-- One call `syslog(priority, fmt, args...)`. -/
  | syslog (priority : Int) (fmt : String) (args : List String)
deriving DecidableEq, Repr

/-- The line a `syslog` call logs, empty for a file write. -/
def Output.syslogText : Output → String
  | Output.fwrite _ _ => ""
  | Output.syslog _ fmt args => sprintf fmt (args.map Arg.str)

/-- Is the output a call of `syslog`? -/
def Output.isSyslog : Output → Bool
  | Output.fwrite _ _ => false
  | Output.syslog _ _ _ => true

/-- The number of newline characters in a text: the number of lines it terminates. -/
def lineCount (text : String) : Nat := text.data.count '\n'

/-! ## `SmartBuffer` -/

/-- Modelled from the spec: the class template `SmartBuffer<Len>` is not under `src/`. The spec
says that the buffers for each segment are fixed-capacity and that formatting that would exceed
a segment's capacity truncates rather than growing. The buffer is the text it holds;
`append` adds the formatted text and keeps at most `Len - 1` bytes of the whole, the last byte
of the buffer being the terminator. -/
def SmartBuffer.append (Len : Nat) (buf text : String) : String :=
  ⟨(buf.data ++ text.data).take (Len - 1)⟩

/-! ## `LoggerDev`: the record formatter -/

/-- The state of the logger as `log.cpp` uses it (the header under `src/` declares an older
layout): the time snapshot `iTs`, `iTv`, `iTm` taken by `updateTime`, the static `prg_name`, and
the registered sinks `iDevs`, a `std::list<LoggerDev*>` (a `LoggerDev*` is an address, `0` is
`NULL`). -/
structure log_t where
  iDevs : List Nat
  iTs : timespec
  iTv : timeval
  iTm : tm
  prg_name : String

/-- The timezone link text of `LoggerDev::vlogGeneric`: the 1024-byte `tzLink` after `readlink`
or `strerror`, with the prefix `/usr/share/zoneinfo/` taken off a link that starts with it. -/
def tzLink (os : OS) : String :=
  match os.readlink_localtime with
  | Except.error description => ⟨description.data.take 1023⟩
  | Except.ok link =>
    let link := link.data.take 1023
    let base := "/usr/share/zoneinfo/".data
    if base.isPrefixOf link then ⟨link.drop base.length⟩ else ⟨link⟩

/-- The date/time block of `LoggerDev::vlogGeneric` (`dateInfo`, 256 bytes): the text of the
buffer and the value of `addSpace` after the block. -/
def LoggerDev.vlogGeneric_dateInfo (settings : LoggerSettings) (logger : log_t) (os : OS) :
    String × Bool :=
  let dateInfo := ""
  let addSpace := false
  if settings.isDateTimeInfo then
    let (dateInfo, addSpace) :=
      if settings.isMTimer then
        let dateInfo := SmartBuffer.append 256 dateInfo (fmt_d logger.iTs.tv_sec)
        let dateInfo :=
          if settings.isMTimerMs then
            SmartBuffer.append 256 dateInfo ("." ++ fmt_0d 3 (Int.tdiv logger.iTs.tv_nsec 1000000))
          else if settings.isMTimerNs then
            SmartBuffer.append 256 dateInfo ("." ++ fmt_0d 9 logger.iTs.tv_nsec)
          else dateInfo
        (dateInfo, true)
      else (dateInfo, addSpace)
    let (dateInfo, addSpace) :=
      if settings.isTzAbbr then
        (SmartBuffer.append 256 dateInfo
          (if addSpace then " (" ++ logger.iTm.tm_zone ++ ")" else "(" ++ logger.iTm.tm_zone ++ ")"),
          true)
      else (dateInfo, addSpace)
    let (dateInfo, addSpace) :=
      if settings.isDate || settings.isTime then
        let text :=
          if settings.isDate && settings.isTime then
            (if addSpace then " " ++ strftime_F logger.iTm ++ " " ++ strftime_T logger.iTm
              else strftime_F logger.iTm ++ " " ++ strftime_T logger.iTm)
          else if settings.isDate then
            (if addSpace then " " ++ strftime_F logger.iTm else strftime_F logger.iTm)
          else (if addSpace then " " ++ strftime_T logger.iTm else strftime_T logger.iTm)
        let dateInfo := SmartBuffer.append 256 dateInfo text
        let dateInfo :=
          if settings.isTime then
            if settings.isTimeMs then
              SmartBuffer.append 256 dateInfo ("." ++ fmt_0d 3 (Int.tdiv logger.iTv.tv_usec 1000))
            else if settings.isTimeMicS then
              SmartBuffer.append 256 dateInfo ("." ++ fmt_0d 6 logger.iTv.tv_usec)
            else dateInfo
          else dateInfo
        (dateInfo, true)
      else (dateInfo, addSpace)
    let dateInfo :=
      if settings.isTzSymLink then
        SmartBuffer.append 256 dateInfo
          (if addSpace then " \x27" ++ tzLink os ++ "\x27" else "\x27" ++ tzLink os ++ "\x27")
      else dateInfo
    (dateInfo, false)
  else (dateInfo, addSpace)

/-- The process block of `LoggerDev::vlogGeneric` (`processInfo`, 64 bytes). -/
def LoggerDev.vlogGeneric_processInfo (settings : LoggerSettings) (logger : log_t) (os : OS) :
    String :=
  let processInfo := ""
  if settings.isProcessInfo then
    let processInfo :=
      if settings.isName then SmartBuffer.append 64 processInfo logger.prg_name else processInfo
    let processInfo :=
      if settings.isPid then SmartBuffer.append 64 processInfo ("(" ++ fmt_d os.pid ++ ")")
      else processInfo
    processInfo
  else processInfo

/-- The debug block of `LoggerDev::vlogGeneric` (`debugInfo`, 1024 bytes), entered with the
current value of `addSpace`: the text of the buffer and `isFullDebugInfo`. -/
def LoggerDev.vlogGeneric_debugInfo (settings : LoggerSettings) (addSpace : Bool)
    (aLevel aLine : Int) (aFile aFunc : Option String) : String × Bool :=
  let debugInfo := ""
  let isFullDebugInfo := false
  if settings.isDebugInfo && settings.isLocationShown aLevel then
    let (debugInfo, addSpace) :=
      match aFile with
      | some file =>
        if settings.isFileLine && decide (aLine > 0) then
          (SmartBuffer.append 1024 debugInfo (file ++ ":" ++ fmt_d aLine), true)
        else (debugInfo, addSpace)
      | none => (debugInfo, addSpace)
    let debugInfo :=
      match aFunc with
      | some func =>
        if settings.isFunc then
          SmartBuffer.append 1024 debugInfo (if addSpace then " in " ++ func else "in " ++ func)
        else debugInfo
      | none => debugInfo
    let isFullDebugInfo :=
      (decide (aLine > 0) && aFile.isSome && aFunc.isSome) &&
        (settings.isFileLine && settings.isFunc)
    (debugInfo, isFullDebugInfo)
  else (debugInfo, isFullDebugInfo)

/-- The message block of `LoggerDev::vlogGeneric` (`message`, 1024 bytes):
`message.vappend(aFmt, anArgs)`. -/
def LoggerDev.vlogGeneric_message (aFmt : String) (anArgs : List Arg) : String :=
  SmartBuffer.append 1024 "" (sprintf aFmt anArgs)

/-! ## The sinks -/

/-- The table `names` of `log_t::level_name`. -/
def log_t.names : List String :=
  ["INTERNAL ERROR", "CRITICAL ERROR", "ERROR", "WARNING", "INFO", "DEBUG"]

/-- The function `log_t::level_name`, with its two assertions. -/
def log_t.level_name (level : Int) : Option String :=
  if ¬ (0 ≤ level) then none
  else if ¬ (level.toNat < log_t.names.length) then none
  else log_t.names.get? level.toNat

/-- The table `syslog_names` of `SysLogDev::syslog_level_id`. -/
def SysLogDev.syslog_names : List Int :=
  [LOG_ALERT, LOG_CRIT, LOG_ERR, LOG_WARNING, LOG_INFO, LOG_DEBUG]

/-- The function `SysLogDev::syslog_level_id`, with its two assertions. -/
def SysLogDev.syslog_level_id (level : Int) : Option Int :=
  if ¬ (0 ≤ level) then none
  else if ¬ (level.toNat < SysLogDev.syslog_names.length) then none
  else SysLogDev.syslog_names.get? level.toNat

/-- The method `FileLoggerDev::vlogPrefixes`: the text written and the returned flag. -/
def FileLoggerDev.vlogPrefixes (aDateTimeInfo aProcessInfo : String) : String × Bool :=
  let hasDateTimeInfo := hasText aDateTimeInfo
  let hasProcessInfo := hasText aProcessInfo
  let written := if hasDateTimeInfo then "[" ++ aDateTimeInfo ++ "]" else ""
  let written :=
    if hasProcessInfo then
      written ++ (if hasDateTimeInfo then " [" ++ aProcessInfo ++ "]" else aProcessInfo ++ ":")
    else written
  (written, hasDateTimeInfo || hasProcessInfo)

/-- The method `FileLoggerDev::vlogDebugInfo`: the text written and the returned flag. -/
def FileLoggerDev.vlogDebugInfo (settings : LoggerSettings) (aLevel : Int) (aDebugInfo : String)
    (aPrefixExists : Bool) : Option (String × Bool) := do
  let hasDebugInfo := hasText aDebugInfo
  let name ← log_t.level_name aLevel
  let written :=
    if hasDebugInfo && settings.isFileLine then
      (if aPrefixExists then " " ++ name ++ " at" else name ++ " at")
    else (if aPrefixExists then " " ++ name else name)
  let written :=
    if hasDebugInfo then
      written ++ (if aPrefixExists then " " ++ aDebugInfo else aDebugInfo)
    else written ++ ":"
  some (written, hasDebugInfo)

/-- The method `FileLoggerDev::printLog`: the bytes written to `iFp`. Writing to a `NULL`
stream is undefined and is the failure `none`. -/
def FileLoggerDev.printLog (settings : LoggerSettings) (iFp : Nat) (aLevel : Int)
    (aDateTimeInfo aProcessInfo aDebugInfo : String) (aIsFullDebugInfo : Bool)
    (aMessage : String) : Option (List Output) := do
  if iFp = 0 then none
  let (prefixes, hasPrefix) := FileLoggerDev.vlogPrefixes aDateTimeInfo aProcessInfo
  let (debug, hasDebugInfo) ← FileLoggerDev.vlogDebugInfo settings aLevel aDebugInfo hasPrefix
  let hasMessage := hasText aMessage
  let rest :=
    if hasMessage then
      (if aIsFullDebugInfo && settings.isWordWrap then
          ":\n" ++ (FileLoggerDev.vlogPrefixes aDateTimeInfo aProcessInfo).1 ++ " ->"
        else if hasDebugInfo then ":"
        else "") ++ (" " ++ aMessage)
    else if hasDebugInfo then "."
    else ""
  some [Output.fwrite iFp (prefixes ++ debug ++ rest ++ "\n")]

/-- The templates that `SysLogDev::printLog` builds before its first `syslog` call: `fmt` and
`secondFmt`, two 32-byte buffers. `append("[%%s]")` leaves the conversion `[%s]` in the buffer.
The call `secondFmt.append(fmt())` passes the template built so far and no argument; it is taken
to copy that template, which the three arguments of the second `syslog` call are for. -/
def SysLogDev.printLog_templates (settings : LoggerSettings)
    (aDateTimeInfo aProcessInfo aDebugInfo : String) (aIsFullDebugInfo : Bool)
    (aMessage : String) : String × String :=
  let fmt := ""
  let secondFmt := ""
  let addSpace := false
  let hasDateTimeInfo := hasText aDateTimeInfo
  let hasProcessInfo := hasText aProcessInfo
  let hasDebugInfo := hasText aDebugInfo
  let hasMessage := hasText aMessage
  let (fmt, addSpace) :=
    if hasDateTimeInfo then (SmartBuffer.append 32 fmt "[%s]", true)
    else (SmartBuffer.append 32 fmt "%s", addSpace)
  let (fmt, addSpace) :=
    if hasProcessInfo then
      (SmartBuffer.append 32 fmt (if addSpace then " [%s]" else "%s:"), true)
    else (SmartBuffer.append 32 fmt "%s", addSpace)
  let secondFmt := SmartBuffer.append 32 secondFmt fmt
  let fmt :=
    if hasDebugInfo then
      let fmt := SmartBuffer.append 32 fmt
        (if settings.isFileLine then (if addSpace then " %s at %s" else "%s at %s")
          else (if addSpace then " %s %s" else "%s %s"))
      SmartBuffer.append 32 fmt
        (if hasMessage then (if aIsFullDebugInfo && settings.isWordWrap then ":" else ": %s")
          else ".")
    else
      let fmt := SmartBuffer.append 32 fmt "%s%s"
      SmartBuffer.append 32 fmt (if hasMessage && addSpace then " %s" else "%s")
  (fmt, secondFmt)

/-- The method `SysLogDev::printLog`: its calls of `syslog`, on the templates of
`SysLogDev.printLog_templates`. -/
def SysLogDev.printLog (settings : LoggerSettings) (aLevel : Int)
    (aDateTimeInfo aProcessInfo aDebugInfo : String) (aIsFullDebugInfo : Bool)
    (aMessage : String) : Option (List Output) := do
  let hasDateTimeInfo := hasText aDateTimeInfo
  let hasProcessInfo := hasText aProcessInfo
  let hasDebugInfo := hasText aDebugInfo
  let hasMessage := hasText aMessage
  let (fmt, secondFmt) := SysLogDev.printLog_templates settings aDateTimeInfo aProcessInfo
    aDebugInfo aIsFullDebugInfo aMessage
  if !(hasDateTimeInfo || hasProcessInfo || hasDebugInfo || hasMessage) then
    let id ← SysLogDev.syslog_level_id aLevel
    let name ← log_t.level_name aLevel
    some [Output.syslog (Int.lor LOG_DAEMON id) "%s" [name]]
  else if aIsFullDebugInfo && settings.isWordWrap then
    let id ← SysLogDev.syslog_level_id aLevel
    let name ← log_t.level_name aLevel
    let first := Output.syslog (Int.lor LOG_DAEMON id) fmt
      [aDateTimeInfo, aProcessInfo, name, aDebugInfo]
    if hasMessage then
      let secondFmt := SmartBuffer.append 32 secondFmt "-> %s"
      let id ← SysLogDev.syslog_level_id aLevel
      some [first, Output.syslog (Int.lor LOG_DAEMON id) secondFmt
        [aDateTimeInfo, aProcessInfo, aMessage]]
    else some [first]
  else
    let id ← SysLogDev.syslog_level_id aLevel
    let name ← if hasDebugInfo then log_t.level_name aLevel else some ""
    some [Output.syslog (Int.lor LOG_DAEMON id) fmt
      [aDateTimeInfo, aProcessInfo, name, aDebugInfo, aMessage]]

/-- A sink: the `iSettings` of `LoggerDev` and the fields of its concrete class.
`StdErrLoggerDev` and `StdOutLoggerDev` are `FileLoggerDev` on `stderr` and `stdout`. -/
inductive LoggerDev where
  | FileLoggerDev (iSettings : LoggerSettings) (iFp : Nat) (iIsFpOwner : Bool)
  | SysLogDev (iSettings : LoggerSettings)
deriving DecidableEq, Repr

/-- The method `LoggerDev::settings`. -/
def LoggerDev.settings : LoggerDev → LoggerSettings
  | LoggerDev.FileLoggerDev iSettings _ _ => iSettings
  | LoggerDev.SysLogDev iSettings => iSettings

/-- The method `LoggerDev::setSettings`. -/
def LoggerDev.setSettings (dev : LoggerDev) (aSettings : LoggerSettings) : LoggerDev :=
  match dev with
  | LoggerDev.FileLoggerDev _ iFp iIsFpOwner => LoggerDev.FileLoggerDev aSettings iFp iIsFpOwner
  | LoggerDev.SysLogDev _ => LoggerDev.SysLogDev aSettings

/-- The virtual method `printLog`, dispatched on the class of the sink. -/
def LoggerDev.printLog (dev : LoggerDev) (aLevel : Int)
    (aDateTimeInfo aProcessInfo aDebugInfo : String) (aIsFullDebugInfo : Bool)
    (aMessage : String) : Option (List Output) :=
  match dev with
  | LoggerDev.FileLoggerDev iSettings iFp _ =>
    FileLoggerDev.printLog iSettings iFp aLevel aDateTimeInfo aProcessInfo aDebugInfo
      aIsFullDebugInfo aMessage
  | LoggerDev.SysLogDev iSettings =>
    SysLogDev.printLog iSettings aLevel aDateTimeInfo aProcessInfo aDebugInfo
      aIsFullDebugInfo aMessage

/-- The method `LoggerDev::vlogGeneric`: `none` when an assertion fails, otherwise the outputs
of the sink, none at all when the record is not shown. -/
def LoggerDev.vlogGeneric (dev : LoggerDev) (logger : log_t) (os : OS) (aLevel aLine : Int)
    (aFile aFunc : Option String) (aFmt : String) (anArgs : List Arg) :
    Option (List Output) :=
  if ¬ (0 ≤ aLevel) then none
  else if ¬ (aLevel ≤ LOG_MAX_LEVEL) then none
  else if !dev.settings.isLogShown aLevel then some []
  else
    let (dateInfo, addSpace) := LoggerDev.vlogGeneric_dateInfo dev.settings logger os
    let processInfo := LoggerDev.vlogGeneric_processInfo dev.settings logger os
    let (debugInfo, isFullDebugInfo) :=
      LoggerDev.vlogGeneric_debugInfo dev.settings addSpace aLevel aLine aFile aFunc
    let message := LoggerDev.vlogGeneric_message aFmt anArgs
    dev.printLog aLevel dateInfo processInfo debugInfo isFullDebugInfo message

/-! ## `log_t`: the registry and the fan-out -/

/-- The sinks in memory: the object at each address. -/
abbrev Memory := Nat → LoggerDev

/-- One visit of the fan-out: the address of the sink whose `vlogGeneric` was called and the
outputs of that call. -/
abbrev Visit := Nat × List Output

/-- The method `log_t::addLoggerDev`: `assert(aLoggerDev)`, then `iDevs.push_front`. -/
def log_t.addLoggerDev (logger : log_t) (aLoggerDev : Nat) : Option log_t :=
  if aLoggerDev = 0 then none
  else some { logger with iDevs := aLoggerDev :: logger.iDevs }

/-- The member `std::list::remove`: every element equal to `value` is erased. -/
def list_remove (value : Nat) : List Nat → List Nat
  | [] => []
  | head :: tail => if head = value then list_remove value tail else head :: list_remove value tail

/-- The method `log_t::removeLoggerDev`: `assert(aLoggerDev)`, then `iDevs.remove`. -/
def log_t.removeLoggerDev (logger : log_t) (aLoggerDev : Nat) : Option log_t :=
  if aLoggerDev = 0 then none
  else some { logger with iDevs := list_remove aLoggerDev logger.iDevs }

/-- The method `log_t::updateTime`. -/
def log_t.updateTime (logger : log_t) (os : OS) : log_t :=
  { logger with iTs := os.clock_monotonic, iTv := os.timeofday, iTm := os.localtime }

/-- The loop of `log_t::vlog_generic` over the sinks from `it` to `iDevs.end()`. -/
def log_t.vlog_generic_loop (memory : Memory) (logger : log_t) (os : OS) (level line : Int)
    (file func : Option String) (fmt : String) (args : List Arg) :
    List Nat → Option (List Visit)
  | [] => some []
  | it :: rest => do
    let outputs ← (memory it).vlogGeneric logger os level line file func fmt args
    let visits ← log_t.vlog_generic_loop memory logger os level line file func fmt args rest
    some ((it, outputs) :: visits)

/-- The method `log_t::vlog_generic`: the logger with its time updated and the visits of the
sinks in the order of the loop. -/
def log_t.vlog_generic (memory : Memory) (logger : log_t) (os : OS) (level line : Int)
    (file func : Option String) (fmt : String) (args : List Arg) :
    Option (log_t × List Visit) := do
  let logger := logger.updateTime os
  let visits ←
    log_t.vlog_generic_loop memory logger os level line file func fmt args logger.iDevs
  some (logger, visits)

/-- The step `if(fmt[0] == '\x01' && fmt[1] == 0) ++fmt;` of the entry points. -/
def skipSentinel (fmt : String) : String :=
  if fmt = "\x01" then "" else fmt

/-- The method `log_t::message(int level, const char *fmt, ...)`. -/
def log_t.message (memory : Memory) (logger : log_t) (os : OS) (level : Int)
    (fmt : String) (args : List Arg) : Option (log_t × List Visit) :=
  if ¬ (0 ≤ level) then none
  else if ¬ (level ≤ LOG_MAX_LEVEL) then none
  else log_t.vlog_generic memory logger os level (-1) none none (skipSentinel fmt) args

/-- The method `log_t::message(int level)`. -/
def log_t.message_level (memory : Memory) (logger : log_t) (os : OS) (level : Int) :
    Option (log_t × List Visit) :=
  log_t.message memory logger os level "\x01" []

/-- The method `log_t::message(int level, int line, const char *file, const char *func,
const char *fmt, ...)`. -/
def log_t.message_location (memory : Memory) (logger : log_t) (os : OS) (level line : Int)
    (file func : Option String) (fmt : String) (args : List Arg) :
    Option (log_t × List Visit) :=
  if ¬ toBool (Int.land ((1 : Int) <<< level) LOG_MAX_LOCATION) then none
  else if ¬ (0 ≤ level) then none
  else if ¬ (level ≤ LOG_MAX_LEVEL) then none
  else log_t.vlog_generic memory logger os level line file func (skipSentinel fmt) args

/-- The method `log_t::message(int level, int line, const char *file, const char *func)`. -/
def log_t.message_level_location (memory : Memory) (logger : log_t) (os : OS)
    (level line : Int) (file func : Option String) : Option (log_t × List Visit) :=
  log_t.message_location memory logger os level line file func "\x01" []

/-- The enumerators `DefaultLevel`, `DefaultLocation` and `DefaultFormat` of `LoggerDev`. -/
def LoggerDev.DefaultLevel : Int := LOG_MAX_LEVEL

def LoggerDev.DefaultLocation : Int := LOG_MAX_LOCATION

def LoggerDev.DefaultFormat : Int :=
  Int.lor (Int.lor (Int.lor (Int.lor (Int.lor (Int.lor (Int.lor (Int.lor (Int.lor
    LoggerSettings.EMTimerMs LoggerSettings.ETzAbbr) LoggerSettings.EMTimer)
    LoggerSettings.EDate) LoggerSettings.ETimeMs) LoggerSettings.ETime)
    LoggerSettings.ETzSymLink) LoggerSettings.EProcessInfo)
    LoggerSettings.EDebugInfo) LoggerSettings.EWordWrap

/-- The calls `addLoggerDev(S1)`, ..., `addLoggerDev(Sn)` one after the other. -/
def log_t.addLoggerDevs (logger : log_t) : List Nat → Option log_t
  | [] => some logger
  | sink :: rest => (logger.addLoggerDev sink).bind (fun next => next.addLoggerDevs rest)

/-- A sink that can write: a file sink whose stream `iFp` is not `NULL`, or a syslog sink. -/
def LoggerDev.canWrite : LoggerDev → Bool
  | LoggerDev.FileLoggerDev _ iFp _ => decide (iFp ≠ 0)
  | LoggerDev.SysLogDev _ => true

/-- The date/time segment `dateInfo()` that `LoggerDev::vlogGeneric` passes to `printLog`. -/
def LoggerDev.dateInfo (settings : LoggerSettings) (logger : log_t) (os : OS) : String :=
  (LoggerDev.vlogGeneric_dateInfo settings logger os).1

/-- The process segment `processInfo()` that `LoggerDev::vlogGeneric` passes to `printLog`. -/
def LoggerDev.processInfo (settings : LoggerSettings) (logger : log_t) (os : OS) : String :=
  LoggerDev.vlogGeneric_processInfo settings logger os

/-- The debug segment `debugInfo()` that `LoggerDev::vlogGeneric` passes to `printLog`: the
debug block is entered with the `addSpace` that the date/time block leaves. -/
def LoggerDev.debugInfo (settings : LoggerSettings) (logger : log_t) (os : OS)
    (aLevel aLine : Int) (aFile aFunc : Option String) : String :=
  (LoggerDev.vlogGeneric_debugInfo settings (LoggerDev.vlogGeneric_dateInfo settings logger os).2
    aLevel aLine aFile aFunc).1

/-- The flag `isFullDebugInfo` that `LoggerDev::vlogGeneric` passes to `printLog`. -/
def LoggerDev.isFullDebugInfo (settings : LoggerSettings) (logger : log_t) (os : OS)
    (aLevel aLine : Int) (aFile aFunc : Option String) : Bool :=
  (LoggerDev.vlogGeneric_debugInfo settings (LoggerDev.vlogGeneric_dateInfo settings logger os).2
    aLevel aLine aFile aFunc).2

/-- The message segment `message()` that `LoggerDev::vlogGeneric` passes to `printLog`. -/
def LoggerDev.message (aFmt : String) (anArgs : List Arg) : String :=
  LoggerDev.vlogGeneric_message aFmt anArgs

/-- The call of `printLog` that `LoggerDev::vlogGeneric` makes for a record it shows: the
segments are built with the settings of the sink itself. -/
def LoggerDev.render (dev : LoggerDev) (logger : log_t) (os : OS) (aLevel aLine : Int)
    (aFile aFunc : Option String) (aFmt : String) (anArgs : List Arg) : Option (List Output) :=
  dev.printLog aLevel (LoggerDev.dateInfo dev.settings logger os)
    (LoggerDev.processInfo dev.settings logger os)
    (LoggerDev.debugInfo dev.settings logger os aLevel aLine aFile aFunc)
    (LoggerDev.isFullDebugInfo dev.settings logger os aLevel aLine aFile aFunc)
    (LoggerDev.message aFmt anArgs)

/-- The text `FileLoggerDev::vlogPrefixes` writes for the date/time and process segments. -/
def FileLoggerDev.prefixText (aDateTimeInfo aProcessInfo : String) : String :=
  (FileLoggerDev.vlogPrefixes aDateTimeInfo aProcessInfo).1

/-- The blank that `FileLoggerDev::vlogDebugInfo` writes before the level name and before the
debug segment when `vlogPrefixes` has written something. -/
def FileLoggerDev.prefixGap (aDateTimeInfo aProcessInfo : String) : String :=
  if (FileLoggerDev.vlogPrefixes aDateTimeInfo aProcessInfo).2 then " " else ""

/-- Two sinks of a sample run: at address 1 a file sink that shows every level, at any other
address a syslog sink that shows only levels 0 and 1. -/
def sampleMemory : Memory := fun p =>
  if p = 1 then LoggerDev.FileLoggerDev ⟨5, 33, LoggerSettings.EMessage⟩ 7 true
  else LoggerDev.SysLogDev ⟨1, 33, LoggerSettings.EMessage⟩

/-- The settings a sink gets by default: `DefaultLevel`, `DefaultLocation`, `DefaultFormat`. -/
def LoggerDev.defaultSettings : LoggerSettings :=
  ⟨LoggerDev.DefaultLevel, LoggerDev.DefaultLocation, LoggerDev.DefaultFormat⟩

/-! ## The fatal assertion path -/

/-- How a call ends: control comes back to the caller, the process is ended by `abort()`, or an
`assert` inside the call fails. The fan-outs made before the end are recorded, one list of
visits for each call of `vlog_generic`. -/
inductive Outcome where
  | returned (logger : log_t) (emits : List (List Visit))
  | aborted (logger : log_t) (emits : List (List Visit))
  | assertion_failed

/-- The method `log_t::log_failed_assertion(assertion, line, file, func, fmt, ...)`; `os1` and
`os2` are the answers of the operating system during the first and the second fan-out. The
loop after `abort()` is never reached. -/
def log_t.log_failed_assertion (memory : Memory) (logger : log_t) (os1 os2 : OS)
    (assertion : String) (line : Int) (file func : Option String) (fmt : String)
    (args : List Arg) : Outcome :=
  let fmt := skipSentinel fmt
  let message_follows := hasText fmt
  match log_t.message_location memory logger os1 LOG_LEVEL_INTERNAL line file func
      "Assertion failed: %s%s."
      [Arg.str assertion, Arg.str (if message_follows then ". Detailed info follows" else "")]
  with
  | none => Outcome.assertion_failed
  | some (logger, first) =>
    if message_follows then
      match log_t.vlog_generic memory logger os2 LOG_LEVEL_INTERNAL line file func fmt args with
      | none => Outcome.assertion_failed
      | some (logger, second) => Outcome.aborted logger [first, second]
    else Outcome.aborted logger [first]

/-- The method `log_t::log_failed_assertion(assertion, line, file, func)`. -/
def log_t.log_failed_assertion_plain (memory : Memory) (logger : log_t) (os1 os2 : OS)
    (assertion : String) (line : Int) (file func : Option String) : Outcome :=
  log_t.log_failed_assertion memory logger os1 os2 assertion line file func "\x01" []

/-! ## Construction and teardown of a file sink -/

/-- The constructor `FileLoggerDev(const char *aFileName, ...)`: `fopen_result` is the answer of
`fopen(aFileName, "aw")`, `0` when it fails; `iIsFpOwner = iFp`. -/
def FileLoggerDev.fromFileName (fopen_result : Nat) (aVerbosityLevel aLocationMask aMessageFormat : Int) :
    LoggerDev :=
  LoggerDev.FileLoggerDev ⟨aVerbosityLevel, aLocationMask, aMessageFormat⟩ fopen_result
    (decide (fopen_result ≠ 0))

/-- The destructor `~FileLoggerDev`: the streams it closes with `fclose`. -/
def LoggerDev.closedStreams : LoggerDev → List Nat
  | LoggerDev.FileLoggerDev _ iFp iIsFpOwner =>
    if iIsFpOwner && decide (iFp ≠ 0) then [iFp] else []
  | LoggerDev.SysLogDev _ => []

/-! ## The debug segment in the words of the specification -/

/-- The parts of the debug segment as the specification lists them: `file:line` when the
file:line toggle is on, the line is positive and the file is present, and `in function` when
the function toggle is on and the function is present. -/
def debugParts (settings : LoggerSettings) (aLine : Int) (aFile aFunc : Option String) :
    List String :=
  (match aFile with
    | some file =>
      if settings.isFileLine && decide (aLine > 0) then [file ++ ":" ++ fmt_d aLine] else []
    | none => []) ++
  (match aFunc with
    | some func => if settings.isFunc then ["in " ++ func] else []
    | none => [])

/-- The debug segment as the specification describes it: empty unless the debug toggle is on and
the location is shown for the level, otherwise the parts joined by one blank. -/
def debugSegmentSpec (settings : LoggerSettings) (aLevel aLine : Int)
    (aFile aFunc : Option String) : String :=
  if settings.isDebugInfo && settings.isLocationShown aLevel then
    " ".intercalate (debugParts settings aLine aFile aFunc)
  else ""

/-! ## The scope stack -/

/-- Modelled from the spec: the bodies of the constructor
`log_t(bool global, int new_level, int location_mask)`, of `log_t::level` and of the destructor
that ends a scope are not under `src/`; the header only declares them, with the `prev` pointer
and the macros `LOG_LEVEL` and `LOG_LOCAL`, and `log.cpp` holds a later `log_t` without scopes.
One entry of the chain, in the words of the spec: the Settings that are active in the scope and
the sinks registered within it; `global` tells the global form from the local form. -/
structure ScopeEntry where
  global : Bool
  settings : LoggerSettings
  sinks : List Nat
deriving DecidableEq, Repr

/-- Modelled from the spec: the chain of configurations, missing from `src/` as said for
`ScopeEntry`. The entries form a strict LIFO chain; the list holds them from the active one
along `prev`, the currently active entry being the most recently pushed one. -/
abbrev ScopeStack := List ScopeEntry

/-- Modelled from the spec: what a block of code does to the chain, missing from `src/` as
said for `ScopeEntry`: it enters a scope of either form, leaves the innermost scope, replaces
the settings of the active configuration wholesale, or registers a sink in it. -/
inductive ScopeOp where
  | enter (entry : ScopeEntry)
  | leave
  | replaceSettings (settings : LoggerSettings)
  | registerSink (sink : Nat)
deriving DecidableEq, Repr

/-- Modelled from the spec: one operation on the chain, missing from `src/` as said for
`ScopeEntry`. Entering either form pushes a new entry and makes it active; leaving pops exactly
the active entry and restores its parent; the other two act on the active entry only. Without
an active entry there is nothing to leave or to change. -/
def ScopeStack.step : ScopeStack → ScopeOp → Option ScopeStack
  | stack, ScopeOp.enter entry => some (entry :: stack)
  | [], ScopeOp.leave => none
  | _ :: prev, ScopeOp.leave => some prev
  | [], ScopeOp.replaceSettings _ => none
  | active :: prev, ScopeOp.replaceSettings settings =>
    some ({ active with settings := settings } :: prev)
  | [], ScopeOp.registerSink _ => none
  | active :: prev, ScopeOp.registerSink sink =>
    some ({ active with sinks := sink :: active.sinks } :: prev)

/-- Modelled from the spec: the operations of a run one after the other, on the chain that is
missing from `src/` as said for `ScopeEntry`. -/
def ScopeStack.run : ScopeStack → List ScopeOp → Option ScopeStack
  | stack, [] => some stack
  | stack, op :: ops => (ScopeStack.step stack op).bind (fun next => ScopeStack.run next ops)

/-- Modelled from the spec: the verbosity of the active configuration of the chain that is
missing from `src/` as said for `ScopeEntry`. -/
def ScopeStack.activeVerbosity (stack : ScopeStack) : Option Int :=
  stack.head?.map (fun active => active.settings.verbosity_level)

/-- The number of inner scopes that are open after the operations `ops` of a block entered
with `depth` open inner scopes; `none` when some `leave` has no inner scope to leave, that is
when the inner scopes are not properly nested in the block. -/
def nestingDepth : Nat → List ScopeOp → Option Nat
  | depth, [] => some depth
  | depth, ScopeOp.enter _ :: ops => nestingDepth (depth + 1) ops
  | 0, ScopeOp.leave :: _ => none
  | depth + 1, ScopeOp.leave :: ops => nestingDepth depth ops
  | depth, ScopeOp.replaceSettings _ :: ops => nestingDepth depth ops
  | depth, ScopeOp.registerSink _ :: ops => nestingDepth depth ops

/-! ## The process and date/time segments in the words of the specification -/

/-- The process segment as the specification describes it: the process name when the name
toggle is on, followed by the process id in parentheses when the pid toggle is on. -/
def processSegmentSpec (settings : LoggerSettings) (logger : log_t) (os : OS) : String :=
  (if settings.isName then logger.prg_name else "") ++
    (if settings.isPid then "(" ++ fmt_d os.pid ++ ")" else "")

/-- The fractional suffix of the monotonic timer: milliseconds, nanoseconds, or nothing. -/
def timerSuffix (settings : LoggerSettings) (logger : log_t) : String :=
  if settings.isMTimerMs then "." ++ fmt_0d 3 (Int.tdiv logger.iTs.tv_nsec 1000000)
  else if settings.isMTimerNs then "." ++ fmt_0d 9 logger.iTs.tv_nsec
  else ""

/-- The timer component of the date/time segment: the seconds and the fractional suffix. -/
def timerText (settings : LoggerSettings) (logger : log_t) : String :=
  fmt_d logger.iTs.tv_sec ++ timerSuffix settings logger

/-- The fractional suffix of the time of day: milliseconds, microseconds, or nothing. -/
def timeSuffix (settings : LoggerSettings) (logger : log_t) : String :=
  if settings.isTimeMs then "." ++ fmt_0d 3 (Int.tdiv logger.iTv.tv_usec 1000)
  else if settings.isTimeMicS then "." ++ fmt_0d 6 logger.iTv.tv_usec
  else ""

/-- The calendar component of the date/time segment: the date and/or the time of day, the
time of day with its fractional suffix. -/
def dayText (settings : LoggerSettings) (logger : log_t) : String :=
  (if settings.isDate && settings.isTime then
      strftime_F logger.iTm ++ " " ++ strftime_T logger.iTm
    else if settings.isDate then strftime_F logger.iTm
    else strftime_T logger.iTm) ++
  (if settings.isTime then timeSuffix settings logger else "")

/-- The components of the date/time segment that are enabled, in the order of the
specification: the timer, the timezone abbreviation in parentheses, the date and/or time of
day, the quoted target of the timezone link. -/
def dateParts (settings : LoggerSettings) (logger : log_t) (os : OS) : List String :=
  (if settings.isMTimer then [timerText settings logger] else []) ++
  (if settings.isTzAbbr then ["(" ++ logger.iTm.tm_zone ++ ")"] else []) ++
  (if settings.isDate || settings.isTime then [dayText settings logger] else []) ++
  (if settings.isTzSymLink then ["\x27" ++ tzLink os ++ "\x27"] else [])

/-- The date/time segment as the specification describes it: the enabled components joined
by one blank. -/
def dateSegmentSpec (settings : LoggerSettings) (logger : log_t) (os : OS) : String :=
  " ".intercalate (dateParts settings logger os)

/-! ## Decimal digits -/

/-- The value of a decimal digit character. -/
def digitValue (c : Char) : Nat := c.toNat - 48

/-- The number that a string of decimal digits writes. -/
def decimalValue (digits : List Char) : Nat :=
  digits.foldl (fun value c => 10 * value + digitValue c) 0

/-- The decimal digits of a number, most significant first: the digits that `%d` prints. -/
def decDigits (n : Nat) : List Char :=
  if _h : n < 10 then [Nat.digitChar n]
  else decDigits (n / 10) ++ [Nat.digitChar (n % 10)]
termination_by n
decreasing_by omega

/-! ## Templates of the syslog sink -/

/-- The number of `%s` conversions of a printf format; `%%` is not a conversion. -/
def conversions : List Char → Nat
  | [] => 0
  | '%' :: '%' :: rest => conversions rest
  | '%' :: 's' :: rest => conversions rest + 1
  | _ :: rest => conversions rest

/-- A `syslog` call whose template asks for no more strings than the call supplies and is
shorter than the 31 bytes at which a 32-byte buffer cuts. -/
def Output.wellFormed : Output → Bool
  | Output.fwrite _ _ => false
  | Output.syslog _ fmt args =>
    decide (conversions fmt.data ≤ args.length) && decide (fmt.data.length < 31)

/-- The settings with only the `EMessage` bit of the message format flipped:
`message_format ^ EMessage`; the verbosity level and the location mask are kept. -/
def LoggerSettings.flipMessage (s : LoggerSettings) : LoggerSettings :=
  { s with message_format := Int.xor s.message_format LoggerSettings.EMessage }

/-- The value of `fmt()` at the call `secondFmt.append(fmt())` of `SysLogDev::printLog`: the
template that the date/time block and the process block have built so far. -/
def SysLogDev.printLog_fmtAtCopy (aDateTimeInfo aProcessInfo : String) : String :=
  let fmt := ""
  let addSpace := false
  let (fmt, addSpace) :=
    if hasText aDateTimeInfo then (SmartBuffer.append 32 fmt "[%s]", true)
    else (SmartBuffer.append 32 fmt "%s", addSpace)
  if hasText aProcessInfo then
    SmartBuffer.append 32 fmt (if addSpace then " [%s]" else "%s:")
  else SmartBuffer.append 32 fmt "%s"

/-- A call in the style of `printf` (`buffer.append(fmt, args...)`, `syslog(priority, fmt,
args...)`) gives every `%s` conversion of `fmt` an argument. -/
def formatMatched (fmt : String) (args : List String) : Bool :=
  decide (conversions fmt.data ≤ args.length)

/-! ## Sample values -/

/-- A moment of a sample run. -/
def sampleOS : OS :=
  { clock_monotonic := ⟨1234, 567890123⟩
    timeofday := ⟨1288000000, 456789⟩
    localtime := ⟨7, 46, 12, 25, 9, 110, "EEST"⟩
    readlink_localtime := Except.ok "/usr/share/zoneinfo/Europe/Helsinki"
    pid := 4242 }

/-- A logger with no sink, as `log_init` leaves it. -/
def sampleLogger : log_t :=
  { iDevs := [], iTs := ⟨0, 0⟩, iTv := ⟨0, 0⟩, iTm := ⟨0, 0, 0, 1, 0, 70, "UTC"⟩
    prg_name := "logtest" }

/-! ## Bit lemmas -/

theorem int_eq_zero_iff_testBit (x : Int) : x = 0 ↔ ∀ k, Int.testBit x k = false := by
  constructor
  · rintro rfl k
    simp [Int.testBit]
  · intro h
    cases x with
    | ofNat n =>
      have : n = 0 := Nat.eq_of_testBit_eq (by intro i; simpa [Int.testBit] using h i)
      simp [this]
    | negSucc n =>
      exfalso
      have h1 := h n
      simp only [Int.testBit, Bool.not_eq_false'] at h1
      have h2 : Nat.testBit n n = false := Nat.testBit_lt_two_pow (Nat.lt_two_pow n)
      simp [h2] at h1

theorem toBool_land_lor (m a b : Int) :
    toBool (Int.land m (Int.lor a b)) = (toBool (Int.land m a) || toBool (Int.land m b)) := by
  have key : Int.land m (Int.lor a b) = 0 ↔ Int.land m a = 0 ∧ Int.land m b = 0 := by
    simp only [int_eq_zero_iff_testBit, Int.testBit_land, Int.testBit_lor]
    constructor
    · intro h
      refine ⟨fun k => ?_, fun k => ?_⟩ <;> have := h k <;> revert this <;>
        cases Int.testBit m k <;> cases Int.testBit a k <;> cases Int.testBit b k <;> simp
    · rintro ⟨h1, h2⟩ k
      have e1 := h1 k
      have e2 := h2 k
      clear h1 h2
      revert e1 e2
      cases Int.testBit m k <;> cases Int.testBit a k <;> cases Int.testBit b k <;> simp
  by_cases h1 : Int.land m a = 0 <;> by_cases h2 : Int.land m b = 0 <;>
    simp [toBool, key, h1, h2]

theorem testBit_one_shiftLeft (k j : Nat) :
    Int.testBit ((1 : Int) <<< (k : Int)) j = decide (k = j) := by
  rw [Int.one_shiftLeft]
  simp [Int.testBit, Nat.testBit_two_pow]

theorem toBool_land_bit (m : Int) (k : Nat) :
    toBool (Int.land m ((1 : Int) <<< (k : Int))) = Int.testBit m k := by
  by_cases hk : Int.testBit m k = true
  · have : Int.land m ((1 : Int) <<< (k : Int)) ≠ 0 := by
      intro h0
      have := (int_eq_zero_iff_testBit _).1 h0 k
      simp [Int.testBit_land, testBit_one_shiftLeft, hk] at this
    simp [toBool, this, hk]
  · have : Int.land m ((1 : Int) <<< (k : Int)) = 0 := by
      rw [int_eq_zero_iff_testBit]
      intro j
      by_cases hj : k = j
      · subst hj
        simp [Int.testBit_land, hk]
      · simp [Int.testBit_land, testBit_one_shiftLeft, hj]
    simp [toBool, this, hk]

theorem toBool_bit_land (m : Int) (k : Nat) :
    toBool (Int.land ((1 : Int) <<< (k : Int)) m) = Int.testBit m k := by
  by_cases hk : Int.testBit m k = true
  · have : Int.land ((1 : Int) <<< (k : Int)) m ≠ 0 := by
      intro h0
      have := (int_eq_zero_iff_testBit _).1 h0 k
      simp [Int.testBit_land, testBit_one_shiftLeft, hk] at this
    simp [toBool, this, hk]
  · have : Int.land ((1 : Int) <<< (k : Int)) m = 0 := by
      rw [int_eq_zero_iff_testBit]
      intro j
      by_cases hj : k = j
      · subst hj
        simp [Int.testBit_land, hk]
      · simp [Int.testBit_land, testBit_one_shiftLeft, hj]
    simp [toBool, this, hk]

/-! ## Settings predicates -/

/-- C1: for every settings value and every integer level, `isLogShown` holds exactly when the
level is at most the verbosity threshold. -/
theorem isLogShown_iff_le (s : LoggerSettings) (L : Int) :
    s.isLogShown L = true ↔ L ≤ s.verbosity_level := by
  simp [LoggerSettings.isLogShown]

/-- C2: for every settings value and every level between 0 and 5, `isLocationShown` holds
exactly when bit number `L` of the location mask is set. -/
theorem isLocationShown_iff_testBit (s : LoggerSettings) (L : Int) (h0 : 0 ≤ L) (h5 : L ≤ 5) :
    s.isLocationShown L = true ↔ Int.testBit s.location_mask L.toNat = true := by
  obtain ⟨k, rfl⟩ := Int.eq_ofNat_of_zero_le h0
  simp [LoggerSettings.isLocationShown, toBool_bit_land]

theorem isLocationShown_iff_testBit_witness :
    (0 : Int) ≤ 5 ∧ (5 : Int) ≤ 5 ∧
      ((LoggerSettings.mk 5 33 0).isLocationShown 5 = true ↔
        Int.testBit (LoggerSettings.mk 5 33 0).location_mask (5 : Int).toNat = true) :=
  ⟨by decide, by decide, isLocationShown_iff_testBit ⟨5, 33, 0⟩ 5 (by decide) (by decide)⟩

/-- A single-bit mask test reads the bit of that number. -/
theorem toBool_land_mask (m : Int) (k : Nat) :
    toBool (Int.land m (LOG_BIT_MASK (k : Int))) = Int.testBit m k :=
  toBool_land_bit m k

theorem isMTimer_eq (s : LoggerSettings) :
    s.isMTimer = (Int.testBit s.message_format 12 || Int.testBit s.message_format 11) := by
  have h12 := toBool_land_mask s.message_format 12
  have h11 := toBool_land_mask s.message_format 11
  simp only [LoggerSettings.isMTimer, LoggerSettings.EMTimer, LoggerSettings.EMTimerMs,
    LoggerSettings.EMTimerNs, LOG_OUTPUT_MTIMER_HIGH_BIT, LOG_OUTPUT_MTIMER_LOW_BIT,
    toBool_land_lor]
  rw [← h12, ← h11]
  rfl

theorem isMTimerMs_eq (s : LoggerSettings) :
    s.isMTimerMs = (Int.testBit s.message_format 12 && !Int.testBit s.message_format 11) := by
  have h12 := toBool_land_mask s.message_format 12
  have h11 := toBool_land_mask s.message_format 11
  simp only [LoggerSettings.isMTimerMs, LoggerSettings.EMTimerMs,
    LoggerSettings.EMTimerNs, LOG_OUTPUT_MTIMER_HIGH_BIT, LOG_OUTPUT_MTIMER_LOW_BIT]
  rw [← h12, ← h11]
  rfl

theorem isMTimerNs_eq (s : LoggerSettings) :
    s.isMTimerNs = (!Int.testBit s.message_format 12 && Int.testBit s.message_format 11) := by
  have h12 := toBool_land_mask s.message_format 12
  have h11 := toBool_land_mask s.message_format 11
  simp only [LoggerSettings.isMTimerNs, LoggerSettings.EMTimerMs,
    LoggerSettings.EMTimerNs, LOG_OUTPUT_MTIMER_HIGH_BIT, LOG_OUTPUT_MTIMER_LOW_BIT]
  rw [← h12, ← h11]
  rfl

theorem isTime_eq (s : LoggerSettings) :
    s.isTime = (Int.testBit s.message_format 8 || Int.testBit s.message_format 7) := by
  have h8 := toBool_land_mask s.message_format 8
  have h7 := toBool_land_mask s.message_format 7
  simp only [LoggerSettings.isTime, LoggerSettings.ETime, LoggerSettings.ETimeMs,
    LoggerSettings.ETimeNs, LOG_OUTPUT_TIME_HIGH_BIT, LOG_OUTPUT_TIME_LOW_BIT,
    toBool_land_lor]
  rw [← h8, ← h7]
  rfl

theorem isTimeMs_eq (s : LoggerSettings) :
    s.isTimeMs = (Int.testBit s.message_format 8 && !Int.testBit s.message_format 7) := by
  have h8 := toBool_land_mask s.message_format 8
  have h7 := toBool_land_mask s.message_format 7
  simp only [LoggerSettings.isTimeMs, LoggerSettings.ETimeMs,
    LoggerSettings.ETimeMicS, LOG_OUTPUT_TIME_HIGH_BIT, LOG_OUTPUT_TIME_LOW_BIT]
  rw [← h8, ← h7]
  rfl

theorem isTimeMicS_eq (s : LoggerSettings) :
    s.isTimeMicS = (!Int.testBit s.message_format 8 && Int.testBit s.message_format 7) := by
  have h8 := toBool_land_mask s.message_format 8
  have h7 := toBool_land_mask s.message_format 7
  simp only [LoggerSettings.isTimeMicS, LoggerSettings.ETimeMs,
    LoggerSettings.ETimeMicS, LOG_OUTPUT_TIME_HIGH_BIT, LOG_OUTPUT_TIME_LOW_BIT]
  rw [← h8, ← h7]
  rfl

/-- C3: for every message format, with `hi` and `lo` the two sub-bits of a dual-resolution
toggle (bits 12 and 11 for the monotonic timer, bits 8 and 7 for the time of day): both set
gives the coarse predicate and neither sub-resolution; exactly one set gives the coarse
predicate and exactly the matching sub-resolution; none set gives nothing; the two
sub-resolution predicates never hold together. -/
theorem dual_resolution_toggles (s : LoggerSettings) :
    ((Int.testBit s.message_format 12 = true ∧ Int.testBit s.message_format 11 = true →
        s.isMTimer = true ∧ s.isMTimerMs = false ∧ s.isMTimerNs = false) ∧
      (Int.testBit s.message_format 12 = true ∧ Int.testBit s.message_format 11 = false →
        s.isMTimer = true ∧ s.isMTimerMs = true ∧ s.isMTimerNs = false) ∧
      (Int.testBit s.message_format 12 = false ∧ Int.testBit s.message_format 11 = true →
        s.isMTimer = true ∧ s.isMTimerMs = false ∧ s.isMTimerNs = true) ∧
      (Int.testBit s.message_format 12 = false ∧ Int.testBit s.message_format 11 = false →
        s.isMTimer = false ∧ s.isMTimerMs = false ∧ s.isMTimerNs = false) ∧
      ¬ (s.isMTimerMs = true ∧ s.isMTimerNs = true)) ∧
    ((Int.testBit s.message_format 8 = true ∧ Int.testBit s.message_format 7 = true →
        s.isTime = true ∧ s.isTimeMs = false ∧ s.isTimeMicS = false) ∧
      (Int.testBit s.message_format 8 = true ∧ Int.testBit s.message_format 7 = false →
        s.isTime = true ∧ s.isTimeMs = true ∧ s.isTimeMicS = false) ∧
      (Int.testBit s.message_format 8 = false ∧ Int.testBit s.message_format 7 = true →
        s.isTime = true ∧ s.isTimeMs = false ∧ s.isTimeMicS = true) ∧
      (Int.testBit s.message_format 8 = false ∧ Int.testBit s.message_format 7 = false →
        s.isTime = false ∧ s.isTimeMs = false ∧ s.isTimeMicS = false) ∧
      ¬ (s.isTimeMs = true ∧ s.isTimeMicS = true)) := by
  rw [isMTimer_eq, isMTimerMs_eq, isMTimerNs_eq, isTime_eq, isTimeMs_eq, isTimeMicS_eq]
  cases Int.testBit s.message_format 12 <;> cases Int.testBit s.message_format 11 <;>
    cases Int.testBit s.message_format 8 <;> cases Int.testBit s.message_format 7 <;> simp

theorem dual_resolution_toggles_witness :
    (LoggerSettings.mk 5 33 6144).isMTimer = true ∧
      (LoggerSettings.mk 5 33 6144).isMTimerMs = false ∧
      (LoggerSettings.mk 5 33 6144).isMTimerNs = false :=
  (dual_resolution_toggles ⟨5, 33, 6144⟩).1.1 ⟨by decide, by decide⟩


/-! ## The sinks always answer -/

theorem level_name_some (level : Int) (h0 : 0 ≤ level) (h5 : level ≤ 5) :
    ∃ name, log_t.level_name level = some name ∧ name ∈ log_t.names := by
  interval_cases level <;> exact ⟨_, rfl, by decide⟩

theorem syslog_level_id_some (level : Int) (h0 : 0 ≤ level) (h5 : level ≤ 5) :
    ∃ id, SysLogDev.syslog_level_id level = some id := by
  interval_cases level <;> exact ⟨_, rfl⟩

theorem file_printLog_some (settings : LoggerSettings) (iFp : Nat) (aLevel : Int)
    (d p dbg : String) (full : Bool) (msg : String) (hfp : iFp ≠ 0)
    (h0 : 0 ≤ aLevel) (h5 : aLevel ≤ 5) :
    ∃ text, FileLoggerDev.printLog settings iFp aLevel d p dbg full msg
      = some [Output.fwrite iFp text] := by
  obtain ⟨name, hname, -⟩ := level_name_some aLevel h0 h5
  simp [FileLoggerDev.printLog, FileLoggerDev.vlogDebugInfo, hname, hfp]

theorem syslog_printLog_some (settings : LoggerSettings) (aLevel : Int)
    (d p dbg : String) (full : Bool) (msg : String)
    (h0 : 0 ≤ aLevel) (h5 : aLevel ≤ 5) :
    ∃ outputs, SysLogDev.printLog settings aLevel d p dbg full msg = some outputs ∧
      outputs ≠ [] := by
  obtain ⟨name, hname, -⟩ := level_name_some aLevel h0 h5
  obtain ⟨id, hid⟩ := syslog_level_id_some aLevel h0 h5
  simp only [SysLogDev.printLog, hname, hid, Option.bind_eq_bind, Option.some_bind]
  split_ifs <;> simp

theorem vlogGeneric_dateInfo_addSpace (settings : LoggerSettings) (logger : log_t) (os : OS) :
    (LoggerDev.vlogGeneric_dateInfo settings logger os).2 = false := by
  unfold LoggerDev.vlogGeneric_dateInfo
  by_cases h : settings.isDateTimeInfo = true <;> simp [h]

/-- The four segments that `LoggerDev::vlogGeneric` hands to `printLog`. -/
theorem vlogGeneric_shown (dev : LoggerDev) (logger : log_t) (os : OS) (aLevel aLine : Int)
    (aFile aFunc : Option String) (aFmt : String) (anArgs : List Arg)
    (h0 : 0 ≤ aLevel) (h5 : aLevel ≤ 5) (hshown : dev.settings.isLogShown aLevel = true) :
    dev.vlogGeneric logger os aLevel aLine aFile aFunc aFmt anArgs =
      dev.render logger os aLevel aLine aFile aFunc aFmt anArgs := by
  have h5' : aLevel ≤ LOG_MAX_LEVEL := h5
  simp only [LoggerDev.vlogGeneric, h0, h5', hshown, not_true_eq_false, if_false,
    Bool.not_true, Bool.false_eq_true]
  rfl

theorem debugInfo_eq (settings : LoggerSettings) (logger : log_t) (os : OS)
    (aLevel aLine : Int) (aFile aFunc : Option String) :
    LoggerDev.debugInfo settings logger os aLevel aLine aFile aFunc =
      (LoggerDev.vlogGeneric_debugInfo settings false aLevel aLine aFile aFunc).1 := by
  rw [LoggerDev.debugInfo, vlogGeneric_dateInfo_addSpace]

theorem isFullDebugInfo_eq (settings : LoggerSettings) (logger : log_t) (os : OS)
    (aLevel aLine : Int) (aFile aFunc : Option String) :
    LoggerDev.isFullDebugInfo settings logger os aLevel aLine aFile aFunc =
      (LoggerDev.vlogGeneric_debugInfo settings false aLevel aLine aFile aFunc).2 := by
  rw [LoggerDev.isFullDebugInfo, vlogGeneric_dateInfo_addSpace]

theorem vlogGeneric_hidden (dev : LoggerDev) (logger : log_t) (os : OS) (aLevel aLine : Int)
    (aFile aFunc : Option String) (aFmt : String) (anArgs : List Arg)
    (h0 : 0 ≤ aLevel) (h5 : aLevel ≤ 5) (hhidden : dev.settings.isLogShown aLevel = false) :
    dev.vlogGeneric logger os aLevel aLine aFile aFunc aFmt anArgs = some [] := by
  have h5' : aLevel ≤ LOG_MAX_LEVEL := h5
  simp [LoggerDev.vlogGeneric, h0, h5', hhidden]

theorem dev_printLog_some (dev : LoggerDev) (aLevel : Int) (d p dbg : String) (full : Bool)
    (msg : String) (hw : dev.canWrite = true) (h0 : 0 ≤ aLevel) (h5 : aLevel ≤ 5) :
    ∃ outputs, dev.printLog aLevel d p dbg full msg = some outputs ∧ outputs ≠ [] := by
  cases dev with
  | FileLoggerDev iSettings iFp iIsFpOwner =>
    have hfp : iFp ≠ 0 := by simpa [LoggerDev.canWrite] using hw
    obtain ⟨text, ht⟩ := file_printLog_some iSettings iFp aLevel d p dbg full msg hfp h0 h5
    exact ⟨_, ht, by simp⟩
  | SysLogDev iSettings =>
    exact syslog_printLog_some iSettings aLevel d p dbg full msg h0 h5

theorem vlogGeneric_some (dev : LoggerDev) (logger : log_t) (os : OS) (aLevel aLine : Int)
    (aFile aFunc : Option String) (aFmt : String) (anArgs : List Arg)
    (hw : dev.canWrite = true) (h0 : 0 ≤ aLevel) (h5 : aLevel ≤ 5) :
    ∃ outputs, dev.vlogGeneric logger os aLevel aLine aFile aFunc aFmt anArgs = some outputs := by
  by_cases hshown : dev.settings.isLogShown aLevel = true
  · rw [vlogGeneric_shown dev logger os aLevel aLine aFile aFunc aFmt anArgs h0 h5 hshown]
    obtain ⟨outputs, ho, -⟩ := dev_printLog_some dev aLevel (LoggerDev.dateInfo dev.settings logger os)
      (LoggerDev.processInfo dev.settings logger os)
      (LoggerDev.debugInfo dev.settings logger os aLevel aLine aFile aFunc)
      (LoggerDev.isFullDebugInfo dev.settings logger os aLevel aLine aFile aFunc)
      (LoggerDev.message aFmt anArgs) hw h0 h5
    exact ⟨outputs, ho⟩
  · exact ⟨[], vlogGeneric_hidden dev logger os aLevel aLine aFile aFunc aFmt anArgs h0 h5
      (by simpa using hshown)⟩

/-! ## The fan-out -/

theorem vlog_generic_loop_fst (memory : Memory) (logger : log_t) (os : OS) (level line : Int)
    (file func : Option String) (fmt : String) (args : List Arg) (devs : List Nat)
    (visits : List Visit)
    (h : log_t.vlog_generic_loop memory logger os level line file func fmt args devs
      = some visits) :
    visits.map Prod.fst = devs := by
  induction devs generalizing visits with
  | nil =>
    simp only [log_t.vlog_generic_loop, Option.some.injEq] at h
    subst h
    rfl
  | cons p rest ih =>
    simp only [log_t.vlog_generic_loop, Option.bind_eq_bind, Option.bind_eq_some] at h
    obtain ⟨outputs, -, tail, ht, hv⟩ := h
    simp only [Option.some.injEq] at hv
    subst hv
    simp [ih tail ht]

theorem vlog_generic_loop_visits (memory : Memory) (logger : log_t) (os : OS) (level line : Int)
    (file func : Option String) (fmt : String) (args : List Arg) (devs : List Nat)
    (hv : ∀ p ∈ devs, ∃ outputs,
      (memory p).vlogGeneric logger os level line file func fmt args = some outputs) :
    ∃ visits, log_t.vlog_generic_loop memory logger os level line file func fmt args devs
        = some visits ∧ visits.map Prod.fst = devs ∧
      ∀ v ∈ visits, v.1 ∈ devs ∧
        (memory v.1).vlogGeneric logger os level line file func fmt args = some v.2 := by
  induction devs with
  | nil => exact ⟨[], rfl, rfl, by simp⟩
  | cons p rest ih =>
    obtain ⟨visits, hvis, hmap, hall⟩ := ih (fun q hq => hv q (List.mem_cons_of_mem _ hq))
    obtain ⟨outputs, ho⟩ := hv p (List.mem_cons_self _ _)
    refine ⟨(p, outputs) :: visits, ?_, ?_, ?_⟩
    · simp [log_t.vlog_generic_loop, ho, hvis]
    · simp [hmap]
    · intro v hvmem
      rcases List.mem_cons.1 hvmem with rfl | hin
      · exact ⟨List.mem_cons_self _ _, ho⟩
      · exact ⟨List.mem_cons_of_mem _ (hall v hin).1, (hall v hin).2⟩

theorem vlog_generic_visits (memory : Memory) (logger : log_t) (os : OS) (level line : Int)
    (file func : Option String) (fmt : String) (args : List Arg)
    (hv : ∀ p ∈ logger.iDevs, ∃ outputs,
      (memory p).vlogGeneric (logger.updateTime os) os level line file func fmt args
        = some outputs) :
    ∃ visits, log_t.vlog_generic memory logger os level line file func fmt args
        = some (logger.updateTime os, visits) ∧ visits.map Prod.fst = logger.iDevs ∧
      ∀ v ∈ visits, v.1 ∈ logger.iDevs ∧
        (memory v.1).vlogGeneric (logger.updateTime os) os level line file func fmt args
          = some v.2 := by
  obtain ⟨visits, hvis, hmap, hall⟩ := vlog_generic_loop_visits memory (logger.updateTime os) os
    level line file func fmt args logger.iDevs hv
  refine ⟨visits, ?_, hmap, hall⟩
  have hd : (logger.updateTime os).iDevs = logger.iDevs := rfl
  simp [log_t.vlog_generic, hd, hvis]

theorem vlog_generic_fst (memory : Memory) (logger : log_t) (os : OS) (level line : Int)
    (file func : Option String) (fmt : String) (args : List Arg) (result : log_t × List Visit)
    (h : log_t.vlog_generic memory logger os level line file func fmt args = some result) :
    result.2.map Prod.fst = logger.iDevs := by
  simp only [log_t.vlog_generic, Option.bind_eq_bind, Option.bind_eq_some] at h
  obtain ⟨visits, hvis, hr⟩ := h
  simp only [Option.some.injEq] at hr
  subst hr
  exact vlog_generic_loop_fst memory _ os level line file func fmt args _ visits hvis

theorem addLoggerDevs_iDevs (logger : log_t) (sinks : List Nat) (hs : ∀ p ∈ sinks, p ≠ 0) :
    ∃ next, logger.addLoggerDevs sinks = some next ∧
      next.iDevs = sinks.reverse ++ logger.iDevs ∧ next.iTs = logger.iTs ∧
      next.iTv = logger.iTv ∧ next.iTm = logger.iTm ∧ next.prg_name = logger.prg_name := by
  induction sinks generalizing logger with
  | nil => exact ⟨logger, rfl, by simp⟩
  | cons p rest ih =>
    have hp : p ≠ 0 := hs p (List.mem_cons_self _ _)
    obtain ⟨next, hn, hd, h1, h2, h3, h4⟩ :=
      ih { logger with iDevs := p :: logger.iDevs } (fun q hq => hs q (List.mem_cons_of_mem _ hq))
    refine ⟨next, ?_, ?_, h1, h2, h3, h4⟩
    · simp [log_t.addLoggerDevs, log_t.addLoggerDev, hp, hn]
    · simp [hd]

theorem addLoggerDevs_iDevs_of_some (logger later : log_t) (sinks : List Nat)
    (h : logger.addLoggerDevs sinks = some later) :
    later.iDevs = sinks.reverse ++ logger.iDevs := by
  induction sinks generalizing logger with
  | nil =>
    simp only [log_t.addLoggerDevs, Option.some.injEq] at h
    subst h
    simp
  | cons p rest ih =>
    by_cases hp : p = 0
    · simp [log_t.addLoggerDevs, log_t.addLoggerDev, hp] at h
    · simp only [log_t.addLoggerDevs, log_t.addLoggerDev, hp, if_false, Option.some_bind] at h
      rw [ih _ h]
      simp

theorem list_remove_eq_filter (value : Nat) (devs : List Nat) :
    list_remove value devs = devs.filter (fun p => decide (p ≠ value)) := by
  induction devs with
  | nil => rfl
  | cons p rest ih =>
    by_cases h : p = value <;> simp [list_remove, h, ih]

theorem list_remove_of_not_mem (value : Nat) (devs : List Nat) (h : value ∉ devs) :
    list_remove value devs = devs := by
  rw [list_remove_eq_filter, List.filter_eq_self]
  intro p hp
  have : p ≠ value := fun e => h (e ▸ hp)
  simpa using this

/-- C4: after `addLoggerDev(S1)`, ..., `addLoggerDev(Sn)` in that order, one `vlog_generic`
calls `vlogGeneric` of the sinks in the order Sn, ..., S1, and after them of the sinks that
were registered before. -/
theorem fanout_in_reverse_registration_order (memory : Memory) (logger : log_t) (os : OS)
    (sinks : List Nat) (level line : Int) (file func : Option String) (fmt : String)
    (args : List Arg)
    (hs : ∀ p ∈ sinks, p ≠ 0)
    (hw : ∀ p ∈ sinks ++ logger.iDevs, (memory p).canWrite = true)
    (h0 : 0 ≤ level) (h5 : level ≤ 5) :
    ∃ next result, logger.addLoggerDevs sinks = some next ∧
      log_t.vlog_generic memory next os level line file func fmt args = some result ∧
      result.2.map Prod.fst = sinks.reverse ++ logger.iDevs := by
  obtain ⟨next, hn, hd, -⟩ := addLoggerDevs_iDevs logger sinks hs
  obtain ⟨visits, hvis, hmap, -⟩ := vlog_generic_visits memory next os level line file func fmt
    args (fun p hp => vlogGeneric_some (memory p) _ os level line file func fmt args
      (hw p (by
        rw [hd] at hp
        simpa using hp)) h0 h5)
  exact ⟨next, _, hn, hvis, by rw [hmap, hd]⟩

theorem fanout_in_reverse_registration_order_witness :
    ∃ next result, sampleLogger.addLoggerDevs [1, 2] = some next ∧
      log_t.vlog_generic (fun _ => LoggerDev.SysLogDev ⟨5, 33, 2⟩) next sampleOS 4 (-1) none none
        "x" [] = some result ∧
      result.2.map Prod.fst = [2, 1] :=
  fanout_in_reverse_registration_order (fun _ => LoggerDev.SysLogDev ⟨5, 33, 2⟩) sampleLogger
    sampleOS [1, 2] 4 (-1) none none "x" [] (by decide) (fun _ _ => rfl) (by decide) (by decide)

/-- C5: for a record of level 0..5, a sink whose own settings do not show the level produces no
output (its `vlogGeneric` returns before `printLog`), and in one fan-out over sinks of which the
showing ones can write, every sink is visited, the sinks that do not show the level have no
output and every sink that shows it has the output of its `printLog`, which is not empty. -/
theorem hidden_sink_skipped_shown_sinks_render (memory : Memory) (logger : log_t) (os : OS)
    (level line : Int) (file func : Option String) (fmt : String) (args : List Arg)
    (h0 : 0 ≤ level) (h5 : level ≤ 5)
    (hw : ∀ p ∈ logger.iDevs, (memory p).settings.isLogShown level = true →
      (memory p).canWrite = true) :
    (∀ dev : LoggerDev, dev.settings.isLogShown level = false →
      dev.vlogGeneric (logger.updateTime os) os level line file func fmt args = some []) ∧
    ∃ visits, log_t.vlog_generic memory logger os level line file func fmt args
        = some (logger.updateTime os, visits) ∧
      visits.map Prod.fst = logger.iDevs ∧
      ∀ v ∈ visits,
        ((memory v.1).settings.isLogShown level = false → v.2 = []) ∧
        ((memory v.1).settings.isLogShown level = true → v.2 ≠ [] ∧
          (memory v.1).render (logger.updateTime os) os level line file func fmt args
            = some v.2) := by
  refine ⟨fun dev hd => vlogGeneric_hidden dev _ os level line file func fmt args h0 h5 hd, ?_⟩
  obtain ⟨visits, hvis, hmap, hall⟩ := vlog_generic_visits memory logger os level line file func
    fmt args (fun p hp => by
      by_cases hshown : (memory p).settings.isLogShown level = true
      · exact vlogGeneric_some (memory p) _ os level line file func fmt args (hw p hp hshown)
          h0 h5
      · exact ⟨[], vlogGeneric_hidden (memory p) _ os level line file func fmt args h0 h5
          (by simpa using hshown)⟩)
  refine ⟨visits, hvis, hmap, fun v hv => ⟨fun hhid => ?_, fun hshown => ?_⟩⟩
  · have h1 := (hall v hv).2
    rw [vlogGeneric_hidden (memory v.1) _ os level line file func fmt args h0 h5 hhid] at h1
    exact (Option.some.inj h1).symm
  · have h1 := (hall v hv).2
    rw [vlogGeneric_shown (memory v.1) _ os level line file func fmt args h0 h5 hshown] at h1
    obtain ⟨outputs, ho, hne⟩ := dev_printLog_some (memory v.1) level
      (LoggerDev.dateInfo (memory v.1).settings (logger.updateTime os) os)
      (LoggerDev.processInfo (memory v.1).settings (logger.updateTime os) os)
      (LoggerDev.debugInfo (memory v.1).settings (logger.updateTime os) os level line file func)
      (LoggerDev.isFullDebugInfo (memory v.1).settings (logger.updateTime os) os level line
        file func)
      (LoggerDev.message fmt args) (hw v.1 (hall v hv).1 hshown) h0 h5
    have ho2 : (memory v.1).render (logger.updateTime os) os level line file func fmt args
        = some outputs := ho
    rw [ho2] at h1
    have : outputs = v.2 := Option.some.inj h1
    subst this
    exact ⟨hne, ho2⟩

theorem hidden_sink_skipped_shown_sinks_render_witness :
    (∀ dev : LoggerDev, dev.settings.isLogShown 4 = false →
      dev.vlogGeneric (log_t.updateTime { sampleLogger with iDevs := [2, 1] } sampleOS)
        sampleOS 4 (-1) none none "x" [] = some []) ∧
    ∃ visits, log_t.vlog_generic sampleMemory { sampleLogger with iDevs := [2, 1] } sampleOS 4
        (-1) none none "x" []
        = some (log_t.updateTime { sampleLogger with iDevs := [2, 1] } sampleOS, visits) ∧
      visits.map Prod.fst = [2, 1] ∧
      ∀ v ∈ visits,
        ((sampleMemory v.1).settings.isLogShown 4 = false → v.2 = []) ∧
        ((sampleMemory v.1).settings.isLogShown 4 = true → v.2 ≠ [] ∧
          (sampleMemory v.1).render
            (log_t.updateTime { sampleLogger with iDevs := [2, 1] } sampleOS) sampleOS 4 (-1)
            none none "x" [] = some v.2) :=
  hidden_sink_skipped_shown_sinks_render sampleMemory { sampleLogger with iDevs := [2, 1] }
    sampleOS 4 (-1) none none "x" [] (by decide) (by decide) (by
      intro p hp _
      have : p = 2 ∨ p = 1 := by simpa using hp
      rcases this with rfl | rfl <;> rfl)

/-- C6: for a sink `S` (an address other than `NULL`), `removeLoggerDev(S)` does not fail; after
it `S` is not registered; the other sinks are registered as before, in their previous order;
a registry that did not hold `S` is unchanged; and no `vlog_generic` on the new registry, also
after further sinks other than `S` are added, visits `S`: it visits the remaining sinks. -/
theorem removeLoggerDev_unregisters (memory : Memory) (logger : log_t) (S : Nat)
    (hS : S ≠ 0) :
    ∃ next, logger.removeLoggerDev S = some next ∧
      S ∉ next.iDevs ∧
      next.iDevs = logger.iDevs.filter (fun p => decide (p ≠ S)) ∧
      (S ∉ logger.iDevs → next = logger) ∧
      (∀ (more : List Nat) (later : log_t) (os : OS) (level line : Int)
        (file func : Option String) (fmt : String) (args : List Arg)
        (result : log_t × List Visit),
        S ∉ more → next.addLoggerDevs more = some later →
        log_t.vlog_generic memory later os level line file func fmt args = some result →
        S ∉ result.2.map Prod.fst) ∧
      (∀ (os : OS) (level line : Int) (file func : Option String) (fmt : String)
        (args : List Arg), 0 ≤ level → level ≤ 5 →
        (∀ p ∈ next.iDevs, (memory p).canWrite = true) →
        ∃ visits, log_t.vlog_generic memory next os level line file func fmt args
            = some (next.updateTime os, visits) ∧
          visits.map Prod.fst = logger.iDevs.filter (fun p => decide (p ≠ S))) := by
  refine ⟨{ logger with iDevs := list_remove S logger.iDevs }, ?_, ?_, ?_, ?_, ?_, ?_⟩
  · simp [log_t.removeLoggerDev, hS]
  · simp [list_remove_eq_filter]
  · exact list_remove_eq_filter S logger.iDevs
  · intro hnot
    simp [list_remove_of_not_mem S logger.iDevs hnot]
  · intro more later os level line file func fmt args result hmore hadd hres
    rw [vlog_generic_fst memory later os level line file func fmt args result hres]
    rw [addLoggerDevs_iDevs_of_some _ later more hadd]
    simp only [List.mem_append, List.mem_reverse, not_or]
    exact ⟨hmore, by simp [list_remove_eq_filter]⟩
  · intro os level line file func fmt args h0 h5 hw
    obtain ⟨visits, hvis, hmap, -⟩ := vlog_generic_visits memory
      { logger with iDevs := list_remove S logger.iDevs } os level line file func fmt args
      (fun p hp => vlogGeneric_some (memory p) _ os level line file func fmt args (hw p hp) h0 h5)
    exact ⟨visits, hvis, by rw [hmap]; exact list_remove_eq_filter S logger.iDevs⟩

theorem removeLoggerDev_unregisters_witness :
    ∃ next, log_t.removeLoggerDev { sampleLogger with iDevs := [3, 2, 1] } 2 = some next ∧
      2 ∉ next.iDevs ∧
      next.iDevs = [3, 1] ∧
      (2 ∉ [3, 2, 1] → next = { sampleLogger with iDevs := [3, 2, 1] }) ∧
      (∀ (more : List Nat) (later : log_t) (os : OS) (level line : Int)
        (file func : Option String) (fmt : String) (args : List Arg)
        (result : log_t × List Visit),
        2 ∉ more → next.addLoggerDevs more = some later →
        log_t.vlog_generic sampleMemory later os level line file func fmt args = some result →
        2 ∉ result.2.map Prod.fst) ∧
      (∀ (os : OS) (level line : Int) (file func : Option String) (fmt : String)
        (args : List Arg), 0 ≤ level → level ≤ 5 →
        (∀ p ∈ next.iDevs, (sampleMemory p).canWrite = true) →
        ∃ visits, log_t.vlog_generic sampleMemory next os level line file func fmt args
            = some (next.updateTime os, visits) ∧
          visits.map Prod.fst = [3, 1]) :=
  removeLoggerDev_unregisters sampleMemory { sampleLogger with iDevs := [3, 2, 1] } 2
    (by decide)

/-! ## The file sink -/

theorem hasText_eq_false_iff (text : String) : hasText text = false ↔ text = "" := by
  cases text with
  | mk data =>
    cases data with
    | nil => simp [hasText]
    | cons c rest => simp [hasText, String.ext_iff]

theorem hasText_eq_true_iff (text : String) : hasText text = true ↔ text ≠ "" := by
  rw [Ne, ← hasText_eq_false_iff]
  cases hasText text <;> simp

theorem vlogGeneric_debugInfo_no_location (settings : LoggerSettings) (addSpace : Bool)
    (aLevel aLine : Int) :
    LoggerDev.vlogGeneric_debugInfo settings addSpace aLevel aLine none none = ("", false) := by
  unfold LoggerDev.vlogGeneric_debugInfo
  split_ifs <;> simp

/-- The bytes `FileLoggerDev::printLog` writes for an empty message. -/
theorem file_printLog_empty_message (settings : LoggerSettings) (iFp : Nat)
    (aLevel : Int) (d p dbg : String) (full : Bool) (name : String) (hfp : iFp ≠ 0)
    (hname : log_t.level_name aLevel = some name) :
    FileLoggerDev.printLog settings iFp aLevel d p dbg full "" =
      some [Output.fwrite iFp ((FileLoggerDev.vlogPrefixes d p).1 ++
        ((if hasText dbg && settings.isFileLine then
            (if (FileLoggerDev.vlogPrefixes d p).2 then " " ++ name ++ " at" else name ++ " at")
          else (if (FileLoggerDev.vlogPrefixes d p).2 then " " ++ name else name)) ++
          (if hasText dbg then
            (if (FileLoggerDev.vlogPrefixes d p).2 then " " ++ dbg else dbg) else ":")) ++
        (if hasText dbg then "." else "") ++ "\n")] := by
  have hm : hasText "" = false := rfl
  cases hdbg : hasText dbg <;>
    simp [FileLoggerDev.printLog, FileLoggerDev.vlogDebugInfo, hname, hfp, hm, hdbg]

/-- C7, as the code has it: for a record with an empty message that a file sink with an open
stream shows, the sink writes the prefixes, the level name and the location and no message
text; when the debug segment is not empty the line ends in `.` right before the newline, and
when the debug segment is empty the line ends in the level name and `:` right before the
newline. -/
theorem empty_message_file_line (settings : LoggerSettings) (iFp : Nat) (iIsFpOwner : Bool)
    (logger : log_t) (os : OS) (aLevel aLine : Int) (aFile aFunc : Option String)
    (aFmt : String) (anArgs : List Arg)
    (hfp : iFp ≠ 0) (h0 : 0 ≤ aLevel) (h5 : aLevel ≤ 5)
    (hshown : settings.isLogShown aLevel = true)
    (hmsg : LoggerDev.message aFmt anArgs = "") :
    ∃ name, log_t.level_name aLevel = some name ∧
      (LoggerDev.FileLoggerDev settings iFp iIsFpOwner).vlogGeneric logger os aLevel aLine
          aFile aFunc aFmt anArgs =
        some [Output.fwrite iFp
          (if hasText (LoggerDev.debugInfo settings logger os aLevel aLine aFile aFunc) then
            FileLoggerDev.prefixText (LoggerDev.dateInfo settings logger os)
                (LoggerDev.processInfo settings logger os) ++
              FileLoggerDev.prefixGap (LoggerDev.dateInfo settings logger os)
                (LoggerDev.processInfo settings logger os) ++
              name ++ (if settings.isFileLine then " at" else "") ++
              FileLoggerDev.prefixGap (LoggerDev.dateInfo settings logger os)
                (LoggerDev.processInfo settings logger os) ++
              LoggerDev.debugInfo settings logger os aLevel aLine aFile aFunc ++ ".\n"
          else
            FileLoggerDev.prefixText (LoggerDev.dateInfo settings logger os)
                (LoggerDev.processInfo settings logger os) ++
              FileLoggerDev.prefixGap (LoggerDev.dateInfo settings logger os)
                (LoggerDev.processInfo settings logger os) ++
              name ++ ":\n")] := by
  obtain ⟨name, hname, -⟩ := level_name_some aLevel h0 h5
  refine ⟨name, hname, ?_⟩
  rw [vlogGeneric_shown (LoggerDev.FileLoggerDev settings iFp iIsFpOwner) logger os aLevel aLine
    aFile aFunc aFmt anArgs h0 h5 hshown]
  simp only [LoggerDev.render, LoggerDev.printLog, LoggerDev.settings, hmsg]
  rw [file_printLog_empty_message settings iFp aLevel _ _ _ _ name hfp hname]
  simp only [FileLoggerDev.prefixText, FileLoggerDev.prefixGap]
  cases hasText (LoggerDev.debugInfo settings logger os aLevel aLine aFile aFunc) <;>
    cases (FileLoggerDev.vlogPrefixes (LoggerDev.dateInfo settings logger os)
      (LoggerDev.processInfo settings logger os)).2 <;>
    cases settings.isFileLine <;>
    (simp [String.append_assoc]; try rfl)

theorem empty_message_file_line_witness :
    ∃ name, log_t.level_name 5 = some name ∧
      (LoggerDev.FileLoggerDev ⟨5, 33, 14⟩ 7 true).vlogGeneric sampleLogger sampleOS 5 12
          (some "a.cpp") (some "main") "" [] =
        some [Output.fwrite 7
          (if hasText (LoggerDev.debugInfo ⟨5, 33, 14⟩ sampleLogger sampleOS 5 12
              (some "a.cpp") (some "main")) then
            FileLoggerDev.prefixText (LoggerDev.dateInfo ⟨5, 33, 14⟩ sampleLogger sampleOS)
                (LoggerDev.processInfo ⟨5, 33, 14⟩ sampleLogger sampleOS) ++
              FileLoggerDev.prefixGap (LoggerDev.dateInfo ⟨5, 33, 14⟩ sampleLogger sampleOS)
                (LoggerDev.processInfo ⟨5, 33, 14⟩ sampleLogger sampleOS) ++
              name ++ (if LoggerSettings.isFileLine ⟨5, 33, 14⟩ then " at" else "") ++
              FileLoggerDev.prefixGap (LoggerDev.dateInfo ⟨5, 33, 14⟩ sampleLogger sampleOS)
                (LoggerDev.processInfo ⟨5, 33, 14⟩ sampleLogger sampleOS) ++
              LoggerDev.debugInfo ⟨5, 33, 14⟩ sampleLogger sampleOS 5 12
                (some "a.cpp") (some "main") ++ ".\n"
          else
            FileLoggerDev.prefixText (LoggerDev.dateInfo ⟨5, 33, 14⟩ sampleLogger sampleOS)
                (LoggerDev.processInfo ⟨5, 33, 14⟩ sampleLogger sampleOS) ++
              FileLoggerDev.prefixGap (LoggerDev.dateInfo ⟨5, 33, 14⟩ sampleLogger sampleOS)
                (LoggerDev.processInfo ⟨5, 33, 14⟩ sampleLogger sampleOS) ++
              name ++ ":\n")] :=
  empty_message_file_line ⟨5, 33, 14⟩ 7 true sampleLogger sampleOS 5 12 (some "a.cpp")
    (some "main") "" [] (by decide) (by decide) (by decide) (by decide) (by decide)

/-- C7 as stated fails: a file sink that shows level 4 and has no location for it writes, for
the empty message, the line `INFO:`, which ends in `:` and not in `.`. -/
theorem empty_message_line_ends_in_colon :
    (LoggerSettings.mk 5 33 LoggerSettings.EMessage).isLogShown 4 = true ∧
      LoggerDev.message "" [] = "" ∧
      (LoggerDev.FileLoggerDev ⟨5, 33, LoggerSettings.EMessage⟩ 7 true).vlogGeneric sampleLogger
        sampleOS 4 (-1) none none "" [] = some [Output.fwrite 7 "INFO:\n"] ∧
      ¬ (".\n".data <:+ "INFO:\n".data) := by
  decide

theorem message_only_segments (v mask : Int) (logger : log_t) (os : OS) (aLevel : Int) :
    LoggerDev.dateInfo ⟨v, mask, LoggerSettings.EMessage⟩ logger os = "" ∧
      LoggerDev.processInfo ⟨v, mask, LoggerSettings.EMessage⟩ logger os = "" ∧
      LoggerDev.debugInfo ⟨v, mask, LoggerSettings.EMessage⟩ logger os aLevel (-1) none none
        = "" ∧
      LoggerDev.isFullDebugInfo ⟨v, mask, LoggerSettings.EMessage⟩ logger os aLevel (-1) none
        none = false := by
  have hd : LoggerSettings.isDateTimeInfo ⟨v, mask, LoggerSettings.EMessage⟩ = false := rfl
  have hp : LoggerSettings.isProcessInfo ⟨v, mask, LoggerSettings.EMessage⟩ = false := rfl
  refine ⟨?_, ?_, ?_, ?_⟩
  · simp [LoggerDev.dateInfo, LoggerDev.vlogGeneric_dateInfo, hd]
  · simp [LoggerDev.processInfo, LoggerDev.vlogGeneric_processInfo, hp]
  · rw [debugInfo_eq, vlogGeneric_debugInfo_no_location]
  · rw [isFullDebugInfo_eq, vlogGeneric_debugInfo_no_location]

/-- C8, as the code has it: on a file sink with an open stream whose message format is exactly
`EMessage` and whose verbosity shows level 0, the call `message(0)` writes exactly the line
`INTERNAL ERROR:` and a newline: no date/time or process prefix, the level name and `:`. -/
theorem message_only_sink_writes_level_name (memory : Memory) (logger : log_t) (os : OS)
    (p iFp : Nat) (iIsFpOwner : Bool) (v mask : Int)
    (hdevs : logger.iDevs = [p])
    (hdev : memory p = LoggerDev.FileLoggerDev ⟨v, mask, LoggerSettings.EMessage⟩ iFp iIsFpOwner)
    (hfp : iFp ≠ 0) (hv : 0 ≤ v) :
    log_t.message_level memory logger os 0 =
      some (logger.updateTime os, [(p, [Output.fwrite iFp "INTERNAL ERROR:\n"])]) := by
  have hshown : (memory p).settings.isLogShown 0 = true := by
    simp [hdev, LoggerDev.settings, LoggerSettings.isLogShown, hv]
  have hd : (logger.updateTime os).iDevs = [p] := hdevs
  have hs : skipSentinel "\x01" = "" := by decide
  have hname : log_t.level_name 0 = some "INTERNAL ERROR" := by decide
  have hm : LoggerDev.message "" [] = "" := by decide
  obtain ⟨h1, h2, h3, h4⟩ := message_only_segments v mask (logger.updateTime os) os 0
  have hout : (memory p).vlogGeneric (logger.updateTime os) os 0 (-1) none none "" [] =
      some [Output.fwrite iFp "INTERNAL ERROR:\n"] := by
    rw [vlogGeneric_shown (memory p) _ os 0 (-1) none none "" [] (le_refl 0) (by decide) hshown]
    simp only [LoggerDev.render, hdev, LoggerDev.printLog, LoggerDev.settings, h1, h2, h3, h4, hm]
    rw [file_printLog_empty_message _ iFp 0 "" "" "" false "INTERNAL ERROR" hfp hname]
    rfl
  simp [log_t.message_level, log_t.message, LOG_MAX_LEVEL, hs, log_t.vlog_generic, hd,
    log_t.vlog_generic_loop, hout]

theorem message_only_sink_writes_level_name_witness :
    log_t.message_level sampleMemory { sampleLogger with iDevs := [1] } sampleOS 0 =
      some (log_t.updateTime { sampleLogger with iDevs := [1] } sampleOS,
        [(1, [Output.fwrite 7 "INTERNAL ERROR:\n"])]) :=
  message_only_sink_writes_level_name sampleMemory { sampleLogger with iDevs := [1] } sampleOS
    1 7 true 5 33 rfl rfl (by decide) (by decide)

/-- C8 as stated fails: on a file sink whose message format is exactly `EMessage` and that shows
level 0, `message(0)` does not write the bare line `.`: the bytes written are the level name
`INTERNAL ERROR:` and a newline. -/
theorem message_only_sink_line_is_not_bare_dot :
    (sampleMemory 1) = LoggerDev.FileLoggerDev ⟨5, 33, LoggerSettings.EMessage⟩ 7 true ∧
      (log_t.message_level sampleMemory { sampleLogger with iDevs := [1] } sampleOS 0).map
          (fun result => result.2) = some [(1, [Output.fwrite 7 "INTERNAL ERROR:\n"])] ∧
      (log_t.message_level sampleMemory { sampleLogger with iDevs := [1] } sampleOS 0).map
          (fun result => result.2) ≠ some [(1, [Output.fwrite 7 ".\n"])] := by
  decide

/-! ## Text lemmas -/

theorem hasText_append (a b : String) : hasText (a ++ b) = (hasText a || hasText b) := by
  cases a with
  | mk da =>
    cases b with
    | mk db =>
      cases da <;> cases db <;> simp [hasText, String.data_append]

theorem lineCount_append (a b : String) : lineCount (a ++ b) = lineCount a + lineCount b := by
  simp [lineCount, String.data_append, List.count_append]

theorem hasText_SmartBuffer_append (Len : Nat) (buf text : String) (hLen : 2 ≤ Len) :
    hasText (SmartBuffer.append Len buf text) = (hasText buf || hasText text) := by
  cases buf with
  | mk db =>
    cases text with
    | mk dt =>
      obtain ⟨k, rfl⟩ : ∃ k, Len = k + 2 := ⟨Len - 2, by omega⟩
      cases db <;> cases dt <;> simp [hasText, SmartBuffer.append]

/-! ## The default settings -/

theorem default_dateInfo_hasText (logger : log_t) (os : OS) :
    hasText (LoggerDev.dateInfo LoggerDev.defaultSettings logger os) = true := by
  have h1 : LoggerDev.defaultSettings.isDateTimeInfo = true := by decide
  have h2 : LoggerDev.defaultSettings.isTzSymLink = true := by decide
  simp only [LoggerDev.dateInfo, LoggerDev.vlogGeneric_dateInfo, h1, h2, if_true]
  rw [hasText_SmartBuffer_append _ _ _ (by decide)]
  have : ∀ b : Bool, hasText (if b = true then " \x27" ++ tzLink os ++ "\x27"
      else "\x27" ++ tzLink os ++ "\x27") = true := by
    intro b
    have hq : hasText "\x27" = true := by decide
    cases b <;> simp [hasText_append, hq]
  rw [this]
  simp

theorem default_processInfo_hasText (logger : log_t) (os : OS) :
    hasText (LoggerDev.processInfo LoggerDev.defaultSettings logger os) = true := by
  have h1 : LoggerDev.defaultSettings.isProcessInfo = true := by decide
  have h2 : LoggerDev.defaultSettings.isPid = true := by decide
  simp only [LoggerDev.processInfo, LoggerDev.vlogGeneric_processInfo, h1, h2, if_true]
  rw [hasText_SmartBuffer_append _ _ _ (by decide)]
  have : hasText ("(" ++ fmt_d os.pid ++ ")") = true := by
    have hq : hasText ")" = true := by decide
    simp [hasText_append, hq]
  rw [this]
  simp

/-- C9: on a file sink with an open stream and the default settings, for any time snapshot
and process identity whose date/time and process segments `D` and `P` hold no newline,
`message(4, "value=%d", 5)` writes exactly the line `[D] [P] INFO: value=5` and a newline, with
`D` and `P` not empty: one newline-terminated line with a bracketed date/time segment, then a
bracketed process segment, then `INFO`, ending in `: value=5`. -/
theorem default_file_sink_info_line (memory : Memory) (logger : log_t) (os : OS)
    (p iFp : Nat) (iIsFpOwner : Bool)
    (hdevs : logger.iDevs = [p])
    (hdev : memory p = LoggerDev.FileLoggerDev LoggerDev.defaultSettings iFp iIsFpOwner)
    (hfp : iFp ≠ 0)
    (hD : lineCount (LoggerDev.dateInfo LoggerDev.defaultSettings (logger.updateTime os) os) = 0)
    (hP : lineCount (LoggerDev.processInfo LoggerDev.defaultSettings (logger.updateTime os) os)
      = 0) :
    log_t.message memory logger os 4 "value=%d" [Arg.int 5] =
        some (logger.updateTime os, [(p, [Output.fwrite iFp
          ("[" ++ LoggerDev.dateInfo LoggerDev.defaultSettings (logger.updateTime os) os ++
            "] [" ++ LoggerDev.processInfo LoggerDev.defaultSettings (logger.updateTime os) os ++
            "] INFO: value=5\n")])]) ∧
      LoggerDev.dateInfo LoggerDev.defaultSettings (logger.updateTime os) os ≠ "" ∧
      LoggerDev.processInfo LoggerDev.defaultSettings (logger.updateTime os) os ≠ "" ∧
      lineCount
        ("[" ++ LoggerDev.dateInfo LoggerDev.defaultSettings (logger.updateTime os) os ++
          "] [" ++ LoggerDev.processInfo LoggerDev.defaultSettings (logger.updateTime os) os ++
          "] INFO: value=5\n") = 1 := by
  have hshown : (memory p).settings.isLogShown 4 = true := by
    rw [hdev]
    rfl
  have hd : (logger.updateTime os).iDevs = [p] := hdevs
  have hs : skipSentinel "value=%d" = "value=%d" := by decide
  have hname : log_t.level_name 4 = some "INFO" := by decide
  have hm : LoggerDev.message "value=%d" [Arg.int 5] = "value=5" := by decide
  have hmt : hasText "value=5" = true := by decide
  have hDt := default_dateInfo_hasText (logger.updateTime os) os
  have hPt := default_processInfo_hasText (logger.updateTime os) os
  have hdbg : LoggerDev.debugInfo LoggerDev.defaultSettings (logger.updateTime os) os 4 (-1)
      none none = "" := by
    rw [debugInfo_eq, vlogGeneric_debugInfo_no_location]
  have hfull : LoggerDev.isFullDebugInfo LoggerDev.defaultSettings (logger.updateTime os) os 4
      (-1) none none = false := by
    rw [isFullDebugInfo_eq, vlogGeneric_debugInfo_no_location]
  have he : hasText "" = false := rfl
  have hout : (memory p).vlogGeneric (logger.updateTime os) os 4 (-1) none none "value=%d"
      [Arg.int 5] = some [Output.fwrite iFp
        ("[" ++ LoggerDev.dateInfo LoggerDev.defaultSettings (logger.updateTime os) os ++
          "] [" ++ LoggerDev.processInfo LoggerDev.defaultSettings (logger.updateTime os) os ++
          "] INFO: value=5\n")] := by
    rw [vlogGeneric_shown (memory p) _ os 4 (-1) none none _ _ (by decide) (by decide) hshown]
    simp only [LoggerDev.render, hdev, LoggerDev.printLog, LoggerDev.settings, hdbg, hfull, hm]
    simp [FileLoggerDev.printLog, FileLoggerDev.vlogDebugInfo, FileLoggerDev.vlogPrefixes,
      hname, hfp, hDt, hPt, hmt, he, String.ext_iff, String.data_append]
  refine ⟨?_, ?_, ?_, ?_⟩
  · simp [log_t.message, LOG_MAX_LEVEL, hs, log_t.vlog_generic, hd, log_t.vlog_generic_loop,
      hout]
  · exact (hasText_eq_true_iff _).1 hDt
  · exact (hasText_eq_true_iff _).1 hPt
  · have e1 : lineCount "[" = 0 := by decide
    have e2 : lineCount "] [" = 0 := by decide
    have e3 : lineCount "] INFO: value=5\n" = 1 := by decide
    simp [lineCount_append, hD, hP, e1, e2, e3]

theorem default_file_sink_info_line_witness :
    (log_t.message (fun _ => LoggerDev.FileLoggerDev LoggerDev.defaultSettings 7 true)
        { sampleLogger with iDevs := [1] } sampleOS 4 "value=%d" [Arg.int 5] =
        some (log_t.updateTime { sampleLogger with iDevs := [1] } sampleOS,
          [(1, [Output.fwrite 7
            ("[" ++ LoggerDev.dateInfo LoggerDev.defaultSettings
                (log_t.updateTime { sampleLogger with iDevs := [1] } sampleOS) sampleOS ++
              "] [" ++ LoggerDev.processInfo LoggerDev.defaultSettings
                (log_t.updateTime { sampleLogger with iDevs := [1] } sampleOS) sampleOS ++
              "] INFO: value=5\n")])]) ∧
      LoggerDev.dateInfo LoggerDev.defaultSettings
        (log_t.updateTime { sampleLogger with iDevs := [1] } sampleOS) sampleOS ≠ "" ∧
      LoggerDev.processInfo LoggerDev.defaultSettings
        (log_t.updateTime { sampleLogger with iDevs := [1] } sampleOS) sampleOS ≠ "" ∧
      lineCount
        ("[" ++ LoggerDev.dateInfo LoggerDev.defaultSettings
            (log_t.updateTime { sampleLogger with iDevs := [1] } sampleOS) sampleOS ++
          "] [" ++ LoggerDev.processInfo LoggerDev.defaultSettings
            (log_t.updateTime { sampleLogger with iDevs := [1] } sampleOS) sampleOS ++
          "] INFO: value=5\n") = 1) ∧
    "[" ++ LoggerDev.dateInfo LoggerDev.defaultSettings
        (log_t.updateTime { sampleLogger with iDevs := [1] } sampleOS) sampleOS ++
      "] [" ++ LoggerDev.processInfo LoggerDev.defaultSettings
        (log_t.updateTime { sampleLogger with iDevs := [1] } sampleOS) sampleOS ++
      "] INFO: value=5\n" =
      "[1234 (EEST) 2010-10-25 12:46:07 \x27Europe/Helsinki\x27] [logtest(4242)] INFO: value=5\n" :=
  ⟨default_file_sink_info_line
    (fun _ => LoggerDev.FileLoggerDev LoggerDev.defaultSettings 7 true)
    { sampleLogger with iDevs := [1] } sampleOS 1 7 true rfl rfl (by decide) (by decide)
    (by decide), by decide⟩

/-! ## Word wrap -/

theorem lineCount_level_name (name : String) (h : name ∈ log_t.names) : lineCount name = 0 := by
  revert name
  decide

theorem lineCount_vlogPrefixes (d p : String) (hd : lineCount d = 0) (hp : lineCount p = 0) :
    lineCount (FileLoggerDev.vlogPrefixes d p).1 = 0 := by
  have e1 : lineCount "[" = 0 := by decide
  have e2 : lineCount "]" = 0 := by decide
  have e3 : lineCount " [" = 0 := by decide
  have e4 : lineCount ":" = 0 := by decide
  have e5 : lineCount "" = 0 := by decide
  unfold FileLoggerDev.vlogPrefixes
  cases hasText d <;> cases hasText p <;> simp [lineCount_append, hd, hp, e1, e2, e3, e4, e5]

/-- The lines of one `FileLoggerDev::printLog`: two when the message is not empty, the record
has full debug info and word wrap is on, one otherwise. -/
theorem file_printLog_lineCount (settings : LoggerSettings) (iFp : Nat) (aLevel : Int)
    (d p dbg : String) (full : Bool) (msg : String) (hfp : iFp ≠ 0)
    (h0 : 0 ≤ aLevel) (h5 : aLevel ≤ 5)
    (hd : lineCount d = 0) (hp : lineCount p = 0) (hdbg : lineCount dbg = 0)
    (hmsg : lineCount msg = 0) :
    ∃ text, FileLoggerDev.printLog settings iFp aLevel d p dbg full msg
        = some [Output.fwrite iFp text] ∧
      "\n".data <:+ text.data ∧
      lineCount text = if hasText msg && (full && settings.isWordWrap) then 2 else 1 := by
  obtain ⟨name, hname, hmem⟩ := level_name_some aLevel h0 h5
  have hn := lineCount_level_name name hmem
  have hpre := lineCount_vlogPrefixes d p hd hp
  have e1 : lineCount " " = 0 := by decide
  have e2 : lineCount " at" = 0 := by decide
  have e3 : lineCount ":" = 0 := by decide
  have e4 : lineCount "." = 0 := by decide
  have e5 : lineCount "" = 0 := by decide
  have e6 : lineCount ":\n" = 1 := by decide
  have e7 : lineCount " ->" = 0 := by decide
  have e8 : lineCount "\n" = 1 := by decide
  simp only [FileLoggerDev.printLog, FileLoggerDev.vlogDebugInfo, hname, hfp, if_false,
    Option.bind_eq_bind, Option.some_bind, Option.pure_def, ↓reduceIte]
  refine ⟨_, rfl, ?_, ?_⟩
  · simp only [String.data_append]
    exact List.suffix_append _ _
  · cases hasText dbg <;> cases hasText msg <;> cases full <;> cases settings.isWordWrap <;>
      cases settings.isFileLine <;> cases (FileLoggerDev.vlogPrefixes d p).2 <;>
      simp [lineCount_append, hn, hpre, hdbg, hmsg, e1, e2, e3, e4, e5, e6, e7, e8]

/-- The calls of one `SysLogDev::printLog` for a record with a debug segment: two when the
message is not empty, the record has full debug info and word wrap is on, one otherwise. -/
theorem syslog_printLog_calls (settings : LoggerSettings) (aLevel : Int)
    (d p dbg : String) (full : Bool) (msg : String)
    (h0 : 0 ≤ aLevel) (h5 : aLevel ≤ 5) (hdbg : hasText dbg = true) :
    ∃ outputs, SysLogDev.printLog settings aLevel d p dbg full msg = some outputs ∧
      (∀ o ∈ outputs, o.isSyslog = true) ∧
      outputs.length = if hasText msg && (full && settings.isWordWrap) then 2 else 1 := by
  obtain ⟨name, hname, -⟩ := level_name_some aLevel h0 h5
  obtain ⟨id, hid⟩ := syslog_level_id_some aLevel h0 h5
  simp only [SysLogDev.printLog, hname, hid, hdbg, Option.bind_eq_bind, Option.some_bind,
    Bool.or_true, Bool.true_or, Bool.not_true, Bool.false_eq_true, if_false, if_true]
  cases hasText msg <;> cases full <;> cases settings.isWordWrap <;>
    simp [Output.isSyslog]

theorem isDebugInfo_of_isFileLine (settings : LoggerSettings)
    (h : settings.isFileLine = true) : settings.isDebugInfo = true := by
  simp only [LoggerSettings.isDebugInfo, LoggerSettings.EDebugInfo, toBool_land_lor]
  simp only [LoggerSettings.isFileLine] at h
  simp [h]

/-- A record with a line, a file and a function, shown with its location under settings with
the file:line and function toggles: `isFullDebugInfo` is set and the debug segment is not
empty. -/
theorem full_debug_info (settings : LoggerSettings) (logger : log_t) (os : OS)
    (aLevel aLine : Int) (file func : String)
    (hloc : settings.isLocationShown aLevel = true) (hfl : settings.isFileLine = true)
    (hfn : settings.isFunc = true) (hline : 0 < aLine) :
    LoggerDev.isFullDebugInfo settings logger os aLevel aLine (some file) (some func) = true ∧
      hasText (LoggerDev.debugInfo settings logger os aLevel aLine (some file) (some func))
        = true := by
  have hdi := isDebugInfo_of_isFileLine settings hfl
  have hc : hasText ":" = true := by decide
  rw [isFullDebugInfo_eq, debugInfo_eq]
  simp only [LoggerDev.vlogGeneric_debugInfo, hdi, hloc, hfl, hfn, hline, Bool.and_self,
    if_true, decide_True, gt_iff_lt]
  refine ⟨by simp, ?_⟩
  rw [hasText_SmartBuffer_append _ _ _ (by decide), hasText_SmartBuffer_append _ _ _ (by decide)]
  simp [hasText_append, hc]

/-- C10, as the code has it: for a record of level 0..5 with full debug info (line > 0, file
and function present, file:line and function toggles on, location shown for the level), shown
by a file sink with an open stream and by a syslog sink with the same settings, whose segments
and message hold no newline: when word wrap is on and the message is not empty the file sink
writes exactly two newline-terminated lines and the syslog sink makes exactly two `syslog`
calls; when word wrap is off, or the message is empty, the file sink writes exactly one line
and the syslog sink makes exactly one call. -/
theorem word_wrap_output_units (settings : LoggerSettings) (iFp : Nat) (iIsFpOwner : Bool)
    (logger : log_t) (os : OS) (aLevel aLine : Int) (file func : String)
    (aFmt : String) (anArgs : List Arg)
    (hfp : iFp ≠ 0) (h0 : 0 ≤ aLevel) (h5 : aLevel ≤ 5)
    (hshown : settings.isLogShown aLevel = true)
    (hloc : settings.isLocationShown aLevel = true) (hfl : settings.isFileLine = true)
    (hfn : settings.isFunc = true) (hline : 0 < aLine)
    (hD : lineCount (LoggerDev.dateInfo settings logger os) = 0)
    (hP : lineCount (LoggerDev.processInfo settings logger os) = 0)
    (hG : lineCount (LoggerDev.debugInfo settings logger os aLevel aLine (some file)
      (some func)) = 0)
    (hM : lineCount (LoggerDev.message aFmt anArgs) = 0) :
    ∃ text calls,
      (LoggerDev.FileLoggerDev settings iFp iIsFpOwner).vlogGeneric logger os aLevel aLine
          (some file) (some func) aFmt anArgs = some [Output.fwrite iFp text] ∧
      (LoggerDev.SysLogDev settings).vlogGeneric logger os aLevel aLine (some file) (some func)
          aFmt anArgs = some calls ∧
      (∀ o ∈ calls, o.isSyslog = true) ∧
      "\n".data <:+ text.data ∧
      (settings.isWordWrap = true ∧ LoggerDev.message aFmt anArgs ≠ "" →
        lineCount text = 2 ∧ calls.length = 2) ∧
      (settings.isWordWrap = false ∨ LoggerDev.message aFmt anArgs = "" →
        lineCount text = 1 ∧ calls.length = 1) := by
  obtain ⟨hfull, hdbg⟩ := full_debug_info settings logger os aLevel aLine file func hloc hfl hfn
    hline
  obtain ⟨text, htext, hend, hcount⟩ := file_printLog_lineCount settings iFp aLevel
    (LoggerDev.dateInfo settings logger os) (LoggerDev.processInfo settings logger os)
    (LoggerDev.debugInfo settings logger os aLevel aLine (some file) (some func))
    (LoggerDev.isFullDebugInfo settings logger os aLevel aLine (some file) (some func))
    (LoggerDev.message aFmt anArgs) hfp h0 h5 hD hP hG hM
  obtain ⟨calls, hcalls, hsys, hlen⟩ := syslog_printLog_calls settings aLevel
    (LoggerDev.dateInfo settings logger os) (LoggerDev.processInfo settings logger os)
    (LoggerDev.debugInfo settings logger os aLevel aLine (some file) (some func))
    (LoggerDev.isFullDebugInfo settings logger os aLevel aLine (some file) (some func))
    (LoggerDev.message aFmt anArgs) h0 h5 hdbg
  refine ⟨text, calls, ?_, ?_, hsys, hend, ?_, ?_⟩
  · rw [vlogGeneric_shown (LoggerDev.FileLoggerDev settings iFp iIsFpOwner) logger os aLevel
      aLine (some file) (some func) aFmt anArgs h0 h5 hshown]
    exact htext
  · rw [vlogGeneric_shown (LoggerDev.SysLogDev settings) logger os aLevel
      aLine (some file) (some func) aFmt anArgs h0 h5 hshown]
    exact hcalls
  · rintro ⟨hw, hne⟩
    have hm := (hasText_eq_true_iff _).2 hne
    rw [hcount, hlen]
    simp [hm, hfull, hw]
  · intro h
    rw [hcount, hlen]
    rcases h with hw | he
    · simp [hw]
    · have hm := (hasText_eq_false_iff _).2 he
      simp [hm]

theorem word_wrap_output_units_witness :
    ∃ text calls,
      (LoggerDev.FileLoggerDev ⟨5, 33, 13⟩ 7 true).vlogGeneric sampleLogger sampleOS 5 12
          (some "a.cpp") (some "main") "hello %s" [Arg.str "world"]
        = some [Output.fwrite 7 text] ∧
      (LoggerDev.SysLogDev ⟨5, 33, 13⟩).vlogGeneric sampleLogger sampleOS 5 12
          (some "a.cpp") (some "main") "hello %s" [Arg.str "world"] = some calls ∧
      (∀ o ∈ calls, o.isSyslog = true) ∧
      "\n".data <:+ text.data ∧
      (LoggerSettings.isWordWrap ⟨5, 33, 13⟩ = true ∧
          LoggerDev.message "hello %s" [Arg.str "world"] ≠ "" →
        lineCount text = 2 ∧ calls.length = 2) ∧
      (LoggerSettings.isWordWrap ⟨5, 33, 13⟩ = false ∨
          LoggerDev.message "hello %s" [Arg.str "world"] = "" →
        lineCount text = 1 ∧ calls.length = 1) :=
  word_wrap_output_units ⟨5, 33, 13⟩ 7 true sampleLogger sampleOS 5 12 "a.cpp" "main"
    "hello %s" [Arg.str "world"] (by decide) (by decide) (by decide) (by decide) (by decide)
    (by decide) (by decide) (by decide) (by decide) (by decide) (by decide) (by decide)

/-- C10 as stated fails for the empty message: with full debug info and word wrap on, the file
sink writes one line and the syslog sink makes one call, not two. -/
theorem word_wrap_empty_message_single_unit :
    LoggerSettings.isWordWrap ⟨5, 33, 13⟩ = true ∧
      LoggerDev.isFullDebugInfo ⟨5, 33, 13⟩ sampleLogger sampleOS 5 12 (some "a.cpp")
        (some "main") = true ∧
      (LoggerDev.FileLoggerDev ⟨5, 33, 13⟩ 7 true).vlogGeneric sampleLogger sampleOS 5 12
          (some "a.cpp") (some "main") "" []
        = some [Output.fwrite 7 "DEBUG ata.cpp:12 in main.\n"] ∧
      lineCount "DEBUG ata.cpp:12 in main.\n" = 1 ∧
      (LoggerDev.SysLogDev ⟨5, 33, 13⟩).vlogGeneric sampleLogger sampleOS 5 12
          (some "a.cpp") (some "main") "" []
        = some [Output.syslog 31 "%s%s%s at %s." ["", "", "DEBUG", "a.cpp:12 in main"]] := by
  decide

/-! ## The level tables -/

/-- C17: for the levels 0..5 `syslog_level_id` and `level_name` are defined and return the
documented tables, and for every level outside 0..5 both fail by assertion. -/
theorem level_tables :
    (log_t.level_name 0 = some "INTERNAL ERROR" ∧ log_t.level_name 1 = some "CRITICAL ERROR" ∧
      log_t.level_name 2 = some "ERROR" ∧ log_t.level_name 3 = some "WARNING" ∧
      log_t.level_name 4 = some "INFO" ∧ log_t.level_name 5 = some "DEBUG") ∧
    (SysLogDev.syslog_level_id 0 = some LOG_ALERT ∧ SysLogDev.syslog_level_id 1 = some LOG_CRIT ∧
      SysLogDev.syslog_level_id 2 = some LOG_ERR ∧
      SysLogDev.syslog_level_id 3 = some LOG_WARNING ∧
      SysLogDev.syslog_level_id 4 = some LOG_INFO ∧
      SysLogDev.syslog_level_id 5 = some LOG_DEBUG) ∧
    (∀ level : Int, 0 ≤ level ∧ level ≤ 5 →
      (log_t.level_name level).isSome = true ∧
        (SysLogDev.syslog_level_id level).isSome = true) ∧
    (∀ level : Int, level < 0 ∨ 5 < level →
      log_t.level_name level = none ∧ SysLogDev.syslog_level_id level = none) := by
  refine ⟨by decide, by decide, ?_, ?_⟩
  · rintro level ⟨h0, h5⟩
    obtain ⟨name, hname, -⟩ := level_name_some level h0 h5
    obtain ⟨id, hid⟩ := syslog_level_id_some level h0 h5
    simp [hname, hid]
  · intro level h
    rcases h with h | h
    · have : ¬ (0 ≤ level) := by omega
      simp [log_t.level_name, SysLogDev.syslog_level_id, this]
    · have h6 : ¬ (level.toNat < 6) := by omega
      have hn : log_t.names.length = 6 := rfl
      have hs : SysLogDev.syslog_names.length = 6 := rfl
      simp [log_t.level_name, SysLogDev.syslog_level_id, hn, hs, h6]

/-! ## The assertions of the entry points -/

/-- C12: `message(level, fmt, ...)` fails by assertion when `level < 0` or
`level > LOG_MAX_LEVEL` and otherwise is the fan-out `vlog_generic` with the same level and no
location; `message(level, line, file, func, fmt, ...)` fails by assertion when the level is
outside `0..LOG_MAX_LEVEL` or bit `level` of `LOG_MAX_LOCATION` is unset and otherwise is the
fan-out with the same level and location; and the fan-out of a level in range over sinks that
can write does not fail. -/
theorem message_assertions (memory : Memory) (logger : log_t) (os : OS) (level line : Int)
    (file func : Option String) (fmt : String) (args : List Arg) :
    (level < 0 ∨ LOG_MAX_LEVEL < level →
      log_t.message memory logger os level fmt args = none) ∧
    (0 ≤ level ∧ level ≤ LOG_MAX_LEVEL →
      log_t.message memory logger os level fmt args =
        log_t.vlog_generic memory logger os level (-1) none none (skipSentinel fmt) args) ∧
    (level < 0 ∨ LOG_MAX_LEVEL < level ∨ Int.testBit LOG_MAX_LOCATION level.toNat = false →
      log_t.message_location memory logger os level line file func fmt args = none) ∧
    (0 ≤ level ∧ level ≤ LOG_MAX_LEVEL ∧ Int.testBit LOG_MAX_LOCATION level.toNat = true →
      log_t.message_location memory logger os level line file func fmt args =
        log_t.vlog_generic memory logger os level line file func (skipSentinel fmt) args) ∧
    (0 ≤ level ∧ level ≤ LOG_MAX_LEVEL ∧ (∀ p ∈ logger.iDevs, (memory p).canWrite = true) →
      ∃ result, log_t.vlog_generic memory logger os level line file func (skipSentinel fmt) args
        = some result) := by
  have hbit : ∀ k : Nat, toBool (Int.land ((1 : Int) <<< (k : Int)) LOG_MAX_LOCATION)
      = Int.testBit LOG_MAX_LOCATION k := fun k => toBool_bit_land LOG_MAX_LOCATION k
  refine ⟨?_, ?_, ?_, ?_, ?_⟩
  · intro h
    have hmax : LOG_MAX_LEVEL = 5 := rfl
    by_cases h0 : 0 ≤ level
    · have h5 : ¬ (level ≤ LOG_MAX_LEVEL) := by omega
      simp [log_t.message, h0, h5]
    · simp [log_t.message, h0]
  · rintro ⟨h0, h5⟩
    simp [log_t.message, h0, h5]
  · intro h
    have hmax : LOG_MAX_LEVEL = 5 := rfl
    by_cases h0 : 0 ≤ level
    · by_cases h5 : level ≤ LOG_MAX_LEVEL
      · have hb : Int.testBit LOG_MAX_LOCATION level.toNat = false := by
          rcases h with h | h | h
          · omega
          · omega
          · exact h
        obtain ⟨k, rfl⟩ := Int.eq_ofNat_of_zero_le h0
        have hb2 : Int.testBit LOG_MAX_LOCATION k = false := by simpa using hb
        simp [log_t.message_location, hbit k, hb2]
      · simp [log_t.message_location, h5]
    · simp [log_t.message_location, h0]
  · rintro ⟨h0, h5, hb⟩
    obtain ⟨k, rfl⟩ := Int.eq_ofNat_of_zero_le h0
    have hb2 : Int.testBit LOG_MAX_LOCATION k = true := by simpa using hb
    simp [log_t.message_location, hbit k, hb2, h5]
  · rintro ⟨h0, h5, hw⟩
    obtain ⟨visits, hv, -⟩ := vlog_generic_visits memory logger os level line file func
      (skipSentinel fmt) args (fun p hp => vlogGeneric_some (memory p) _ os level line file func
        (skipSentinel fmt) args (hw p hp) h0 h5)
    exact ⟨_, hv⟩

theorem message_assertions_witness :
    log_t.message sampleMemory sampleLogger sampleOS 7 "x" [] = none ∧
      log_t.message_location sampleMemory sampleLogger sampleOS 4 12 (some "a.cpp")
        (some "main") "x" [] = none ∧
      log_t.message_location sampleMemory sampleLogger sampleOS 5 12 (some "a.cpp")
        (some "main") "x" [] =
        log_t.vlog_generic sampleMemory sampleLogger sampleOS 5 12 (some "a.cpp") (some "main")
          (skipSentinel "x") [] :=
  ⟨(message_assertions sampleMemory sampleLogger sampleOS 7 12 none none "x" []).1
      (Or.inr (by decide)),
    (message_assertions sampleMemory sampleLogger sampleOS 4 12 (some "a.cpp") (some "main")
      "x" []).2.2.1 (Or.inr (Or.inr (by decide))),
    (message_assertions sampleMemory sampleLogger sampleOS 5 12 (some "a.cpp") (some "main")
      "x" []).2.2.2.1 ⟨by decide, by decide, by decide⟩⟩

/-! ## The debug segment and the full debug info flag -/

theorem isLocationShown_eq_testBit (settings : LoggerSettings) (aLevel : Int)
    (h0 : 0 ≤ aLevel) :
    settings.isLocationShown aLevel = Int.testBit settings.location_mask aLevel.toNat := by
  obtain ⟨k, rfl⟩ := Int.eq_ofNat_of_zero_le h0
  simp [LoggerSettings.isLocationShown, toBool_bit_land]

/-- C19: for a record that a sink shows, the flag that `vlogGeneric` passes to `printLog` as
`aIsFullDebugInfo` is true exactly when the bit of the level in the location mask is set, the
line is positive, the file and the function are present and the file:line and function toggles
are both on. -/
theorem full_debug_flag (dev : LoggerDev) (logger : log_t) (os : OS) (aLevel aLine : Int)
    (aFile aFunc : Option String) (aFmt : String) (anArgs : List Arg)
    (h0 : 0 ≤ aLevel) (h5 : aLevel ≤ 5) (hshown : dev.settings.isLogShown aLevel = true) :
    dev.vlogGeneric logger os aLevel aLine aFile aFunc aFmt anArgs =
        dev.printLog aLevel (LoggerDev.dateInfo dev.settings logger os)
          (LoggerDev.processInfo dev.settings logger os)
          (LoggerDev.debugInfo dev.settings logger os aLevel aLine aFile aFunc)
          (LoggerDev.isFullDebugInfo dev.settings logger os aLevel aLine aFile aFunc)
          (LoggerDev.message aFmt anArgs) ∧
      (LoggerDev.isFullDebugInfo dev.settings logger os aLevel aLine aFile aFunc = true ↔
        Int.testBit dev.settings.location_mask aLevel.toNat = true ∧ 0 < aLine ∧
          aFile.isSome = true ∧ aFunc.isSome = true ∧
          dev.settings.isFileLine = true ∧ dev.settings.isFunc = true) := by
  refine ⟨vlogGeneric_shown dev logger os aLevel aLine aFile aFunc aFmt anArgs h0 h5 hshown, ?_⟩
  rw [isFullDebugInfo_eq, ← isLocationShown_eq_testBit dev.settings aLevel h0]
  unfold LoggerDev.vlogGeneric_debugInfo
  by_cases hfl : dev.settings.isFileLine = true
  · have hdi := isDebugInfo_of_isFileLine dev.settings hfl
    by_cases hloc : dev.settings.isLocationShown aLevel = true
    · simp [hdi, hloc, hfl]
      tauto
    · simp [hdi, hloc, hfl]
  · by_cases hc : (dev.settings.isDebugInfo && dev.settings.isLocationShown aLevel) = true
    · simp [hc, hfl]
    · simp [hc, hfl]

theorem full_debug_flag_witness :
    (LoggerDev.FileLoggerDev ⟨5, 33, 13⟩ 7 true).vlogGeneric sampleLogger sampleOS 5 12
        (some "a.cpp") (some "main") "x" [] =
        (LoggerDev.FileLoggerDev ⟨5, 33, 13⟩ 7 true).printLog 5
          (LoggerDev.dateInfo ⟨5, 33, 13⟩ sampleLogger sampleOS)
          (LoggerDev.processInfo ⟨5, 33, 13⟩ sampleLogger sampleOS)
          (LoggerDev.debugInfo ⟨5, 33, 13⟩ sampleLogger sampleOS 5 12 (some "a.cpp")
            (some "main"))
          (LoggerDev.isFullDebugInfo ⟨5, 33, 13⟩ sampleLogger sampleOS 5 12 (some "a.cpp")
            (some "main"))
          (LoggerDev.message "x" []) ∧
      (LoggerDev.isFullDebugInfo ⟨5, 33, 13⟩ sampleLogger sampleOS 5 12 (some "a.cpp")
          (some "main") = true ↔
        Int.testBit (33 : Int) (5 : Int).toNat = true ∧ (0 : Int) < 12 ∧
          (some "a.cpp").isSome = true ∧ (some "main").isSome = true ∧
          LoggerSettings.isFileLine ⟨5, 33, 13⟩ = true ∧
          LoggerSettings.isFunc ⟨5, 33, 13⟩ = true) :=
  full_debug_flag (LoggerDev.FileLoggerDev ⟨5, 33, 13⟩ 7 true) sampleLogger sampleOS 5 12
    (some "a.cpp") (some "main") "x" [] (by decide) (by decide) (by decide)

theorem take_take_append (n : Nat) (a b : List Char) :
    ((a.take n) ++ b).take n = (a ++ b).take n := by
  rw [List.take_append_eq_append_take, List.take_append_eq_append_take, List.take_take,
    Nat.min_self, List.length_take]
  by_cases h : a.length ≤ n
  · rw [Nat.min_eq_right h]
  · have h1 : n - min n a.length = 0 := by omega
    have h2 : n - a.length = 0 := by omega
    rw [h1, h2]

theorem SmartBuffer_append_append (Len : Nat) (a b : String) :
    SmartBuffer.append Len (SmartBuffer.append Len "" a) b = SmartBuffer.append Len "" (a ++ b) := by
  simp [SmartBuffer.append, take_take_append]

theorem SmartBuffer_append_fits (Len : Nat) (text : String) (h : text.length < Len) :
    SmartBuffer.append Len "" text = text := by
  cases text with
  | mk data =>
    have : data.length ≤ Len - 1 := by
      simp only [String.length] at h
      omega
    simp [SmartBuffer.append, List.take_of_length_le this]

theorem debugInfo_eq_spec (settings : LoggerSettings) (aLevel aLine : Int)
    (aFile aFunc : Option String) :
    (LoggerDev.vlogGeneric_debugInfo settings false aLevel aLine aFile aFunc).1 =
      SmartBuffer.append 1024 "" (debugSegmentSpec settings aLevel aLine aFile aFunc) := by
  have hnil : SmartBuffer.append 1024 "" "" = "" := by decide
  have hin : ∀ f : String, " in " ++ f = " " ++ ("in " ++ f) := fun f => by
    rw [← String.append_assoc]
    rfl
  unfold LoggerDev.vlogGeneric_debugInfo debugSegmentSpec debugParts
  by_cases hc : (settings.isDebugInfo && settings.isLocationShown aLevel) = true
  · simp only [hc, if_true]
    cases aFile with
    | none =>
      cases aFunc with
      | none => simp [hnil, String.intercalate]
      | some func =>
        cases settings.isFunc <;> simp [hnil, String.intercalate, String.intercalate.go]
    | some file =>
      cases aFunc with
      | none =>
        cases hfl : (settings.isFileLine && decide (aLine > 0)) <;>
          simp [hfl, hnil, String.intercalate, String.intercalate.go]
      | some func =>
        cases hfl : (settings.isFileLine && decide (aLine > 0)) <;> cases settings.isFunc <;>
          simp [hfl, hnil, hin, String.intercalate, String.intercalate.go,
            SmartBuffer_append_append, String.append_assoc]
  · simp [hc, hnil]

/-- C20: the debug segment that `vlogGeneric` builds is the segment of the specification
(empty unless `isDebugInfo()` and `isLocationShown(level)` hold, otherwise `file:line` and
`in function`, each when its toggle is on and its data present, joined by one blank with no
blank before or after) cut to the 1023 bytes of the buffer, and is that segment itself when it
fits; it is the same for any two settings with the same location mask and the same debug,
file:line and function toggles, whatever their date/time toggles and the time snapshot. -/
theorem debug_segment_spec (settings : LoggerSettings) (logger : log_t) (os : OS)
    (aLevel aLine : Int) (aFile aFunc : Option String) :
    LoggerDev.debugInfo settings logger os aLevel aLine aFile aFunc =
        SmartBuffer.append 1024 "" (debugSegmentSpec settings aLevel aLine aFile aFunc) ∧
      ((debugSegmentSpec settings aLevel aLine aFile aFunc).length < 1024 →
        LoggerDev.debugInfo settings logger os aLevel aLine aFile aFunc =
          debugSegmentSpec settings aLevel aLine aFile aFunc) ∧
      (∀ (other : LoggerSettings) (logger2 : log_t) (os2 : OS),
        other.location_mask = settings.location_mask →
        other.isDebugInfo = settings.isDebugInfo →
        other.isFileLine = settings.isFileLine → other.isFunc = settings.isFunc →
        LoggerDev.debugInfo other logger2 os2 aLevel aLine aFile aFunc =
          LoggerDev.debugInfo settings logger os aLevel aLine aFile aFunc) := by
  have h1 : LoggerDev.debugInfo settings logger os aLevel aLine aFile aFunc =
      SmartBuffer.append 1024 "" (debugSegmentSpec settings aLevel aLine aFile aFunc) := by
    rw [debugInfo_eq, debugInfo_eq_spec]
  refine ⟨h1, ?_, ?_⟩
  · intro hfit
    rw [h1, SmartBuffer_append_fits _ _ hfit]
  · intro other logger2 os2 hm hd hf hn
    rw [h1, debugInfo_eq, debugInfo_eq_spec]
    have : debugSegmentSpec other aLevel aLine aFile aFunc =
        debugSegmentSpec settings aLevel aLine aFile aFunc := by
      simp only [debugSegmentSpec, debugParts, LoggerSettings.isLocationShown, hm, hd, hf, hn]
    rw [this]

theorem debug_segment_spec_witness :
    LoggerDev.debugInfo ⟨5, 33, 12⟩ sampleLogger sampleOS 5 12 (some "a.cpp") (some "main") =
      debugSegmentSpec ⟨5, 33, 12⟩ 5 12 (some "a.cpp") (some "main") ∧
    debugSegmentSpec ⟨5, 33, 12⟩ 5 12 (some "a.cpp") (some "main") = "a.cpp:12 in main" :=
  ⟨(debug_segment_spec ⟨5, 33, 12⟩ sampleLogger sampleOS 5 12 (some "a.cpp")
    (some "main")).2.1 (by decide), by decide⟩

/-! ## The lines of the file sink -/

/-- C15: for a record with full debug info shown by a file sink with an open stream, with word
wrap on and a message `M` that is not empty, the bytes written are the prefix `P` of
`vlogPrefixes`, the level name and the location, `:` and a newline, then the same prefix `P`,
the marker ` ->`, a blank, `M` and a newline. -/
theorem word_wrap_two_lines (settings : LoggerSettings) (iFp : Nat) (iIsFpOwner : Bool)
    (logger : log_t) (os : OS) (aLevel aLine : Int) (file func : String)
    (aFmt : String) (anArgs : List Arg)
    (hfp : iFp ≠ 0) (h0 : 0 ≤ aLevel) (h5 : aLevel ≤ 5)
    (hshown : settings.isLogShown aLevel = true)
    (hloc : settings.isLocationShown aLevel = true) (hfl : settings.isFileLine = true)
    (hfn : settings.isFunc = true) (hline : 0 < aLine)
    (hww : settings.isWordWrap = true)
    (hmsg : LoggerDev.message aFmt anArgs ≠ "") :
    ∃ name levelAndLocation,
      log_t.level_name aLevel = some name ∧
      FileLoggerDev.vlogDebugInfo settings aLevel
          (LoggerDev.debugInfo settings logger os aLevel aLine (some file) (some func))
          (FileLoggerDev.vlogPrefixes (LoggerDev.dateInfo settings logger os)
            (LoggerDev.processInfo settings logger os)).2 = some (levelAndLocation, true) ∧
      levelAndLocation =
        FileLoggerDev.prefixGap (LoggerDev.dateInfo settings logger os)
            (LoggerDev.processInfo settings logger os) ++ name ++ " at" ++
          FileLoggerDev.prefixGap (LoggerDev.dateInfo settings logger os)
            (LoggerDev.processInfo settings logger os) ++
          LoggerDev.debugInfo settings logger os aLevel aLine (some file) (some func) ∧
      (LoggerDev.FileLoggerDev settings iFp iIsFpOwner).vlogGeneric logger os aLevel aLine
          (some file) (some func) aFmt anArgs =
        some [Output.fwrite iFp
          (FileLoggerDev.prefixText (LoggerDev.dateInfo settings logger os)
              (LoggerDev.processInfo settings logger os) ++ levelAndLocation ++ ":\n" ++
            FileLoggerDev.prefixText (LoggerDev.dateInfo settings logger os)
              (LoggerDev.processInfo settings logger os) ++ " ->" ++ " " ++
            LoggerDev.message aFmt anArgs ++ "\n")] := by
  obtain ⟨hfull, hdbg⟩ := full_debug_info settings logger os aLevel aLine file func hloc hfl hfn
    hline
  obtain ⟨name, hname, -⟩ := level_name_some aLevel h0 h5
  have hm := (hasText_eq_true_iff _).2 hmsg
  refine ⟨name, _, hname, ?_, rfl, ?_⟩
  · cases hpre : (FileLoggerDev.vlogPrefixes (LoggerDev.dateInfo settings logger os)
        (LoggerDev.processInfo settings logger os)).2 <;>
      simp [FileLoggerDev.vlogDebugInfo, FileLoggerDev.prefixGap, hname, hdbg, hfl, hpre,
        String.ext_iff, String.data_append]
  · rw [vlogGeneric_shown (LoggerDev.FileLoggerDev settings iFp iIsFpOwner) logger os aLevel
      aLine (some file) (some func) aFmt anArgs h0 h5 hshown]
    simp only [LoggerDev.render, LoggerDev.printLog, LoggerDev.settings]
    cases hpre : (FileLoggerDev.vlogPrefixes (LoggerDev.dateInfo settings logger os)
        (LoggerDev.processInfo settings logger os)).2 <;>
      simp [FileLoggerDev.printLog, FileLoggerDev.vlogDebugInfo, FileLoggerDev.prefixGap,
        FileLoggerDev.prefixText, hname, hfp, hdbg, hfl, hfull, hww, hm, hpre,
        String.ext_iff, String.data_append]

theorem word_wrap_two_lines_witness :
    ∃ name levelAndLocation,
      log_t.level_name 5 = some name ∧
      FileLoggerDev.vlogDebugInfo ⟨5, 33, 45⟩ 5
          (LoggerDev.debugInfo ⟨5, 33, 45⟩ sampleLogger sampleOS 5 12 (some "a.cpp")
            (some "main"))
          (FileLoggerDev.vlogPrefixes (LoggerDev.dateInfo ⟨5, 33, 45⟩ sampleLogger sampleOS)
            (LoggerDev.processInfo ⟨5, 33, 45⟩ sampleLogger sampleOS)).2
        = some (levelAndLocation, true) ∧
      levelAndLocation =
        FileLoggerDev.prefixGap (LoggerDev.dateInfo ⟨5, 33, 45⟩ sampleLogger sampleOS)
            (LoggerDev.processInfo ⟨5, 33, 45⟩ sampleLogger sampleOS) ++ name ++ " at" ++
          FileLoggerDev.prefixGap (LoggerDev.dateInfo ⟨5, 33, 45⟩ sampleLogger sampleOS)
            (LoggerDev.processInfo ⟨5, 33, 45⟩ sampleLogger sampleOS) ++
          LoggerDev.debugInfo ⟨5, 33, 45⟩ sampleLogger sampleOS 5 12 (some "a.cpp")
            (some "main") ∧
      (LoggerDev.FileLoggerDev ⟨5, 33, 45⟩ 7 true).vlogGeneric sampleLogger sampleOS 5 12
          (some "a.cpp") (some "main") "hello %s" [Arg.str "world"] =
        some [Output.fwrite 7
          (FileLoggerDev.prefixText (LoggerDev.dateInfo ⟨5, 33, 45⟩ sampleLogger sampleOS)
              (LoggerDev.processInfo ⟨5, 33, 45⟩ sampleLogger sampleOS) ++ levelAndLocation ++
            ":\n" ++
            FileLoggerDev.prefixText (LoggerDev.dateInfo ⟨5, 33, 45⟩ sampleLogger sampleOS)
              (LoggerDev.processInfo ⟨5, 33, 45⟩ sampleLogger sampleOS) ++ " ->" ++ " " ++
            LoggerDev.message "hello %s" [Arg.str "world"] ++ "\n")] :=
  word_wrap_two_lines ⟨5, 33, 45⟩ 7 true sampleLogger sampleOS 5 12 "a.cpp" "main"
    "hello %s" [Arg.str "world"] (by decide) (by decide) (by decide) (by decide) (by decide)
    (by decide) (by decide) (by decide) (by decide) (by decide)

/-- C14 fails on the code when no prefix is written: a file sink whose format has only the
file:line and function toggles writes `DEBUG ata.cpp:12 in main: hello`, with no blank between
`at` and the location, where the syslog sink has `DEBUG at a.cpp:12 in main: hello` for the same
record; with a process prefix the file sink writes the blank. -/
theorem file_sink_no_blank_after_at :
    (LoggerDev.FileLoggerDev ⟨5, 33, 12⟩ 7 true).vlogGeneric sampleLogger sampleOS 5 12
        (some "a.cpp") (some "main") "hello" []
      = some [Output.fwrite 7 "DEBUG ata.cpp:12 in main: hello\n"] ∧
    ((LoggerDev.SysLogDev ⟨5, 33, 12⟩).vlogGeneric sampleLogger sampleOS 5 12
        (some "a.cpp") (some "main") "hello" []).map (fun calls => calls.map Output.syslogText)
      = some ["DEBUG at a.cpp:12 in main: hello"] ∧
    (LoggerDev.FileLoggerDev ⟨5, 33, 44⟩ 7 true).vlogGeneric sampleLogger sampleOS 5 12
        (some "a.cpp") (some "main") "hello" []
      = some [Output.fwrite 7 "logtest: DEBUG at a.cpp:12 in main: hello\n"] := by
  decide

/-- C16, as the code has it: for a level in 0..5, when the date/time, process, debug and
message segments are all empty, a file sink with an open stream writes the level name, `:` and
the newline, and a syslog sink makes one `syslog` call whose text is the level name. -/
theorem empty_segments_level_name (settings : LoggerSettings) (iFp : Nat) (iIsFpOwner : Bool)
    (aLevel : Int) (full : Bool) (hfp : iFp ≠ 0) (h0 : 0 ≤ aLevel) (h5 : aLevel ≤ 5) :
    ∃ name id, log_t.level_name aLevel = some name ∧
      SysLogDev.syslog_level_id aLevel = some id ∧
      (LoggerDev.FileLoggerDev settings iFp iIsFpOwner).printLog aLevel "" "" "" full "" =
        some [Output.fwrite iFp (name ++ ":\n")] ∧
      (LoggerDev.SysLogDev settings).printLog aLevel "" "" "" full "" =
        some [Output.syslog (Int.lor LOG_DAEMON id) "%s" [name]] ∧
      Output.syslogText (Output.syslog (Int.lor LOG_DAEMON id) "%s" [name]) = name := by
  obtain ⟨name, hname, -⟩ := level_name_some aLevel h0 h5
  obtain ⟨id, hid⟩ := syslog_level_id_some aLevel h0 h5
  have he : hasText "" = false := rfl
  refine ⟨name, id, hname, hid, ?_, ?_, ?_⟩
  · simp only [LoggerDev.printLog]
    rw [file_printLog_empty_message settings iFp aLevel "" "" "" full name hfp hname]
    simp [FileLoggerDev.vlogPrefixes, he, String.ext_iff, String.data_append]
  · simp [LoggerDev.printLog, SysLogDev.printLog, he, hname, hid]
  · cases name with
    | mk data => simp [Output.syslogText, sprintf, vformat]

theorem empty_segments_level_name_witness :
    ∃ name id, log_t.level_name 4 = some name ∧
      SysLogDev.syslog_level_id 4 = some id ∧
      (LoggerDev.FileLoggerDev ⟨5, 33, 0⟩ 7 true).printLog 4 "" "" "" false "" =
        some [Output.fwrite 7 (name ++ ":\n")] ∧
      (LoggerDev.SysLogDev ⟨5, 33, 0⟩).printLog 4 "" "" "" false "" =
        some [Output.syslog (Int.lor LOG_DAEMON id) "%s" [name]] ∧
      Output.syslogText (Output.syslog (Int.lor LOG_DAEMON id) "%s" [name]) = name :=
  empty_segments_level_name ⟨5, 33, 0⟩ 7 true 4 false (by decide) (by decide) (by decide)

/-- C16 as stated fails for the file sink: with every toggle of the format off and an empty
message all four segments are empty, and the sink writes `INFO:` and a newline, not the bare
level name and a newline. -/
theorem empty_segments_file_line_has_colon :
    LoggerDev.dateInfo ⟨5, 33, 0⟩ sampleLogger sampleOS = "" ∧
      LoggerDev.processInfo ⟨5, 33, 0⟩ sampleLogger sampleOS = "" ∧
      LoggerDev.debugInfo ⟨5, 33, 0⟩ sampleLogger sampleOS 4 (-1) none none = "" ∧
      LoggerDev.message "" [] = "" ∧
      (LoggerDev.FileLoggerDev ⟨5, 33, 0⟩ 7 true).vlogGeneric sampleLogger sampleOS 4 (-1)
        none none "" [] = some [Output.fwrite 7 "INFO:\n"] ∧
      (LoggerDev.FileLoggerDev ⟨5, 33, 0⟩ 7 true).vlogGeneric sampleLogger sampleOS 4 (-1)
        none none "" [] ≠ some [Output.fwrite 7 "INFO\n"] := by
  decide

/-- C18 fails on the code: when `fopen` fails the sink holds a `NULL` stream and does not own
it, and its teardown closes nothing, but a record that the sink shows still reaches `fprintf`
on the `NULL` stream in `printLog`, which is not a silent no-op; only a record that the sink
does not show is skipped without a write. -/
theorem failed_fopen_sink_still_writes :
    FileLoggerDev.fromFileName 0 4 33 2 = LoggerDev.FileLoggerDev ⟨4, 33, 2⟩ 0 false ∧
      (FileLoggerDev.fromFileName 0 4 33 2).closedStreams = [] ∧
      (FileLoggerDev.fromFileName 7 4 33 2).closedStreams = [7] ∧
      (FileLoggerDev.fromFileName 0 4 33 2).vlogGeneric sampleLogger sampleOS 5 (-1) none none
        "x" [] = some [] ∧
      (FileLoggerDev.fromFileName 0 4 33 2).vlogGeneric sampleLogger sampleOS 4 (-1) none none
        "x" [] = none ∧
      (FileLoggerDev.fromFileName 0 4 33 2).vlogGeneric sampleLogger sampleOS 4 (-1) none none
        "x" [] ≠ some [] := by
  decide

/-! ## The fatal assertion path -/

theorem assertion_text (assertion suffix : String) :
    sprintf "Assertion failed: %s%s." [Arg.str assertion, Arg.str suffix] =
      "Assertion failed: " ++ assertion ++ suffix ++ "." := by
  cases assertion with
  | mk a =>
    cases suffix with
    | mk b => simp [sprintf, vformat, String.ext_iff, String.data_append]

theorem message_location_internal (memory : Memory) (logger : log_t) (os : OS) (line : Int)
    (file func : Option String) (fmt : String) (args : List Arg) :
    log_t.message_location memory logger os LOG_LEVEL_INTERNAL line file func fmt args =
      log_t.vlog_generic memory logger os 0 line file func (skipSentinel fmt) args := by
  have hb : toBool (Int.land ((1 : Int) <<< LOG_LEVEL_INTERNAL) LOG_MAX_LOCATION) = true := by
    decide
  have h0 : (0 : Int) ≤ LOG_LEVEL_INTERNAL := by decide
  have h5 : LOG_LEVEL_INTERNAL ≤ LOG_MAX_LEVEL := by decide
  simp only [log_t.message_location, hb, h0, h5, not_true_eq_false, if_false]
  rfl

/-- C13: `log_failed_assertion` never returns to the caller; over sinks that can write it ends
in `abort()` after fan-outs of level 0 with the location of the failed assertion: one record
with the message `Assertion failed: A.` when the detail format is the sentinel or empty, and
otherwise two records, the first with the message `Assertion failed: A. Detailed info follows.`
and the second with the detail format and its arguments. -/
theorem failed_assertion_records (memory : Memory) (logger : log_t) (os1 os2 : OS)
    (assertion : String) (line : Int) (file func : Option String) (fmt : String)
    (args : List Arg)
    (hw : ∀ p ∈ logger.iDevs, (memory p).canWrite = true) :
    (∀ (after : log_t) (emits : List (List Visit)),
      log_t.log_failed_assertion memory logger os1 os2 assertion line file func fmt args
        ≠ Outcome.returned after emits) ∧
    (skipSentinel fmt = "" →
      ∃ first,
        log_t.vlog_generic memory logger os1 0 line file func "Assertion failed: %s%s."
          [Arg.str assertion, Arg.str ""] = some (logger.updateTime os1, first) ∧
        log_t.log_failed_assertion memory logger os1 os2 assertion line file func fmt args
          = Outcome.aborted (logger.updateTime os1) [first]) ∧
    (skipSentinel fmt ≠ "" →
      ∃ first second,
        log_t.vlog_generic memory logger os1 0 line file func "Assertion failed: %s%s."
          [Arg.str assertion, Arg.str ". Detailed info follows"]
          = some (logger.updateTime os1, first) ∧
        log_t.vlog_generic memory (logger.updateTime os1) os2 0 line file func
          (skipSentinel fmt) args = some ((logger.updateTime os1).updateTime os2, second) ∧
        log_t.log_failed_assertion memory logger os1 os2 assertion line file func fmt args
          = Outcome.aborted ((logger.updateTime os1).updateTime os2) [first, second]) ∧
    LoggerDev.message "Assertion failed: %s%s." [Arg.str assertion, Arg.str ""] =
      SmartBuffer.append 1024 "" ("Assertion failed: " ++ assertion ++ ".") ∧
    LoggerDev.message "Assertion failed: %s%s."
        [Arg.str assertion, Arg.str ". Detailed info follows"] =
      SmartBuffer.append 1024 "" ("Assertion failed: " ++ assertion ++
        ". Detailed info follows.") := by
  have hs : skipSentinel "Assertion failed: %s%s." = "Assertion failed: %s%s." := by decide
  have hsome : ∀ (lg : log_t) (os : OS) (f : String) (a : List Arg), lg.iDevs = logger.iDevs →
      ∃ visits, log_t.vlog_generic memory lg os 0 line file func f a
        = some (lg.updateTime os, visits) := by
    intro lg os f a hd
    obtain ⟨visits, hv, -⟩ := vlog_generic_visits memory lg os 0 line file func f a
      (fun p hp => vlogGeneric_some (memory p) _ os 0 line file func f a
        (hw p (hd ▸ hp)) (by decide) (by decide))
    exact ⟨visits, hv⟩
  refine ⟨?_, ?_, ?_, ?_, ?_⟩
  · intro after emits
    unfold log_t.log_failed_assertion
    simp only []
    split
    · simp
    · split_ifs
      · split <;> simp
      · simp
  · intro he
    have hf : hasText (skipSentinel fmt) = false := (hasText_eq_false_iff _).2 he
    obtain ⟨first, h1⟩ := hsome logger os1 "Assertion failed: %s%s."
      [Arg.str assertion, Arg.str ""] rfl
    refine ⟨first, h1, ?_⟩
    simp [log_t.log_failed_assertion, message_location_internal, hs, hf, h1]
  · intro hne
    have hf : hasText (skipSentinel fmt) = true := (hasText_eq_true_iff _).2 hne
    obtain ⟨first, h1⟩ := hsome logger os1 "Assertion failed: %s%s."
      [Arg.str assertion, Arg.str ". Detailed info follows"] rfl
    obtain ⟨second, h2⟩ := hsome (logger.updateTime os1) os2 (skipSentinel fmt) args rfl
    refine ⟨first, second, h1, h2, ?_⟩
    have h2i : log_t.vlog_generic memory (logger.updateTime os1) os2 LOG_LEVEL_INTERNAL line
        file func (skipSentinel fmt) args
        = some ((logger.updateTime os1).updateTime os2, second) := h2
    simp [log_t.log_failed_assertion, message_location_internal, hs, hf, h1, h2i]
  · simp [LoggerDev.message, LoggerDev.vlogGeneric_message, assertion_text,
      String.ext_iff, String.data_append, SmartBuffer.append]
  · simp [LoggerDev.message, LoggerDev.vlogGeneric_message, assertion_text,
      String.ext_iff, String.data_append, SmartBuffer.append]

theorem failed_assertion_records_witness :
    ∃ first,
      log_t.vlog_generic sampleMemory { sampleLogger with iDevs := [1] } sampleOS 0 12
          (some "a.cpp") (some "main") "Assertion failed: %s%s."
          [Arg.str "x > 0", Arg.str ""]
        = some (log_t.updateTime { sampleLogger with iDevs := [1] } sampleOS, first) ∧
      log_t.log_failed_assertion sampleMemory { sampleLogger with iDevs := [1] } sampleOS
          sampleOS "x > 0" 12 (some "a.cpp") (some "main") "\x01" []
        = Outcome.aborted (log_t.updateTime { sampleLogger with iDevs := [1] } sampleOS)
          [first] :=
  (failed_assertion_records sampleMemory { sampleLogger with iDevs := [1] } sampleOS sampleOS
    "x > 0" 12 (some "a.cpp") (some "main") "\x01" [] (by
      intro p hp
      have : p = 1 := by simpa using hp
      subst this
      rfl)).2.1 (by decide)

/-! ## The scope stack -/

theorem nested_run (inner : List ScopeOp) :
    ∀ (depth after : Nat) (above below : ScopeStack),
      nestingDepth depth inner = some after → above.length = depth + 1 →
      ∃ above2 : ScopeStack, above2.length = after + 1 ∧
        ScopeStack.run (above ++ below) inner = some (above2 ++ below) := by
  induction inner with
  | nil =>
    intro depth after above below h hlen
    simp only [nestingDepth, Option.some.injEq] at h
    subst h
    exact ⟨above, hlen, rfl⟩
  | cons op ops ih =>
    intro depth after above below h hlen
    cases above with
    | nil => simp at hlen
    | cons active rest =>
      cases op with
      | enter entry =>
        simp only [nestingDepth] at h
        obtain ⟨above2, hl, hr⟩ := ih (depth + 1) after (entry :: active :: rest) below h
          (by simpa using hlen)
        exact ⟨above2, hl, by simpa [ScopeStack.run, ScopeStack.step] using hr⟩
      | leave =>
        cases depth with
        | zero => simp [nestingDepth] at h
        | succ d =>
          simp only [nestingDepth] at h
          obtain ⟨above2, hl, hr⟩ := ih d after rest below h (by simpa using hlen)
          exact ⟨above2, hl, by simpa [ScopeStack.run, ScopeStack.step] using hr⟩
      | replaceSettings settings =>
        simp only [nestingDepth] at h
        obtain ⟨above2, hl, hr⟩ := ih depth after
          ({ active with settings := settings } :: rest) below h (by simpa using hlen)
        exact ⟨above2, hl, by simpa [ScopeStack.run, ScopeStack.step] using hr⟩
      | registerSink sink =>
        simp only [nestingDepth] at h
        obtain ⟨above2, hl, hr⟩ := ih depth after
          ({ active with sinks := sink :: active.sinks } :: rest) below h (by simpa using hlen)
        exact ⟨above2, hl, by simpa [ScopeStack.run, ScopeStack.step] using hr⟩

theorem run_append (ops more : List ScopeOp) :
    ∀ stack : ScopeStack, ScopeStack.run stack (ops ++ more) =
      (ScopeStack.run stack ops).bind (fun next => ScopeStack.run next more) := by
  induction ops with
  | nil => intro stack; rfl
  | cons op rest ih =>
    intro stack
    cases hstep : ScopeStack.step stack op with
    | none => simp [ScopeStack.run, hstep]
    | some next => simp [ScopeStack.run, hstep, ih next]

/-- C11: on a chain of configurations whose active verbosity is `v`, entering a scope whose
entry overrides the verbosity to 1, running any operations in which the inner scopes are
properly nested (entering, leaving, replacing settings, registering sinks) and leaving the
scope gives back the chain as it was, so the active verbosity is `v` again; inside the scope
the active verbosity is 1 on entry, and at the exit the entry on top is the one of the scope
itself, with the chain of before under it. -/
theorem scope_exit_restores (stack : ScopeStack) (own : ScopeEntry) (inner : List ScopeOp)
    (hown : own.settings.verbosity_level = 1)
    (hnest : nestingDepth 0 inner = some 0) :
    (ScopeStack.step stack (ScopeOp.enter own)).map ScopeStack.activeVerbosity
        = some (some 1) ∧
      (∃ top, ScopeStack.run stack (ScopeOp.enter own :: inner) = some (top :: stack)) ∧
      ScopeStack.run stack (ScopeOp.enter own :: inner ++ [ScopeOp.leave]) = some stack ∧
      (ScopeStack.run stack (ScopeOp.enter own :: inner ++ [ScopeOp.leave])).map
          ScopeStack.activeVerbosity = some (ScopeStack.activeVerbosity stack) := by
  obtain ⟨above2, hl, hr⟩ := nested_run inner 0 0 [own] stack hnest rfl
  obtain ⟨top, rfl⟩ : ∃ top, above2 = [top] := by
    cases above2 with
    | nil => simp at hl
    | cons top rest =>
      cases rest with
      | nil => exact ⟨top, rfl⟩
      | cons _ _ => simp at hl
  have hrun : ScopeStack.run stack (ScopeOp.enter own :: inner) = some (top :: stack) := by
    simpa [ScopeStack.run, ScopeStack.step] using hr
  have hall : ScopeStack.run stack (ScopeOp.enter own :: inner ++ [ScopeOp.leave])
      = some stack := by
    rw [run_append (ScopeOp.enter own :: inner) [ScopeOp.leave] stack, hrun]
    simp [ScopeStack.run, ScopeStack.step]
  refine ⟨?_, ⟨top, hrun⟩, hall, ?_⟩
  · simp [ScopeStack.step, ScopeStack.activeVerbosity, hown]
  · rw [hall]
    rfl

theorem scope_exit_restores_witness :
    (ScopeStack.step [⟨true, ⟨5, 33, 2⟩, []⟩] (ScopeOp.enter ⟨false, ⟨1, 33, 2⟩, []⟩)).map
        ScopeStack.activeVerbosity = some (some 1) ∧
      (∃ top, ScopeStack.run [⟨true, ⟨5, 33, 2⟩, []⟩]
        (ScopeOp.enter ⟨false, ⟨1, 33, 2⟩, []⟩ ::
          [ScopeOp.registerSink 3, ScopeOp.enter ⟨false, ⟨4, 33, 2⟩, []⟩,
            ScopeOp.replaceSettings ⟨0, 0, 0⟩, ScopeOp.leave])
        = some (top :: [⟨true, ⟨5, 33, 2⟩, []⟩])) ∧
      ScopeStack.run [⟨true, ⟨5, 33, 2⟩, []⟩]
        (ScopeOp.enter ⟨false, ⟨1, 33, 2⟩, []⟩ ::
          [ScopeOp.registerSink 3, ScopeOp.enter ⟨false, ⟨4, 33, 2⟩, []⟩,
            ScopeOp.replaceSettings ⟨0, 0, 0⟩, ScopeOp.leave] ++ [ScopeOp.leave])
        = some [⟨true, ⟨5, 33, 2⟩, []⟩] ∧
      (ScopeStack.run [⟨true, ⟨5, 33, 2⟩, []⟩]
        (ScopeOp.enter ⟨false, ⟨1, 33, 2⟩, []⟩ ::
          [ScopeOp.registerSink 3, ScopeOp.enter ⟨false, ⟨4, 33, 2⟩, []⟩,
            ScopeOp.replaceSettings ⟨0, 0, 0⟩, ScopeOp.leave] ++ [ScopeOp.leave])).map
          ScopeStack.activeVerbosity
        = some (ScopeStack.activeVerbosity [⟨true, ⟨5, 33, 2⟩, []⟩]) :=
  scope_exit_restores [⟨true, ⟨5, 33, 2⟩, []⟩] ⟨false, ⟨1, 33, 2⟩, []⟩
    [ScopeOp.registerSink 3, ScopeOp.enter ⟨false, ⟨4, 33, 2⟩, []⟩,
      ScopeOp.replaceSettings ⟨0, 0, 0⟩, ScopeOp.leave] rfl (by decide)

/-! ## The prefixes of the file sink -/

/-- C28: `vlogPrefixes` writes `[D] [P]` when the date/time segment `D` and the process
segment `P` are both not empty, `[D]` when only `D` is not empty, `P:` when only `P` is not
empty and nothing when both are empty; its result is true exactly when it wrote something. -/
theorem vlogPrefixes_cases (D P : String) :
    (D ≠ "" ∧ P ≠ "" →
      (FileLoggerDev.vlogPrefixes D P).1 = "[" ++ D ++ "]" ++ " [" ++ P ++ "]") ∧
    (D ≠ "" ∧ P = "" → (FileLoggerDev.vlogPrefixes D P).1 = "[" ++ D ++ "]") ∧
    (D = "" ∧ P ≠ "" → (FileLoggerDev.vlogPrefixes D P).1 = P ++ ":") ∧
    (D = "" ∧ P = "" → (FileLoggerDev.vlogPrefixes D P).1 = "") ∧
    ((FileLoggerDev.vlogPrefixes D P).2 = true ↔ (FileLoggerDev.vlogPrefixes D P).1 ≠ "") := by
  have hb : hasText "[" = true := by decide
  have he : hasText "" = false := by decide
  have hc : hasText ":" = true := by decide
  refine ⟨?_, ?_, ?_, ?_, ?_⟩
  · rintro ⟨hD, hP⟩
    have h1 := (hasText_eq_true_iff D).2 hD
    have h2 := (hasText_eq_true_iff P).2 hP
    simp [FileLoggerDev.vlogPrefixes, h1, h2, String.ext_iff, String.data_append]
  · rintro ⟨hD, hP⟩
    have h1 := (hasText_eq_true_iff D).2 hD
    have h2 := (hasText_eq_false_iff P).2 hP
    simp [FileLoggerDev.vlogPrefixes, h1, h2]
  · rintro ⟨hD, hP⟩
    have h1 := (hasText_eq_false_iff D).2 hD
    have h2 := (hasText_eq_true_iff P).2 hP
    simp [FileLoggerDev.vlogPrefixes, h1, h2]
  · rintro ⟨hD, hP⟩
    have h1 := (hasText_eq_false_iff D).2 hD
    have h2 := (hasText_eq_false_iff P).2 hP
    simp [FileLoggerDev.vlogPrefixes, h1, h2]
  · rw [← hasText_eq_true_iff]
    unfold FileLoggerDev.vlogPrefixes
    cases h1 : hasText D <;> cases h2 : hasText P <;>
      simp [h1, h2, hasText_append, hb, he, hc]

theorem vlogPrefixes_cases_witness :
    (FileLoggerDev.vlogPrefixes "12:00:00" "logtest(42)").1 =
        "[" ++ "12:00:00" ++ "]" ++ " [" ++ "logtest(42)" ++ "]" ∧
      (FileLoggerDev.vlogPrefixes "" "logtest(42)").1 = "logtest(42)" ++ ":" :=
  ⟨(vlogPrefixes_cases "12:00:00" "logtest(42)").1 ⟨by decide, by decide⟩,
    (vlogPrefixes_cases "" "logtest(42)").2.2.1 ⟨by decide, by decide⟩⟩

/-! ## The entry points without a message -/

/-- C23: `message(level)` is `message(level, "")` and `message(level, line, file, func)` is
`message(level, line, file, func, "")`, in their results and in every sink call; the sinks then
build an empty message segment; and the format is replaced by the empty string only when it is
exactly the sentinel `"\x01"`, every other format being passed on as it is. -/
theorem message_less_entry_points (memory : Memory) (logger : log_t) (os : OS)
    (level line : Int) (file func : Option String) :
    log_t.message_level memory logger os level = log_t.message memory logger os level "" [] ∧
      log_t.message_level_location memory logger os level line file func =
        log_t.message_location memory logger os level line file func "" [] ∧
      (∀ args : List Arg, LoggerDev.message (skipSentinel "\x01") args = "") ∧
      skipSentinel "\x01" = "" ∧
      (∀ fmt : String, fmt ≠ "\x01" → skipSentinel fmt = fmt) := by
  have hs : skipSentinel "\x01" = "" := by decide
  have he : skipSentinel "" = "" := by decide
  refine ⟨?_, ?_, ?_, hs, ?_⟩
  · simp [log_t.message_level, log_t.message, hs, he]
  · simp [log_t.message_level_location, log_t.message_location, hs, he]
  · intro args
    rw [hs]
    simp [LoggerDev.message, LoggerDev.vlogGeneric_message, sprintf, vformat, SmartBuffer.append]
  · intro fmt hne
    simp [skipSentinel, hne]

/-! ## The process segment -/

theorem isProcessInfo_eq (settings : LoggerSettings) :
    settings.isProcessInfo = (settings.isName || settings.isPid) := by
  simp only [LoggerSettings.isProcessInfo, LoggerSettings.EProcessInfo, toBool_land_lor]
  rfl

theorem processInfo_eq_spec (settings : LoggerSettings) (logger : log_t) (os : OS) :
    LoggerDev.processInfo settings logger os =
      SmartBuffer.append 64 "" (processSegmentSpec settings logger os) := by
  have hnil : SmartBuffer.append 64 "" "" = "" := by decide
  have hr : ∀ t : String, t ++ "" = t := fun t => by
    simp [String.ext_iff, String.data_append]
  have hl : ∀ t : String, "" ++ t = t := fun t => by
    simp [String.ext_iff, String.data_append]
  simp only [LoggerDev.processInfo, LoggerDev.vlogGeneric_processInfo, processSegmentSpec,
    isProcessInfo_eq]
  cases settings.isName <;> cases settings.isPid <;>
    simp [hnil, hr, hl, SmartBuffer_append_append]

/-- C21: the process segment that `vlogGeneric` builds is the process name when the name toggle
is on followed by `(pid)` when the pid toggle is on, cut to the 63 bytes of the buffer, and is
that text itself when it fits; it is empty exactly when `isProcessInfo()` is false or the name
is empty and the pid toggle is off. -/
theorem process_segment_spec (settings : LoggerSettings) (logger : log_t) (os : OS) :
    LoggerDev.processInfo settings logger os =
        SmartBuffer.append 64 "" (processSegmentSpec settings logger os) ∧
      ((processSegmentSpec settings logger os).length < 64 →
        LoggerDev.processInfo settings logger os = processSegmentSpec settings logger os) ∧
      (LoggerDev.processInfo settings logger os = "" ↔
        settings.isProcessInfo = false ∨
          (logger.prg_name = "" ∧ settings.isPid = false)) := by
  have h1 := processInfo_eq_spec settings logger os
  refine ⟨h1, ?_, ?_⟩
  · intro hfit
    rw [h1, SmartBuffer_append_fits _ _ hfit]
  · have hp : hasText ")" = true := by decide
    have he : hasText "" = false := by decide
    rw [← hasText_eq_false_iff, h1, hasText_SmartBuffer_append _ _ _ (by decide),
      isProcessInfo_eq, ← hasText_eq_false_iff logger.prg_name]
    unfold processSegmentSpec
    cases settings.isName <;> cases settings.isPid <;> cases hn : hasText logger.prg_name <;>
      simp [hasText_append, hp, he, hn]

theorem process_segment_spec_witness :
    LoggerDev.processInfo ⟨5, 33, 48⟩ sampleLogger sampleOS =
      processSegmentSpec ⟨5, 33, 48⟩ sampleLogger sampleOS ∧
    processSegmentSpec ⟨5, 33, 48⟩ sampleLogger sampleOS = "logtest(4242)" :=
  ⟨(process_segment_spec ⟨5, 33, 48⟩ sampleLogger sampleOS).2.1 (by decide), by decide⟩

/-! ## The date/time segment -/

theorem isDateTimeInfo_eq (settings : LoggerSettings) :
    settings.isDateTimeInfo = (settings.isMTimer || settings.isTzAbbr || settings.isDate ||
      settings.isTime || settings.isTzSymLink) := by
  simp only [LoggerSettings.isDateTimeInfo, LoggerSettings.EDateTimeInfo, toBool_land_lor]
  rfl

theorem SmartBuffer_append_buf (Len : Nat) (buf a b : String) :
    SmartBuffer.append Len (SmartBuffer.append Len buf a) b =
      SmartBuffer.append Len buf (a ++ b) := by
  simp only [SmartBuffer.append, String.data_append, take_take_append, List.append_assoc]

theorem SmartBuffer_append_suffix (Len : Nat) (buf text s1 s2 : String) (c1 c2 : Bool) :
    (if c1 = true then SmartBuffer.append Len (SmartBuffer.append Len buf text) s1
      else if c2 = true then SmartBuffer.append Len (SmartBuffer.append Len buf text) s2
      else SmartBuffer.append Len buf text) =
    SmartBuffer.append Len buf (text ++ (if c1 = true then s1 else if c2 = true then s2 else ""))
    := by
  have hr : text ++ "" = text := by simp [String.ext_iff, String.data_append]
  cases c1 <;> cases c2 <;> simp [SmartBuffer_append_buf, hr]

theorem dateInfo_eq_spec (settings : LoggerSettings) (logger : log_t) (os : OS) :
    LoggerDev.dateInfo settings logger os =
      SmartBuffer.append 256 "" (dateSegmentSpec settings logger os) := by
  have hnil : SmartBuffer.append 256 "" "" = "" := by decide
  have hr : ∀ t : String, t ++ "" = t := fun t => by
    simp [String.ext_iff, String.data_append]
  simp only [LoggerDev.dateInfo, LoggerDev.vlogGeneric_dateInfo, dateSegmentSpec, dateParts,
    isDateTimeInfo_eq, SmartBuffer_append_suffix]
  cases h1 : settings.isMTimer <;> cases h2 : settings.isTzAbbr <;>
    cases h3 : settings.isDate <;> cases h4 : settings.isTime <;>
    cases h5 : settings.isTzSymLink <;>
    simp [h1, h2, h3, h4, h5, hnil, hr, timerText, timerSuffix, dayText, timeSuffix,
      SmartBuffer_append_buf, String.intercalate, String.intercalate.go] <;>
    simp [SmartBuffer.append, String.data_append]

/-! ## Decimal digits -/

theorem digitChar_digit : ∀ d : Nat, d < 10 →
    digitValue (Nat.digitChar d) = d ∧ (Nat.digitChar d).isDigit = true := by
  decide

theorem toDigitsCore_eq (fuel : Nat) : ∀ (n : Nat) (ds : List Char), n < fuel →
    Nat.toDigitsCore 10 fuel n ds = decDigits n ++ ds := by
  induction fuel with
  | zero => intro n ds h; omega
  | succ f ih =>
    intro n ds h
    rw [decDigits]
    by_cases h10 : n < 10
    · have hq : n / 10 = 0 := by omega
      have hm : n % 10 = n := by omega
      simp [Nat.toDigitsCore, hq, hm, h10]
    · have hq : ¬ (n / 10 = 0) := by omega
      have hlt : n / 10 < f := by omega
      simp [Nat.toDigitsCore, hq, h10, ih (n / 10) _ hlt]

theorem toString_nat_data (n : Nat) : (toString n).data = decDigits n := by
  have h : (toString n).data = Nat.toDigits 10 n := rfl
  rw [h, Nat.toDigits, toDigitsCore_eq (n + 1) n [] (by omega)]
  simp

theorem decDigits_ne_nil (n : Nat) : decDigits n ≠ [] := by
  rw [decDigits]
  split <;> simp

theorem decDigits_isDigit (n : Nat) : ∀ c ∈ decDigits n, c.isDigit = true := by
  induction n using Nat.strong_induction_on with
  | _ n ih =>
    rw [decDigits]
    by_cases h10 : n < 10
    · simp [h10, (digitChar_digit n h10).2]
    · simp only [h10, dite_false, List.mem_append, List.mem_singleton]
      rintro c (hc | rfl)
      · exact ih (n / 10) (by omega) c hc
      · exact (digitChar_digit (n % 10) (by omega)).2

theorem decimalValue_append (ds : List Char) (c : Char) :
    decimalValue (ds ++ [c]) = 10 * decimalValue ds + digitValue c := by
  simp [decimalValue, List.foldl_append]

theorem decimalValue_decDigits (n : Nat) : decimalValue (decDigits n) = n := by
  induction n using Nat.strong_induction_on with
  | _ n ih =>
    rw [decDigits]
    by_cases h10 : n < 10
    · simp [h10, decimalValue, (digitChar_digit n h10).1]
    · simp only [h10, dite_false]
      rw [decimalValue_append, ih (n / 10) (by omega),
        (digitChar_digit (n % 10) (by omega)).1]
      omega

theorem decDigits_length_le (w : Nat) : ∀ n : Nat, n < 10 ^ (w + 1) →
    (decDigits n).length ≤ w + 1 := by
  induction w with
  | zero =>
    intro n h
    rw [decDigits]
    have h10 : n < 10 := by simpa using h
    simp [h10]
  | succ w ih =>
    intro n h
    rw [decDigits]
    by_cases h10 : n < 10
    · simp [h10]
    · have hq : n / 10 < 10 ^ (w + 1) := by
        have : 10 ^ (w + 1 + 1) = 10 ^ (w + 1) * 10 := by ring
        omega
      have := ih (n / 10) hq
      simp only [h10, dite_false, List.length_append, List.length_singleton]
      omega

theorem decimalValue_zeros (k : Nat) (ds : List Char) :
    decimalValue (List.replicate k '0' ++ ds) = decimalValue ds := by
  have hz : ∀ k : Nat, List.foldl (fun value c => 10 * value + digitValue c) 0
      (List.replicate k '0') = 0 := by
    intro k
    induction k with
    | zero => rfl
    | succ k ih =>
      rw [List.replicate_succ', List.foldl_append, ih]
      rfl
  simp [decimalValue, List.foldl_append, hz]

/-- The conversion `%0wld` of a number below `10 ^ w`: exactly `w` characters, all of them
decimal digits, that write the number. -/
theorem fmt_0d_digits (w : Nat) (n : Int) (h0 : 0 ≤ n) (hw : n < 10 ^ (w + 1)) :
    (fmt_0d (w + 1) n).data.length = w + 1 ∧
      (∀ c ∈ (fmt_0d (w + 1) n).data, c.isDigit = true) ∧
      (decimalValue (fmt_0d (w + 1) n).data : Int) = n := by
  obtain ⟨k, rfl⟩ := Int.eq_ofNat_of_zero_le h0
  have hk : k < 10 ^ (w + 1) := by exact_mod_cast hw
  have hlen := decDigits_length_le w k hk
  have hz : (Char.isDigit '0') = true := by decide
  simp only [fmt_0d, h0, if_true, zeroPad, Int.toNat_ofNat, toString_nat_data]
  refine ⟨?_, ?_, ?_⟩
  · simp only [List.length_append, List.length_replicate]
    omega
  · intro c hc
    rcases List.mem_append.1 hc with h | h
    · rw [(List.mem_replicate.1 h).2]
      exact hz
    · exact decDigits_isDigit k c h
  · rw [decimalValue_zeros, decimalValue_decDigits]

theorem fmt_d_hasText (n : Int) : hasText (fmt_d n) = true := by
  have hm : hasText "-" = true := by decide
  cases n with
  | ofNat k =>
    have h : (fmt_d (Int.ofNat k)).data = decDigits k := toString_nat_data k
    have hne := decDigits_ne_nil k
    simp only [hasText, h]
    cases hd : decDigits k with
    | nil => exact absurd hd hne
    | cons c rest => rfl
  | negSucc k =>
    have h : fmt_d (Int.negSucc k) = "-" ++ toString (k + 1) := rfl
    rw [h, hasText_append, hm]
    rfl

/-! ## The components of the date/time segment -/

theorem timerText_hasText (settings : LoggerSettings) (logger : log_t) :
    hasText (timerText settings logger) = true := by
  simp [timerText, hasText_append, fmt_d_hasText]

theorem dayText_hasText (settings : LoggerSettings) (logger : log_t) :
    hasText (dayText settings logger) = true := by
  have hm : hasText "-" = true := by decide
  have hc : hasText ":" = true := by decide
  have hF : hasText (strftime_F logger.iTm) = true := by
    simp [strftime_F, hasText_append, hm]
  have hT : hasText (strftime_T logger.iTm) = true := by
    simp [strftime_T, hasText_append, hc]
  unfold dayText
  rw [hasText_append]
  cases settings.isDate <;> cases settings.isTime <;> simp [hasText_append, hF, hT]

theorem dateParts_hasText (settings : LoggerSettings) (logger : log_t) (os : OS) :
    ∀ part ∈ dateParts settings logger os, hasText part = true := by
  have hp : hasText "(" = true := by decide
  have hq : hasText "\x27" = true := by decide
  have h1 := timerText_hasText settings logger
  have h2 := dayText_hasText settings logger
  intro part hmem
  unfold dateParts at hmem
  simp only [List.mem_append] at hmem
  rcases hmem with ((hmem | hmem) | hmem) | hmem
  · split at hmem
    · rw [List.mem_singleton.1 hmem]
      exact h1
    · simp at hmem
  · split at hmem
    · rw [List.mem_singleton.1 hmem]
      simp [hasText_append, hp]
    · simp at hmem
  · split at hmem
    · rw [List.mem_singleton.1 hmem]
      exact h2
    · simp at hmem
  · split at hmem
    · rw [List.mem_singleton.1 hmem]
      simp [hasText_append, hq]
    · simp at hmem

theorem dateSegmentSpec_hasText (settings : LoggerSettings) (logger : log_t) (os : OS) :
    hasText (dateSegmentSpec settings logger os) = settings.isDateTimeInfo := by
  have hp : hasText "(" = true := by decide
  have hq : hasText "\x27" = true := by decide
  have he : hasText "" = false := by decide
  have h1 := timerText_hasText settings logger
  have h2 := dayText_hasText settings logger
  rw [isDateTimeInfo_eq]
  unfold dateSegmentSpec dateParts
  cases settings.isMTimer <;> cases settings.isTzAbbr <;> cases settings.isDate <;>
    cases settings.isTime <;> cases settings.isTzSymLink <;>
    simp [String.intercalate, String.intercalate.go, hasText_append, hp, hq, he, h1, h2]

/-- C22: the date/time segment that `vlogGeneric` builds is the enabled components, in the
order timer, `(tz-abbreviation)`, date and/or time of day, quoted timezone link target, joined
by one blank, cut to the 255 bytes of the buffer, and is that text itself when it fits; every
component is non-empty; and the segment is empty exactly when `isDateTimeInfo()` is false. -/
theorem date_segment_spec (settings : LoggerSettings) (logger : log_t) (os : OS) :
    LoggerDev.dateInfo settings logger os =
        SmartBuffer.append 256 "" (" ".intercalate (dateParts settings logger os)) ∧
      ((" ".intercalate (dateParts settings logger os)).length < 256 →
        LoggerDev.dateInfo settings logger os =
          " ".intercalate (dateParts settings logger os)) ∧
      (∀ part ∈ dateParts settings logger os, part ≠ "") ∧
      (LoggerDev.dateInfo settings logger os = "" ↔ settings.isDateTimeInfo = false) := by
  have h1 : LoggerDev.dateInfo settings logger os =
      SmartBuffer.append 256 "" (" ".intercalate (dateParts settings logger os)) :=
    dateInfo_eq_spec settings logger os
  refine ⟨h1, ?_, ?_, ?_⟩
  · intro hfit
    rw [h1, SmartBuffer_append_fits _ _ hfit]
  · intro part hmem
    exact (hasText_eq_true_iff part).1 (dateParts_hasText settings logger os part hmem)
  · have h2 := dateSegmentSpec_hasText settings logger os
    unfold dateSegmentSpec at h2
    have he : hasText "" = false := by decide
    rw [← hasText_eq_false_iff, h1, hasText_SmartBuffer_append _ _ _ (by decide), h2, he]
    simp

theorem date_segment_spec_witness :
    LoggerDev.dateInfo ⟨5, 33, 5632⟩ (log_t.updateTime sampleLogger sampleOS) sampleOS =
        " ".intercalate
          (dateParts ⟨5, 33, 5632⟩ (log_t.updateTime sampleLogger sampleOS) sampleOS) ∧
      dateParts ⟨5, 33, 5632⟩ (log_t.updateTime sampleLogger sampleOS) sampleOS =
        ["1234.567", "(EEST)", "2010-10-25"] :=
  ⟨(date_segment_spec ⟨5, 33, 5632⟩ (log_t.updateTime sampleLogger sampleOS) sampleOS).2.1
    (by decide), by decide⟩

/-- C24: for a monotonic time with `0 <= tv_nsec < 10^9` and a wall-clock time with
`0 <= tv_usec < 10^6`, the timer component is the decimal `tv_sec` followed by `.` and exactly
three digits that write `tv_nsec / 10^6` when only the millisecond timer bit is set, by `.` and
exactly nine digits that write `tv_nsec` when only the high-resolution timer bit is set, and by
nothing when both are set; the time of day is followed by `.` and exactly three digits that
write `tv_usec / 1000` when only the millisecond time bit is set, by `.` and exactly six digits
that write `tv_usec` when only the high-resolution time bit is set, and by nothing when both
are set. -/
theorem fractional_suffixes (settings : LoggerSettings) (logger : log_t) (os : OS)
    (hn0 : 0 ≤ logger.iTs.tv_nsec) (hn : logger.iTs.tv_nsec < 1000000000)
    (hu0 : 0 ≤ logger.iTv.tv_usec) (hu : logger.iTv.tv_usec < 1000000) :
    LoggerDev.dateInfo settings logger os =
        SmartBuffer.append 256 "" (" ".intercalate (dateParts settings logger os)) ∧
      timerText settings logger = fmt_d logger.iTs.tv_sec ++ timerSuffix settings logger ∧
      (Int.testBit settings.message_format 12 = true ∧
          Int.testBit settings.message_format 11 = false →
        ∃ digits : String, timerSuffix settings logger = "." ++ digits ∧
          digits.data.length = 3 ∧ (∀ c ∈ digits.data, c.isDigit = true) ∧
          (decimalValue digits.data : Int) = logger.iTs.tv_nsec / 1000000) ∧
      (Int.testBit settings.message_format 12 = false ∧
          Int.testBit settings.message_format 11 = true →
        ∃ digits : String, timerSuffix settings logger = "." ++ digits ∧
          digits.data.length = 9 ∧ (∀ c ∈ digits.data, c.isDigit = true) ∧
          (decimalValue digits.data : Int) = logger.iTs.tv_nsec) ∧
      (Int.testBit settings.message_format 12 = true ∧
          Int.testBit settings.message_format 11 = true →
        timerSuffix settings logger = "") ∧
      (settings.isTime = true →
        dayText settings logger =
          (if settings.isDate then strftime_F logger.iTm ++ " " ++ strftime_T logger.iTm
            else strftime_T logger.iTm) ++ timeSuffix settings logger) ∧
      (Int.testBit settings.message_format 8 = true ∧
          Int.testBit settings.message_format 7 = false →
        ∃ digits : String, timeSuffix settings logger = "." ++ digits ∧
          digits.data.length = 3 ∧ (∀ c ∈ digits.data, c.isDigit = true) ∧
          (decimalValue digits.data : Int) = logger.iTv.tv_usec / 1000) ∧
      (Int.testBit settings.message_format 8 = false ∧
          Int.testBit settings.message_format 7 = true →
        ∃ digits : String, timeSuffix settings logger = "." ++ digits ∧
          digits.data.length = 6 ∧ (∀ c ∈ digits.data, c.isDigit = true) ∧
          (decimalValue digits.data : Int) = logger.iTv.tv_usec) ∧
      (Int.testBit settings.message_format 8 = true ∧
          Int.testBit settings.message_format 7 = true →
        timeSuffix settings logger = "") := by
  have hms : Int.tdiv logger.iTs.tv_nsec 1000000 = logger.iTs.tv_nsec / 1000000 :=
    Int.tdiv_eq_ediv hn0 (by decide)
  have hus : Int.tdiv logger.iTv.tv_usec 1000 = logger.iTv.tv_usec / 1000 :=
    Int.tdiv_eq_ediv hu0 (by decide)
  refine ⟨dateInfo_eq_spec settings logger os, rfl, ?_, ?_, ?_, ?_, ?_, ?_, ?_⟩
  · rintro ⟨h12, h11⟩
    have hb : settings.isMTimerMs = true := by rw [isMTimerMs_eq, h12, h11]; rfl
    obtain ⟨hl, hd, hv⟩ := fmt_0d_digits 2 (logger.iTs.tv_nsec / 1000000) (by omega)
      (by norm_num; omega)
    exact ⟨_, by simp [timerSuffix, hb, hms], hl, hd, hv⟩
  · rintro ⟨h12, h11⟩
    have hb : settings.isMTimerMs = false := by rw [isMTimerMs_eq, h12, h11]; rfl
    have hb2 : settings.isMTimerNs = true := by rw [isMTimerNs_eq, h12, h11]; rfl
    obtain ⟨hl, hd, hv⟩ := fmt_0d_digits 8 logger.iTs.tv_nsec hn0 (by norm_num; omega)
    exact ⟨_, by simp [timerSuffix, hb, hb2], hl, hd, hv⟩
  · rintro ⟨h12, h11⟩
    have hb : settings.isMTimerMs = false := by rw [isMTimerMs_eq, h12, h11]; rfl
    have hb2 : settings.isMTimerNs = false := by rw [isMTimerNs_eq, h12, h11]; rfl
    simp [timerSuffix, hb, hb2]
  · intro ht
    unfold dayText
    cases settings.isDate <;> simp [ht]
  · rintro ⟨h8, h7⟩
    have hb : settings.isTimeMs = true := by rw [isTimeMs_eq, h8, h7]; rfl
    obtain ⟨hl, hd, hv⟩ := fmt_0d_digits 2 (logger.iTv.tv_usec / 1000) (by omega)
      (by norm_num; omega)
    exact ⟨_, by simp [timeSuffix, hb, hus], hl, hd, hv⟩
  · rintro ⟨h8, h7⟩
    have hb : settings.isTimeMs = false := by rw [isTimeMs_eq, h8, h7]; rfl
    have hb2 : settings.isTimeMicS = true := by rw [isTimeMicS_eq, h8, h7]; rfl
    obtain ⟨hl, hd, hv⟩ := fmt_0d_digits 5 logger.iTv.tv_usec hu0 (by norm_num; omega)
    exact ⟨_, by simp [timeSuffix, hb, hb2], hl, hd, hv⟩
  · rintro ⟨h8, h7⟩
    have hb : settings.isTimeMs = false := by rw [isTimeMs_eq, h8, h7]; rfl
    have hb2 : settings.isTimeMicS = false := by rw [isTimeMicS_eq, h8, h7]; rfl
    simp [timeSuffix, hb, hb2]

theorem fractional_suffixes_witness :
    ∃ digits : String,
      timerSuffix ⟨5, 33, 4352⟩ (log_t.updateTime sampleLogger sampleOS) = "." ++ digits ∧
        digits.data.length = 3 ∧ (∀ c ∈ digits.data, c.isDigit = true) ∧
        (decimalValue digits.data : Int) =
          (log_t.updateTime sampleLogger sampleOS).iTs.tv_nsec / 1000000 :=
  (fractional_suffixes ⟨5, 33, 4352⟩ (log_t.updateTime sampleLogger sampleOS) sampleOS
    (by decide) (by decide) (by decide) (by decide)).2.2.1 ⟨by decide, by decide⟩

/-- C27: `DefaultFormat` has both timer bits (12, 11) and both time bits (8, 7) set, so with
the default settings `isMTimer` and `isTime` hold while `isMTimerMs`, `isMTimerNs`, `isTimeMs`
and `isTimeMicS` do not; the default date/time segment shows the timer as the bare `tv_sec`
and the time of day as the bare `%T`, with no fractional suffix. -/
theorem default_format_no_fraction (logger : log_t) (os : OS) :
    Int.testBit LoggerDev.DefaultFormat 12 = true ∧
      Int.testBit LoggerDev.DefaultFormat 11 = true ∧
      Int.testBit LoggerDev.DefaultFormat 8 = true ∧
      Int.testBit LoggerDev.DefaultFormat 7 = true ∧
      LoggerDev.defaultSettings.isMTimer = true ∧
      LoggerDev.defaultSettings.isTime = true ∧
      LoggerDev.defaultSettings.isMTimerMs = false ∧
      LoggerDev.defaultSettings.isMTimerNs = false ∧
      LoggerDev.defaultSettings.isTimeMs = false ∧
      LoggerDev.defaultSettings.isTimeMicS = false ∧
      timerSuffix LoggerDev.defaultSettings logger = "" ∧
      timeSuffix LoggerDev.defaultSettings logger = "" ∧
      LoggerDev.dateInfo LoggerDev.defaultSettings logger os =
        SmartBuffer.append 256 ""
          (" ".intercalate
            [fmt_d logger.iTs.tv_sec, "(" ++ logger.iTm.tm_zone ++ ")",
              strftime_F logger.iTm ++ " " ++ strftime_T logger.iTm,
              "\x27" ++ tzLink os ++ "\x27"]) := by
  have h1 : LoggerDev.defaultSettings.isMTimer = true := by decide
  have h2 : LoggerDev.defaultSettings.isTime = true := by decide
  have h3 : LoggerDev.defaultSettings.isMTimerMs = false := by decide
  have h4 : LoggerDev.defaultSettings.isMTimerNs = false := by decide
  have h5 : LoggerDev.defaultSettings.isTimeMs = false := by decide
  have h6 : LoggerDev.defaultSettings.isTimeMicS = false := by decide
  have h7 : LoggerDev.defaultSettings.isTzAbbr = true := by decide
  have h8 : LoggerDev.defaultSettings.isDate = true := by decide
  have h9 : LoggerDev.defaultSettings.isTzSymLink = true := by decide
  have hs : timerSuffix LoggerDev.defaultSettings logger = "" := by
    simp [timerSuffix, h3, h4]
  have ht : timeSuffix LoggerDev.defaultSettings logger = "" := by
    simp [timeSuffix, h5, h6]
  have hr : ∀ t : String, t ++ "" = t := fun t => by
    simp [String.ext_iff, String.data_append]
  refine ⟨by decide, by decide, by decide, by decide, h1, h2, h3, h4, h5, h6, hs, ht, ?_⟩
  rw [dateInfo_eq_spec]
  simp only [dateSegmentSpec, dateParts, timerText, dayText, h1, h2, h7, h8, h9, hs, ht, hr,
    if_true, Bool.and_self, Bool.or_self, List.cons_append, List.nil_append, List.append_nil,
    List.singleton_append]

/-! ## The `EMessage` bit -/

theorem flipMessage_land_bit (m : Int) (k : Nat) (hk : k ≠ 1) :
    toBool (Int.land (Int.xor m LoggerSettings.EMessage) ((1 : Int) <<< (k : Int))) =
      toBool (Int.land m ((1 : Int) <<< (k : Int))) := by
  have he : LoggerSettings.EMessage = (1 : Int) <<< ((1 : Nat) : Int) := rfl
  rw [toBool_land_bit, toBool_land_bit, Int.testBit_lxor, he, testBit_one_shiftLeft]
  simp [Ne.symm hk]

theorem flipMessage_isWordWrap (s : LoggerSettings) : s.flipMessage.isWordWrap = s.isWordWrap :=
  flipMessage_land_bit s.message_format 0 (by decide)

theorem flipMessage_isFileLine (s : LoggerSettings) : s.flipMessage.isFileLine = s.isFileLine :=
  flipMessage_land_bit s.message_format 2 (by decide)

theorem flipMessage_isFunc (s : LoggerSettings) : s.flipMessage.isFunc = s.isFunc :=
  flipMessage_land_bit s.message_format 3 (by decide)

theorem flipMessage_isPid (s : LoggerSettings) : s.flipMessage.isPid = s.isPid :=
  flipMessage_land_bit s.message_format 4 (by decide)

theorem flipMessage_isName (s : LoggerSettings) : s.flipMessage.isName = s.isName :=
  flipMessage_land_bit s.message_format 5 (by decide)

theorem flipMessage_isTzSymLink (s : LoggerSettings) :
    s.flipMessage.isTzSymLink = s.isTzSymLink :=
  flipMessage_land_bit s.message_format 6 (by decide)

theorem flipMessage_isDate (s : LoggerSettings) : s.flipMessage.isDate = s.isDate :=
  flipMessage_land_bit s.message_format 9 (by decide)

theorem flipMessage_isTzAbbr (s : LoggerSettings) : s.flipMessage.isTzAbbr = s.isTzAbbr :=
  flipMessage_land_bit s.message_format 10 (by decide)

theorem flipMessage_testBit (s : LoggerSettings) (k : Nat) (hk : k ≠ 1) :
    Int.testBit s.flipMessage.message_format k = Int.testBit s.message_format k := by
  have he : LoggerSettings.EMessage = (1 : Int) <<< ((1 : Nat) : Int) := rfl
  show Int.testBit (Int.xor s.message_format LoggerSettings.EMessage) k = _
  rw [Int.testBit_lxor, he, testBit_one_shiftLeft]
  simp [Ne.symm hk]

theorem flipMessage_isMessage (s : LoggerSettings) :
    s.flipMessage.isMessage = !s.isMessage := by
  have he : LoggerSettings.EMessage = (1 : Int) <<< ((1 : Nat) : Int) := rfl
  show toBool (Int.land (Int.xor s.message_format LoggerSettings.EMessage)
      LoggerSettings.EMessage) = !toBool (Int.land s.message_format LoggerSettings.EMessage)
  rw [he, toBool_land_bit, toBool_land_bit, Int.testBit_lxor, testBit_one_shiftLeft]
  simp

theorem flipMessage_isMTimer (s : LoggerSettings) : s.flipMessage.isMTimer = s.isMTimer := by
  rw [isMTimer_eq, isMTimer_eq, flipMessage_testBit s 12 (by decide),
    flipMessage_testBit s 11 (by decide)]

theorem flipMessage_isMTimerMs (s : LoggerSettings) :
    s.flipMessage.isMTimerMs = s.isMTimerMs := by
  rw [isMTimerMs_eq, isMTimerMs_eq, flipMessage_testBit s 12 (by decide),
    flipMessage_testBit s 11 (by decide)]

theorem flipMessage_isMTimerNs (s : LoggerSettings) :
    s.flipMessage.isMTimerNs = s.isMTimerNs := by
  rw [isMTimerNs_eq, isMTimerNs_eq, flipMessage_testBit s 12 (by decide),
    flipMessage_testBit s 11 (by decide)]

theorem flipMessage_isTime (s : LoggerSettings) : s.flipMessage.isTime = s.isTime := by
  rw [isTime_eq, isTime_eq, flipMessage_testBit s 8 (by decide),
    flipMessage_testBit s 7 (by decide)]

theorem flipMessage_isTimeMs (s : LoggerSettings) : s.flipMessage.isTimeMs = s.isTimeMs := by
  rw [isTimeMs_eq, isTimeMs_eq, flipMessage_testBit s 8 (by decide),
    flipMessage_testBit s 7 (by decide)]

theorem flipMessage_isTimeMicS (s : LoggerSettings) :
    s.flipMessage.isTimeMicS = s.isTimeMicS := by
  rw [isTimeMicS_eq, isTimeMicS_eq, flipMessage_testBit s 8 (by decide),
    flipMessage_testBit s 7 (by decide)]

theorem flipMessage_isDateTimeInfo (s : LoggerSettings) :
    s.flipMessage.isDateTimeInfo = s.isDateTimeInfo := by
  rw [isDateTimeInfo_eq, isDateTimeInfo_eq, flipMessage_isMTimer, flipMessage_isTzAbbr,
    flipMessage_isDate, flipMessage_isTime, flipMessage_isTzSymLink]

theorem flipMessage_isProcessInfo (s : LoggerSettings) :
    s.flipMessage.isProcessInfo = s.isProcessInfo := by
  rw [isProcessInfo_eq, isProcessInfo_eq, flipMessage_isName, flipMessage_isPid]

theorem isDebugInfo_eq (s : LoggerSettings) :
    s.isDebugInfo = (s.isFunc || s.isFileLine || s.isMessage) := by
  simp only [LoggerSettings.isDebugInfo, LoggerSettings.EDebugInfo, toBool_land_lor]
  rfl

theorem flipMessage_dateInfo (s : LoggerSettings) (logger : log_t) (os : OS) :
    LoggerDev.vlogGeneric_dateInfo s.flipMessage logger os =
      LoggerDev.vlogGeneric_dateInfo s logger os := by
  simp only [LoggerDev.vlogGeneric_dateInfo, flipMessage_isDateTimeInfo, flipMessage_isMTimer,
    flipMessage_isMTimerMs, flipMessage_isMTimerNs, flipMessage_isTzAbbr, flipMessage_isDate,
    flipMessage_isTime, flipMessage_isTimeMs, flipMessage_isTimeMicS, flipMessage_isTzSymLink]

theorem flipMessage_processInfo (s : LoggerSettings) (logger : log_t) (os : OS) :
    LoggerDev.vlogGeneric_processInfo s.flipMessage logger os =
      LoggerDev.vlogGeneric_processInfo s logger os := by
  simp only [LoggerDev.vlogGeneric_processInfo, flipMessage_isProcessInfo, flipMessage_isName,
    flipMessage_isPid]

theorem flipMessage_debugInfo (s : LoggerSettings) (addSpace : Bool) (aLevel aLine : Int)
    (aFile aFunc : Option String) :
    LoggerDev.vlogGeneric_debugInfo s.flipMessage addSpace aLevel aLine aFile aFunc =
      LoggerDev.vlogGeneric_debugInfo s addSpace aLevel aLine aFile aFunc := by
  have hloc : s.flipMessage.isLocationShown aLevel = s.isLocationShown aLevel := rfl
  have hfn := flipMessage_isFunc s
  have hfl := flipMessage_isFileLine s
  have hm := flipMessage_isMessage s
  have hd := isDebugInfo_eq s
  have hd2 := isDebugInfo_eq s.flipMessage
  rw [hfn, hfl, hm] at hd2
  unfold LoggerDev.vlogGeneric_debugInfo
  rw [hloc, hfn, hfl, hd, hd2]
  cases s.isFunc <;> cases s.isFileLine <;> cases s.isMessage <;>
    cases s.isLocationShown aLevel <;> cases aFile <;> cases aFunc <;> simp

theorem flipMessage_file_printLog (s : LoggerSettings) (iFp : Nat) (aLevel : Int)
    (d p dbg : String) (full : Bool) (msg : String) :
    FileLoggerDev.printLog s.flipMessage iFp aLevel d p dbg full msg =
      FileLoggerDev.printLog s iFp aLevel d p dbg full msg := by
  simp only [FileLoggerDev.printLog, FileLoggerDev.vlogDebugInfo, flipMessage_isFileLine,
    flipMessage_isWordWrap]

theorem flipMessage_syslog_printLog (s : LoggerSettings) (aLevel : Int)
    (d p dbg : String) (full : Bool) (msg : String) :
    SysLogDev.printLog s.flipMessage aLevel d p dbg full msg =
      SysLogDev.printLog s aLevel d p dbg full msg := by
  simp only [SysLogDev.printLog, SysLogDev.printLog_templates, flipMessage_isFileLine,
    flipMessage_isWordWrap]

/-- C26: flipping only the `EMessage` bit of the message format of a sink (file sink or syslog
sink) toggles `isMessage` and leaves every segment that `vlogGeneric` builds (date/time,
process, debug, full-debug flag) and the whole result of `vlogGeneric` unchanged, for every
record, timestamp, process identity and settings; the message handed to `printLog` is
`message.vappend(aFmt, anArgs)` whatever `isMessage` says. -/
theorem message_bit_ignored (dev : LoggerDev) (logger : log_t) (os : OS) (aLevel aLine : Int)
    (aFile aFunc : Option String) (aFmt : String) (anArgs : List Arg) :
    dev.settings.flipMessage.isMessage = !dev.settings.isMessage ∧
      LoggerDev.dateInfo dev.settings.flipMessage logger os =
        LoggerDev.dateInfo dev.settings logger os ∧
      LoggerDev.processInfo dev.settings.flipMessage logger os =
        LoggerDev.processInfo dev.settings logger os ∧
      LoggerDev.debugInfo dev.settings.flipMessage logger os aLevel aLine aFile aFunc =
        LoggerDev.debugInfo dev.settings logger os aLevel aLine aFile aFunc ∧
      LoggerDev.isFullDebugInfo dev.settings.flipMessage logger os aLevel aLine aFile aFunc =
        LoggerDev.isFullDebugInfo dev.settings logger os aLevel aLine aFile aFunc ∧
      (dev.setSettings dev.settings.flipMessage).vlogGeneric logger os aLevel aLine aFile aFunc
          aFmt anArgs =
        dev.vlogGeneric logger os aLevel aLine aFile aFunc aFmt anArgs ∧
      dev.vlogGeneric logger os aLevel aLine aFile aFunc aFmt anArgs =
        (if ¬ (0 ≤ aLevel) then none
          else if ¬ (aLevel ≤ LOG_MAX_LEVEL) then none
          else if !dev.settings.isLogShown aLevel then some []
          else dev.printLog aLevel (LoggerDev.dateInfo dev.settings logger os)
            (LoggerDev.processInfo dev.settings logger os)
            (LoggerDev.debugInfo dev.settings logger os aLevel aLine aFile aFunc)
            (LoggerDev.isFullDebugInfo dev.settings logger os aLevel aLine aFile aFunc)
            (SmartBuffer.append 1024 "" (sprintf aFmt anArgs))) := by
  refine ⟨flipMessage_isMessage _, ?_, ?_, ?_, ?_, ?_, rfl⟩
  · rw [LoggerDev.dateInfo, LoggerDev.dateInfo, flipMessage_dateInfo]
  · rw [LoggerDev.processInfo, LoggerDev.processInfo, flipMessage_processInfo]
  · rw [LoggerDev.debugInfo, LoggerDev.debugInfo, flipMessage_dateInfo, flipMessage_debugInfo]
  · rw [LoggerDev.isFullDebugInfo, LoggerDev.isFullDebugInfo, flipMessage_dateInfo,
      flipMessage_debugInfo]
  · have hshown : ∀ s : LoggerSettings, s.flipMessage.isLogShown aLevel = s.isLogShown aLevel :=
      fun _ => rfl
    cases dev with
    | FileLoggerDev iSettings iFp iIsFpOwner =>
      simp only [LoggerDev.vlogGeneric, LoggerDev.setSettings, LoggerDev.settings,
        LoggerDev.printLog, hshown, flipMessage_dateInfo, flipMessage_processInfo,
        flipMessage_debugInfo, flipMessage_file_printLog]
    | SysLogDev iSettings =>
      simp only [LoggerDev.vlogGeneric, LoggerDev.setSettings, LoggerDev.settings,
        LoggerDev.printLog, hshown, flipMessage_dateInfo, flipMessage_processInfo,
        flipMessage_debugInfo, flipMessage_syslog_printLog]

/-! ## The templates of the syslog sink -/

theorem printLog_templates_snd (settings : LoggerSettings) (d p dbg : String) (full : Bool)
    (msg : String) :
    (SysLogDev.printLog_templates settings d p dbg full msg).2 =
      SmartBuffer.append 32 "" (SysLogDev.printLog_fmtAtCopy d p) := by
  unfold SysLogDev.printLog_templates SysLogDev.printLog_fmtAtCopy
  cases hasText d <;> cases hasText p <;> rfl

theorem printLog_fmtAtCopy_conversions (d p : String) :
    conversions (SysLogDev.printLog_fmtAtCopy d p).data = 2 := by
  unfold SysLogDev.printLog_fmtAtCopy
  cases hasText d <;> cases hasText p <;> decide

/-- Whenever `LoggerDev::vlogGeneric` sets `isFullDebugInfo`, the debug segment it passes to
`printLog` is not empty. -/
theorem isFullDebugInfo_hasText (settings : LoggerSettings) (logger : log_t) (os : OS)
    (aLevel aLine : Int) (aFile aFunc : Option String)
    (h : LoggerDev.isFullDebugInfo settings logger os aLevel aLine aFile aFunc = true) :
    hasText (LoggerDev.debugInfo settings logger os aLevel aLine aFile aFunc) = true := by
  have hc : hasText ":" = true := by decide
  rw [isFullDebugInfo_eq] at h
  rw [debugInfo_eq]
  unfold LoggerDev.vlogGeneric_debugInfo at h ⊢
  by_cases hcond : (settings.isDebugInfo && settings.isLocationShown aLevel) = true
  · simp only [hcond, if_true] at h ⊢
    cases aFile with
    | none => simp at h
    | some file =>
      cases aFunc with
      | none => simp at h
      | some func =>
        simp only [Option.isSome_some, Bool.and_true, Bool.and_eq_true, decide_eq_true_eq]
          at h
        obtain ⟨hline, hfl, hfn⟩ := h
        simp only [hfl, hfn, hline, decide_True, Bool.and_self, if_true]
        rw [hasText_SmartBuffer_append _ _ _ (by decide),
          hasText_SmartBuffer_append _ _ _ (by decide)]
        simp [hasText_append, hc]
  · simp [hcond] at h

/-- On the reading of `SysLogDev.printLog_templates`, where `secondFmt.append(fmt())` copies the
template: for a level in 0..5 and a full-debug flag that is set only with a debug segment,
`SysLogDev::printLog` makes its calls and each call has a template of fewer than 31 characters
with no more `%s` conversions than arguments. -/
theorem syslog_calls_wellFormed_if_copied (settings : LoggerSettings) (aLevel : Int)
    (d p dbg : String) (full : Bool) (msg : String)
    (h0 : 0 ≤ aLevel) (h5 : aLevel ≤ 5) (hfull : full = true → hasText dbg = true) :
    ∃ outputs, SysLogDev.printLog settings aLevel d p dbg full msg = some outputs ∧
      ∀ o ∈ outputs, o.wellFormed = true := by
  obtain ⟨name, hname, -⟩ := level_name_some aLevel h0 h5
  obtain ⟨id, hid⟩ := syslog_level_id_some aLevel h0 h5
  unfold SysLogDev.printLog SysLogDev.printLog_templates
  simp only [hname, hid, Option.bind_eq_bind, Option.some_bind]
  revert hfull
  cases hasText d <;> cases hasText p <;> cases hasText dbg <;> cases hasText msg <;>
    cases full <;> cases settings.isWordWrap <;> cases settings.isFileLine <;>
    simp [Output.wellFormed] <;> decide

/-- C25: the call `secondFmt.append(fmt())` of `SysLogDev::printLog` hands the template built
so far to the `printf`-style `append` as its format. For every date/time and process segment
that template holds exactly two `%s` conversions and the call supplies no argument, so the
call is not matched; `secondFmt`, the template of the second `syslog` call under word wrap, is
what this call leaves in the buffer. For the record of level 5 with line 12, file `a.cpp` and
function `main` on a syslog sink with the format `EFunc | EFileLine | EWordWrap`, the
full-debug flag is set, word wrap is on and the format handed over is `%s%s`. -/
theorem secondFmt_append_unmatched (settings : LoggerSettings) (d p dbg : String)
    (full : Bool) (msg : String) :
    (SysLogDev.printLog_templates settings d p dbg full msg).2 =
        SmartBuffer.append 32 "" (SysLogDev.printLog_fmtAtCopy d p) ∧
      conversions (SysLogDev.printLog_fmtAtCopy d p).data = 2 ∧
      formatMatched (SysLogDev.printLog_fmtAtCopy d p) [] = false ∧
      LoggerDev.isFullDebugInfo ⟨5, 33, 13⟩ sampleLogger sampleOS 5 12 (some "a.cpp")
        (some "main") = true ∧
      LoggerSettings.isWordWrap ⟨5, 33, 13⟩ = true ∧
      SysLogDev.printLog_fmtAtCopy (LoggerDev.dateInfo ⟨5, 33, 13⟩ sampleLogger sampleOS)
        (LoggerDev.processInfo ⟨5, 33, 13⟩ sampleLogger sampleOS) = "%s%s" := by
  have hc := printLog_fmtAtCopy_conversions d p
  refine ⟨printLog_templates_snd settings d p dbg full msg, hc, ?_, by decide, by decide,
    by decide⟩
  simp [formatMatched, hc]

end Qmlog
